import Mathlib

/-! # The special file driver (`drivers/special/special.c`)

A shallow embedding of the driver behind the `null`, `zero`, `full`, `random`
and `urandom` devices, and theorems about its device lifetime, its state
changes and its reads and writes.

The driver's code runs on a `SYSTEM`: the device context it is handed, the
processor's run level, and the trace of the calls it makes into the rest of the
kernel (pool allocator, I/O manager, Fortuna generator, run level and spin lock
services), oldest call first.  What those calls return is not decided by the
driver; it is supplied to each routine as an environment record.

Machine integers are natural numbers reduced modulo `2 ^ 32` where the code
can overflow.  A routine of the driver that returns a value returns it next to
the new `SYSTEM`.
-/

namespace Special

/-! ## Data types -/

/-- The device kinds of `SPECIAL_DEVICE_TYPE`. -/
inductive SPECIAL_DEVICE_TYPE
  | SpecialDeviceInvalid
  | SpecialDeviceNull
  | SpecialDeviceZero
  | SpecialDeviceFull
  | SpecialDevicePseudoRandom
  deriving DecidableEq, Repr

/-- Modelled from the spec: the status codes and the `KSUCCESS` test come from a
kernel header that is not among the sources.  The codes the driver names are
kept by name; `STATUS_OTHER` stands for any further failure code an external
call may hand back. -/
inductive KSTATUS
  | STATUS_SUCCESS
  | STATUS_NOT_SUPPORTED
  | STATUS_INSUFFICIENT_RESOURCES
  | STATUS_PATH_NOT_FOUND
  | STATUS_VOLUME_FULL
  | STATUS_FILE_CORRUPT
  | STATUS_OTHER (Code : Nat)
  deriving DecidableEq, Repr

/-- Modelled from the spec: `KSUCCESS` is declared in a header that is not among
the sources; a status is a success exactly when it is `STATUS_SUCCESS`. -/
def KSUCCESS (Status : KSTATUS) : Bool :=
  Status == KSTATUS.STATUS_SUCCESS

/-- Modelled from the spec: the system time type is declared in a header that is
not among the sources; a timestamp is a count of seconds and nanoseconds. -/
structure SYSTEM_TIME where
  Seconds : Int
  Nanoseconds : Int
  deriving DecidableEq, Repr

/-- Modelled from the spec: the run levels are declared in a header that is not
among the sources; the driver names only `RunLevelDispatch`. -/
inductive RUNLEVEL
  | RunLevelLow
  | RunLevelDispatch
  | RunLevelHigh
  deriving DecidableEq, Repr

/-- The three entry points copied from `SpecialPseudoRandomInterfaceTemplate`. -/
inductive SPECIAL_ROUTINE
  | SpecialPseudoRandomAddEntropy
  | SpecialPseudoRandomAddTimePointEntropy
  | SpecialPseudoRandomGetBytes
  deriving DecidableEq, Repr

/-- The capability record `INTERFACE_PSEUDO_RANDOM_SOURCE`: a back-reference to
the owning device (an address, `none` for `NULL`) and three entry points. -/
structure INTERFACE_PSEUDO_RANDOM_SOURCE where
  DeviceToken : Option Nat
  AddEntropy : SPECIAL_ROUTINE
  AddTimePointEntropy : SPECIAL_ROUTINE
  GetBytes : SPECIAL_ROUTINE
  deriving DecidableEq, Repr

/-- The global `SpecialPseudoRandomInterfaceTemplate`. -/
def SpecialPseudoRandomInterfaceTemplate : INTERFACE_PSEUDO_RANDOM_SOURCE where
  DeviceToken := none
  AddEntropy := SPECIAL_ROUTINE.SpecialPseudoRandomAddEntropy
  AddTimePointEntropy := SPECIAL_ROUTINE.SpecialPseudoRandomAddTimePointEntropy
  GetBytes := SPECIAL_ROUTINE.SpecialPseudoRandomGetBytes

/-- The device context `SPECIAL_DEVICE`.  The field `Type` of the source is
`Type_` here.  Pointers are addresses, `none` for `NULL`; `Lock` tells whether
the spin lock is held; the interface record lives in the same allocation as the
device, so its contents are kept in the device. -/
structure SPECIAL_DEVICE where
  Type_ : SPECIAL_DEVICE_TYPE
  CreationTime : SYSTEM_TIME
  ReferenceCount : Nat
  FortunaContext : Option Nat
  Lock : Bool
  Interface : Option INTERFACE_PSEUDO_RANDOM_SOURCE
  InterfaceRegistered : Bool
  deriving DecidableEq, Repr

/-- The device context after `RtlZeroMemory`. -/
def ZeroedDevice : SPECIAL_DEVICE where
  Type_ := SPECIAL_DEVICE_TYPE.SpecialDeviceInvalid
  CreationTime := ⟨0, 0⟩
  ReferenceCount := 0
  FortunaContext := none
  Lock := false
  Interface := none
  InterfaceRegistered := false

/-- The major codes of a request. -/
inductive IRP_MAJOR_CODE
  | IrpMajorInvalid
  | IrpMajorStateChange
  | IrpMajorOpen
  | IrpMajorClose
  | IrpMajorIo
  | IrpMajorSystemControl
  | IrpMajorUserControl
  deriving DecidableEq, Repr

/-- Modelled from the spec: the minor codes are declared in a header that is not
among the sources.  The codes the driver names are kept by name;
`IrpMinorOther` stands for every other code. -/
inductive IRP_MINOR_CODE
  | IrpMinorQueryResources
  | IrpMinorStartDevice
  | IrpMinorQueryChildren
  | IrpMinorRemoveDevice
  | IrpMinorIoRead
  | IrpMinorIoWrite
  | IrpMinorSystemControlLookup
  | IrpMinorSystemControlWriteFileProperties
  | IrpMinorSystemControlTruncate
  | IrpMinorOther (Code : Nat)
  deriving DecidableEq, Repr

/-- The direction a request travels in the driver stack. -/
inductive IRP_DIRECTION
  | IrpDown
  | IrpUp
  deriving DecidableEq, Repr

/-- Modelled from the spec: the I/O object state is declared in a header that is
not among the sources; of its poll events the driver sets "readable"
(`POLL_EVENT_IN`) and "writable" (`POLL_EVENT_OUT`). -/
structure IO_OBJECT_STATE where
  PollEventIn : Bool
  PollEventOut : Bool
  deriving DecidableEq, Repr

/-- The request packet, with the members of its union `U` side by side:
`IoState` for open requests (`none` for `NULL`), and the transfer buffer, the
requested size and the completed size for read and write requests. -/
structure IRP where
  MajorCode : IRP_MAJOR_CODE
  MinorCode : IRP_MINOR_CODE
  Direction : IRP_DIRECTION
  Device : Nat
  IoState : Option IO_OBJECT_STATE
  IoBuffer : Option (List Nat)
  IoSizeInBytes : Nat
  IoBytesCompleted : Nat
  deriving DecidableEq, Repr

/-- A call the driver makes into the rest of the kernel, with the arguments and
the result that matter here.  `RtlRaiseAssertion` is a failed `ASSERT`, named by
its line in `special.c`; `SpecialDestroyDevice` marks the entry into the
driver's own destroy routine. -/
inductive EVENT
  | RtlDebugPrint (DeviceId : String)
  | MmAllocateNonPagedPool (Result : Option Nat)
  | MmAllocatePagedPool (Result : Option Nat)
  | MmFreeNonPagedPool (Address : Nat)
  | MmFreePagedPool (Address : Nat)
  | CyFortunaInitialize (Context : Nat) (Frequency : Nat)
  | KeInitializeSpinLock
  | KeGetSystemTime (Time : SYSTEM_TIME)
  | IoAttachDriverToDevice (DeviceToken : Nat) (Context : Nat) (Status : KSTATUS)
  | IoCreateInterface (Device : Nat) (Status : KSTATUS)
  | IoDestroyInterface (Device : Nat) (Status : KSTATUS)
  | IoSetIoObjectState (PollEventIn PollEventOut Set : Bool)
  | IoCompleteIrp (Irp : IRP) (Status : KSTATUS)
  | KeRaiseRunLevel (RunLevel : RUNLEVEL)
  | KeLowerRunLevel (RunLevel : RUNLEVEL)
  | KeAcquireSpinLock
  | KeReleaseSpinLock
  | HlQueryProcessorCounter (Counter : Nat)
  | CyFortunaAddEntropy (Data : List Nat)
  | RtlRaiseAssertion (Line : Nat)
  | SpecialDestroyDevice
  | MmZeroIoBuffer (Offset Size : Nat) (Status : KSTATUS)
  | MmCopyIoBufferData (Offset Size : Nat) (ToIoBuffer : Bool) (Status : KSTATUS)
  | CyFortunaGetRandomBytes (Size : Nat) (Output : List Nat)
  deriving DecidableEq, Repr

/-- What the driver's code reads and writes: the device context at address
`Context`, the run level of the processor, and the calls made so far. -/
structure SYSTEM where
  Context : Nat
  Device : SPECIAL_DEVICE
  RunLevel : RUNLEVEL
  Trace : List EVENT
  deriving DecidableEq, Repr

open SPECIAL_DEVICE_TYPE KSTATUS RUNLEVEL IRP_MAJOR_CODE IRP_MINOR_CODE IRP_DIRECTION

/-! ## Kernel services -/

/-- Records one call in the trace. -/
def emit (Event : EVENT) (s : SYSTEM) : SYSTEM :=
  { s with Trace := s.Trace ++ [Event] }

/-- Modelled from the spec: the `ASSERT` macro is declared in a header that is
not among the sources.  A failed assertion raises an assertion fault, recorded
in the trace under the line of the assertion; it is not a status handed back.
The statements after the assertion are still followed, as `SpecialDispatchIo`
does after its `ASSERT(FALSE)`, so that the state at the fault is known. -/
def ASSERT (Condition : Bool) (Line : Nat) (s : SYSTEM) : SYSTEM :=
  if Condition then s else emit (EVENT.RtlRaiseAssertion Line) s

/-- Modelled from the spec: `RtlAtomicAdd32` is declared in a header that is not
among the sources.  It adds to a 32-bit cell, wrapping around at
`2 ^ 32 = 4294967296`, and returns the value the cell held before (first
component) next to the new value. -/
def RtlAtomicAdd32 (Value : Nat) (Addend : Nat) : Nat × Nat :=
  (Value, (Value + Addend) % 4294967296)

/-- Modelled from the spec: `IoAreDeviceIdsEqual` belongs to the I/O manager,
which is not among the sources; device identifiers are matched exactly, case
included. -/
def IoAreDeviceIdsEqual (DeviceIdOne DeviceIdTwo : String) : Bool :=
  DeviceIdOne == DeviceIdTwo

/-- Modelled from the spec: `KeRaiseRunLevel` comes from the kernel executive,
which is not among the sources; it sets the run level and returns the old one. -/
def KeRaiseRunLevel (RunLevel : RUNLEVEL) (s : SYSTEM) : RUNLEVEL × SYSTEM :=
  (s.RunLevel, emit (EVENT.KeRaiseRunLevel RunLevel) { s with RunLevel := RunLevel })

/-- Modelled from the spec: `KeLowerRunLevel` restores the given run level. -/
def KeLowerRunLevel (RunLevel : RUNLEVEL) (s : SYSTEM) : SYSTEM :=
  emit (EVENT.KeLowerRunLevel RunLevel) { s with RunLevel := RunLevel }

/-- Modelled from the spec: `KeAcquireSpinLock` takes the device lock. -/
def KeAcquireSpinLock (s : SYSTEM) : SYSTEM :=
  emit EVENT.KeAcquireSpinLock { s with Device := { s.Device with Lock := true } }

/-- Modelled from the spec: `KeReleaseSpinLock` frees the device lock. -/
def KeReleaseSpinLock (s : SYSTEM) : SYSTEM :=
  emit EVENT.KeReleaseSpinLock { s with Device := { s.Device with Lock := false } }

/-- Modelled from the spec: `IoSetIoObjectState` belongs to the I/O manager; it
sets or clears the given poll events in an I/O object state. -/
def IoSetIoObjectState (IoState : IO_OBJECT_STATE) (PollEventIn PollEventOut Set : Bool) :
    IO_OBJECT_STATE :=
  if Set then
    { PollEventIn := IoState.PollEventIn || PollEventIn,
      PollEventOut := IoState.PollEventOut || PollEventOut }
  else
    { PollEventIn := IoState.PollEventIn && !PollEventIn,
      PollEventOut := IoState.PollEventOut && !PollEventOut }

/-- The bytes of a 64-bit counter as they lie in memory, lowest byte first. -/
def CounterBytes (Counter : Nat) : List Nat :=
  (List.range 8).map (fun i => Counter / 256 ^ i % 256)

/-! ## Reference counting and destruction -/

/-- `SpecialDestroyDevice`: asserts that the interface is not registered, then
frees the device from the pool its kind was allocated from. -/
def SpecialDestroyDevice (s : SYSTEM) : SYSTEM :=
  let s := emit EVENT.SpecialDestroyDevice s
  let s := ASSERT (s.Device.InterfaceRegistered == false) 1317 s
  if s.Device.Type_ == SpecialDevicePseudoRandom then
    emit (EVENT.MmFreeNonPagedPool s.Context) s
  else
    emit (EVENT.MmFreePagedPool s.Context) s

/-- `SpecialDeviceAddReference`: adds one to the reference count and asserts
that the old count was below the sanity ceiling. -/
def SpecialDeviceAddReference (s : SYSTEM) : SYSTEM :=
  let OldReferenceCount := (RtlAtomicAdd32 s.Device.ReferenceCount 1).1
  let s := { s with Device := { s.Device with
    ReferenceCount := (RtlAtomicAdd32 s.Device.ReferenceCount 1).2 } }
  ASSERT (decide (OldReferenceCount < 0x10000000)) 1253 s

/-- `SpecialDeviceReleaseReference`: adds `(ULONG)-1` to the reference count,
asserts that the old count was neither zero nor at the ceiling, and destroys
the device when the old count was one. -/
def SpecialDeviceReleaseReference (s : SYSTEM) : SYSTEM :=
  let OldReferenceCount := (RtlAtomicAdd32 s.Device.ReferenceCount 0xFFFFFFFF).1
  let s := { s with Device := { s.Device with
    ReferenceCount := (RtlAtomicAdd32 s.Device.ReferenceCount 0xFFFFFFFF).2 } }
  let s := ASSERT (OldReferenceCount != 0 && decide (OldReferenceCount < 0x10000000)) 1285 s
  if OldReferenceCount == 1 then SpecialDestroyDevice s else s

/-! ## Attaching a device -/

/-- What the kernel hands `SpecialAddDevice`: the result of its one pool
allocation (`none` for `NULL`), the time counter frequency, the system time,
the status of `IoAttachDriverToDevice`, the size of the device context (the
Fortuna context is laid out right after it), and the run level on entry. -/
structure ADD_DEVICE_ENVIRONMENT where
  Allocation : Option Nat
  TimeCounterFrequency : Nat
  SystemTime : SYSTEM_TIME
  AttachStatus : KSTATUS
  SizeOfSpecialDevice : Nat
  RunLevel : RUNLEVEL
  deriving DecidableEq, Repr

/-- What `SpecialAddDevice` leaves behind: the status it returns, its local
`Context` (`none` for `NULL`), and the system, whose `Device` is the memory
`Context` points to when it is not `NULL`. -/
structure ADD_DEVICE_RESULT where
  Status : KSTATUS
  Context : Option Nat
  System : SYSTEM
  deriving DecidableEq, Repr

/-- The chain of comparisons at the head of `SpecialAddDevice` that picks the
device type; `none` is the final `else` branch, where the device is not
recognized. -/
def SpecialAddDeviceType (DeviceId : String) : Option SPECIAL_DEVICE_TYPE :=
  if IoAreDeviceIdsEqual DeviceId "null" != false then
    some SpecialDeviceNull
  else if IoAreDeviceIdsEqual DeviceId "zero" != false then
    some SpecialDeviceZero
  else if IoAreDeviceIdsEqual DeviceId "full" != false then
    some SpecialDeviceFull
  else if IoAreDeviceIdsEqual DeviceId "urandom" != false then
    some SpecialDevicePseudoRandom
  else if IoAreDeviceIdsEqual DeviceId "random" != false then
    some SpecialDevicePseudoRandom
  else
    none

/-- The label `AddDeviceEnd` of `SpecialAddDevice`: on a failing status the
reference on a context that was created is released. -/
def SpecialAddDeviceEnd (Status : KSTATUS) (Context : Option Nat) (s : SYSTEM) :
    ADD_DEVICE_RESULT :=
  if !KSUCCESS Status then
    if Context != none then
      { Status := Status, Context := Context, System := SpecialDeviceReleaseReference s }
    else
      { Status := Status, Context := Context, System := s }
  else
    { Status := Status, Context := Context, System := s }

/-- `SpecialAddDevice`: picks the device type from the identifier, allocates and
fills the device context (non-paged, with the Fortuna context and the
interface, for the pseudo-random device; paged otherwise), and attaches it to
the device stack. -/
def SpecialAddDevice (DeviceId : String) (DeviceToken : Nat) (Env : ADD_DEVICE_ENVIRONMENT) :
    ADD_DEVICE_RESULT :=
  let s : SYSTEM := { Context := 0, Device := ZeroedDevice, RunLevel := Env.RunLevel, Trace := [] }
  match SpecialAddDeviceType DeviceId with
  | none =>
    let s := emit (EVENT.RtlDebugPrint DeviceId) s
    SpecialAddDeviceEnd STATUS_NOT_SUPPORTED none s
  | some DeviceType =>
    if DeviceType == SpecialDevicePseudoRandom then
      let s := emit (EVENT.MmAllocateNonPagedPool Env.Allocation) s
      match Env.Allocation with
      | none => SpecialAddDeviceEnd STATUS_INSUFFICIENT_RESOURCES none s
      | some Context =>
        let s := { s with Context := Context, Device := ZeroedDevice }
        let s := { s with Device := { s.Device with
          FortunaContext := some (Context + Env.SizeOfSpecialDevice) } }
        let s := emit (EVENT.CyFortunaInitialize (Context + Env.SizeOfSpecialDevice)
          Env.TimeCounterFrequency) s
        let s := emit EVENT.KeInitializeSpinLock { s with Device := { s.Device with Lock := false } }
        let s := { s with Device := { s.Device with
          Interface := some { SpecialPseudoRandomInterfaceTemplate with
            DeviceToken := some Context } } }
        let s := { s with Device := { s.Device with Type_ := DeviceType } }
        let s := { s with Device := { s.Device with ReferenceCount := 1 } }
        let s := emit (EVENT.KeGetSystemTime Env.SystemTime)
          { s with Device := { s.Device with CreationTime := Env.SystemTime } }
        let Status := Env.AttachStatus
        let s := emit (EVENT.IoAttachDriverToDevice DeviceToken Context Status) s
        SpecialAddDeviceEnd Status (some Context) s
    else
      let s := emit (EVENT.MmAllocatePagedPool Env.Allocation) s
      match Env.Allocation with
      | none => SpecialAddDeviceEnd STATUS_INSUFFICIENT_RESOURCES none s
      | some Context =>
        let s := { s with Context := Context, Device := ZeroedDevice }
        let s := { s with Device := { s.Device with Type_ := DeviceType } }
        let s := { s with Device := { s.Device with ReferenceCount := 1 } }
        let s := emit (EVENT.KeGetSystemTime Env.SystemTime)
          { s with Device := { s.Device with CreationTime := Env.SystemTime } }
        let Status := Env.AttachStatus
        let s := emit (EVENT.IoAttachDriverToDevice DeviceToken Context Status) s
        SpecialAddDeviceEnd Status (some Context) s

/-- The system as `SpecialAddDevice` has built it when it reaches the label
`AddDeviceEnd` with a device of the given type created at `Context`. -/
def SpecialAddDeviceCreated (Kind : SPECIAL_DEVICE_TYPE) (Context DeviceToken : Nat)
    (Env : ADD_DEVICE_ENVIRONMENT) : SYSTEM where
  Context := Context
  Device :=
    { Type_ := Kind,
      CreationTime := Env.SystemTime,
      ReferenceCount := 1,
      FortunaContext :=
        if Kind = SpecialDevicePseudoRandom then some (Context + Env.SizeOfSpecialDevice)
        else none,
      Lock := false,
      Interface :=
        if Kind = SpecialDevicePseudoRandom then
          some { SpecialPseudoRandomInterfaceTemplate with DeviceToken := some Context }
        else none,
      InterfaceRegistered := false }
  RunLevel := Env.RunLevel
  Trace :=
    if Kind = SpecialDevicePseudoRandom then
      [EVENT.MmAllocateNonPagedPool (some Context),
        EVENT.CyFortunaInitialize (Context + Env.SizeOfSpecialDevice) Env.TimeCounterFrequency,
        EVENT.KeInitializeSpinLock,
        EVENT.KeGetSystemTime Env.SystemTime,
        EVENT.IoAttachDriverToDevice DeviceToken Context Env.AttachStatus]
    else
      [EVENT.MmAllocatePagedPool (some Context),
        EVENT.KeGetSystemTime Env.SystemTime,
        EVENT.IoAttachDriverToDevice DeviceToken Context Env.AttachStatus]

/-! ## State changes, open and close -/

/-- What the kernel hands a state change request: the statuses of
`IoCreateInterface` and `IoDestroyInterface`, should they be called, and the
reading of the processor counter. -/
structure STATE_CHANGE_ENVIRONMENT where
  CreateInterfaceStatus : KSTATUS
  DestroyInterfaceStatus : KSTATUS
  ProcessorCounter : Nat
  deriving DecidableEq, Repr

/-- `SpecialPseudoRandomAddTimePointEntropy`: mixes one reading of the processor
counter into the generator, at dispatch level and under the device lock.  The
system holds the one device the interface's token points to. -/
def SpecialPseudoRandomAddTimePointEntropy (Counter : Nat) (s : SYSTEM) : SYSTEM :=
  let s := ASSERT (s.Device.Type_ == SpecialDevicePseudoRandom) 1169 s
  let OldRunLevel := (KeRaiseRunLevel RunLevelDispatch s).1
  let s := (KeRaiseRunLevel RunLevelDispatch s).2
  let s := emit (EVENT.HlQueryProcessorCounter Counter) s
  let s := KeAcquireSpinLock s
  let s := emit (EVENT.CyFortunaAddEntropy (CounterBytes Counter)) s
  let s := KeReleaseSpinLock s
  KeLowerRunLevel OldRunLevel s

/-- `SpecialPseudoRandomStartDevice`: publishes the interface unless it is
already registered, and mixes in the current point in time. -/
def SpecialPseudoRandomStartDevice (Irp : IRP) (Env : STATE_CHANGE_ENVIRONMENT) (s : SYSTEM) :
    KSTATUS × SYSTEM :=
  let s := ASSERT (s.Device.Type_ == SpecialDevicePseudoRandom) 910 s
  if s.Device.InterfaceRegistered != false then
    (STATUS_SUCCESS, s)
  else
    let Status := Env.CreateInterfaceStatus
    let s := emit (EVENT.IoCreateInterface Irp.Device Status) s
    let s := if KSUCCESS Status then
      { s with Device := { s.Device with InterfaceRegistered := true } } else s
    let s := SpecialPseudoRandomAddTimePointEntropy Env.ProcessorCounter s
    (Status, s)

/-- `SpecialPseudoRandomRemoveDevice`: withdraws the interface if it is
registered. -/
def SpecialPseudoRandomRemoveDevice (Irp : IRP) (Env : STATE_CHANGE_ENVIRONMENT) (s : SYSTEM) :
    KSTATUS × SYSTEM :=
  let s := ASSERT (s.Device.Type_ == SpecialDevicePseudoRandom) 961 s
  if s.Device.InterfaceRegistered == false then
    (STATUS_SUCCESS, s)
  else
    let Status := Env.DestroyInterfaceStatus
    let s := emit (EVENT.IoDestroyInterface Irp.Device Status) s
    let s := if KSUCCESS Status then
      { s with Device := { s.Device with InterfaceRegistered := false } } else s
    (Status, s)

/-- `SpecialDispatchStateChange`. -/
def SpecialDispatchStateChange (Irp : IRP) (Env : STATE_CHANGE_ENVIRONMENT) (s : SYSTEM) :
    SYSTEM :=
  let s := ASSERT (Irp.MajorCode == IrpMajorStateChange) 451 s
  match Irp.MinorCode with
  | IrpMinorQueryResources =>
    if Irp.Direction == IrpUp then emit (EVENT.IoCompleteIrp Irp STATUS_SUCCESS) s else s
  | IrpMinorStartDevice =>
    if Irp.Direction == IrpUp then
      let r := if s.Device.Type_ == SpecialDevicePseudoRandom then
        SpecialPseudoRandomStartDevice Irp Env s else (STATUS_SUCCESS, s)
      emit (EVENT.IoCompleteIrp Irp r.1) r.2
    else s
  | IrpMinorQueryChildren => emit (EVENT.IoCompleteIrp Irp STATUS_SUCCESS) s
  | IrpMinorRemoveDevice =>
    if Irp.Direction == IrpUp then
      let r := if s.Device.Type_ == SpecialDevicePseudoRandom then
        SpecialPseudoRandomRemoveDevice Irp Env s else (STATUS_SUCCESS, s)
      let s := if KSUCCESS r.1 then SpecialDeviceReleaseReference r.2 else r.2
      emit (EVENT.IoCompleteIrp Irp r.1) s
    else s
  | _ => s

/-- `SpecialDispatchOpen`: takes a reference, marks the I/O state readable and
writable, and completes the request.  Returns the request as it was completed
next to the system. -/
def SpecialDispatchOpen (Irp : IRP) (s : SYSTEM) : IRP × SYSTEM :=
  let s := SpecialDeviceAddReference s
  let s := ASSERT (Irp.IoState != none) 546 s
  let s := emit (EVENT.IoSetIoObjectState true true true) s
  let Irp := { Irp with IoState := Irp.IoState.map (fun State =>
    IoSetIoObjectState State true true true) }
  (Irp, emit (EVENT.IoCompleteIrp Irp STATUS_SUCCESS) s)

/-- `SpecialDispatchClose`: drops a reference and completes the request. -/
def SpecialDispatchClose (Irp : IRP) (s : SYSTEM) : SYSTEM :=
  let s := SpecialDeviceReleaseReference s
  emit (EVENT.IoCompleteIrp Irp STATUS_SUCCESS) s

/-! ## Reads and writes -/

/-- The size of the scratch buffer of the pseudo-random device,
`SPECIAL_URANDOM_BUFFER_SIZE`. -/
def SPECIAL_URANDOM_BUFFER_SIZE : Nat := 2048

/-- What the kernel hands a read or write request: the status of
`MmZeroIoBuffer`, the result of the scratch allocation (`none` for `NULL`) and
what that memory holds, the status of the `MmCopyIoBufferData` call made at each
offset of the transfer buffer, and the byte the generator produces for each
offset of a read. -/
structure IO_ENVIRONMENT where
  ZeroIoBufferStatus : KSTATUS
  ScratchAllocation : Option Nat
  ScratchContents : List Nat
  CopyStatus : Nat → KSTATUS
  RandomByte : Nat → Nat

/-- Modelled from the spec: `MmZeroIoBuffer` belongs to the memory manager,
which is not among the sources; when it succeeds the `Size` bytes of the
transfer buffer from `Offset` on are zero, when it fails the buffer is left as
it was. -/
def MmZeroIoBuffer (IoBuffer : List Nat) (Offset Size : Nat) (Status : KSTATUS) : List Nat :=
  if KSUCCESS Status then
    IoBuffer.take Offset ++ List.replicate Size 0 ++ IoBuffer.drop (Offset + Size)
  else IoBuffer

/-- Modelled from the spec: `MmCopyIoBufferData` belongs to the memory manager,
which is not among the sources.  When it succeeds it copies `Size` bytes
between the transfer buffer at `Offset` and the start of the scratch buffer,
into the transfer buffer if `ToIoBuffer` is set and out of it otherwise (a byte
beyond the end of a buffer reads as 0); when it fails both are left as they
were.  Returns the transfer buffer and the scratch buffer. -/
def MmCopyIoBufferData (IoBuffer Buffer : List Nat) (Offset Size : Nat) (ToIoBuffer : Bool)
    (Status : KSTATUS) : List Nat × List Nat :=
  if KSUCCESS Status then
    if ToIoBuffer then
      (IoBuffer.take Offset ++ (List.range Size).map (fun i => Buffer.getD i 0) ++
        IoBuffer.drop (Offset + Size), Buffer)
    else
      (IoBuffer, (List.range Size).map (fun i => IoBuffer.getD (Offset + i) 0) ++
        Buffer.drop Size)
  else (IoBuffer, Buffer)

/-- `SpecialFillZeroes`: zeroes the transfer buffer of a read request over its
whole size and, if that succeeds, reports the whole size as completed.  Returns
the status, the request and the system. -/
def SpecialFillZeroes (Irp : IRP) (Env : IO_ENVIRONMENT) (s : SYSTEM) : KSTATUS × IRP × SYSTEM :=
  let s := ASSERT (Irp.MinorCode == IrpMinorIoRead) 867 s
  let s := ASSERT (Irp.IoBuffer != none) 868 s
  let Status := Env.ZeroIoBufferStatus
  let s := emit (EVENT.MmZeroIoBuffer 0 Irp.IoSizeInBytes Status) s
  let Irp := { Irp with IoBuffer := Irp.IoBuffer.map (fun IoBuffer =>
    MmZeroIoBuffer IoBuffer 0 Irp.IoSizeInBytes Status) }
  if !KSUCCESS Status then
    (Status, Irp, s)
  else
    (STATUS_SUCCESS, { Irp with IoBytesCompleted := Irp.IoSizeInBytes }, s)

/-- The local variables of `SpecialPerformPseudoRandomIo` at the head of its
loop, with the request and the system: `Buffer` is what the scratch buffer
holds. -/
structure PSEUDO_RANDOM_IO where
  Irp : IRP
  System : SYSTEM
  Buffer : List Nat
  BytesRemaining : Nat
  IoBufferOffset : Nat

/-- The `while (BytesRemaining != 0)` loop of `SpecialPerformPseudoRandomIo`, up
to the label `PerformPseudoRandomIoEnd`.  Every round takes at least one byte
off `BytesRemaining`, so the loop is unrolled at most `Fuel` times, and
`SpecialPerformPseudoRandomIo` passes the requested size as `Fuel`.  Returns
the status with which the label is reached. -/
def SpecialPerformPseudoRandomIoLoop (Env : IO_ENVIRONMENT) :
    Nat → PSEUDO_RANDOM_IO → KSTATUS × PSEUDO_RANDOM_IO
  | 0, Io => (STATUS_SUCCESS, Io)
  | Fuel + 1, Io =>
    if Io.BytesRemaining != 0 then
      let Size :=
        if SPECIAL_URANDOM_BUFFER_SIZE > Io.BytesRemaining then Io.BytesRemaining
        else SPECIAL_URANDOM_BUFFER_SIZE
      if Io.Irp.MinorCode == IrpMinorIoWrite then
        let Status := Env.CopyStatus Io.IoBufferOffset
        let Buffer := (MmCopyIoBufferData (Io.Irp.IoBuffer.getD []) Io.Buffer Io.IoBufferOffset
          Size false Status).2
        let s := emit (EVENT.MmCopyIoBufferData Io.IoBufferOffset Size false Status) Io.System
        if !KSUCCESS Status then
          (Status, { Io with System := s, Buffer := Buffer })
        else
          let OldRunLevel := (KeRaiseRunLevel RunLevelDispatch s).1
          let s := (KeRaiseRunLevel RunLevelDispatch s).2
          let s := KeAcquireSpinLock s
          let s := emit (EVENT.CyFortunaAddEntropy (Buffer.take Size)) s
          let s := KeReleaseSpinLock s
          let s := KeLowerRunLevel OldRunLevel s
          SpecialPerformPseudoRandomIoLoop Env Fuel
            { Io with
              System := s,
              Buffer := Buffer,
              BytesRemaining := Io.BytesRemaining - Size,
              IoBufferOffset := Io.IoBufferOffset + Size }
      else
        let OldRunLevel := (KeRaiseRunLevel RunLevelDispatch Io.System).1
        let s := (KeRaiseRunLevel RunLevelDispatch Io.System).2
        let s := KeAcquireSpinLock s
        let Output := (List.range Size).map (fun i => Env.RandomByte (Io.IoBufferOffset + i))
        let s := emit (EVENT.CyFortunaGetRandomBytes Size Output) s
        let Buffer := Output ++ Io.Buffer.drop Size
        let s := KeReleaseSpinLock s
        let s := KeLowerRunLevel OldRunLevel s
        let Status := Env.CopyStatus Io.IoBufferOffset
        let Irp := { Io.Irp with IoBuffer := Io.Irp.IoBuffer.map (fun IoBuffer =>
          (MmCopyIoBufferData IoBuffer Buffer Io.IoBufferOffset Size true Status).1) }
        let s := emit (EVENT.MmCopyIoBufferData Io.IoBufferOffset Size true Status) s
        if !KSUCCESS Status then
          (Status, { Io with Irp := Irp, System := s, Buffer := Buffer })
        else
          SpecialPerformPseudoRandomIoLoop Env Fuel
            { Irp := Irp,
              System := s,
              Buffer := Buffer,
              BytesRemaining := Io.BytesRemaining - Size,
              IoBufferOffset := Io.IoBufferOffset + Size }
    else
      (STATUS_SUCCESS, Io)

/-- `SpecialPerformPseudoRandomIo`: serves a read or write of the pseudo-random
device through a scratch buffer, one chunk of at most
`SPECIAL_URANDOM_BUFFER_SIZE` bytes at a time, and reports the bytes completed.
Returns the status, the request and the system. -/
def SpecialPerformPseudoRandomIo (Irp : IRP) (Env : IO_ENVIRONMENT) (s : SYSTEM) :
    KSTATUS × IRP × SYSTEM :=
  let s := ASSERT (Irp.IoBuffer != none) 1013 s
  let s := emit (EVENT.MmAllocateNonPagedPool Env.ScratchAllocation) s
  match Env.ScratchAllocation with
  | none =>
    (STATUS_INSUFFICIENT_RESOURCES,
      { Irp with IoBytesCompleted := Irp.IoSizeInBytes - Irp.IoSizeInBytes }, s)
  | some Address =>
    let r := SpecialPerformPseudoRandomIoLoop Env Irp.IoSizeInBytes
      { Irp := Irp,
        System := s,
        Buffer := Env.ScratchContents,
        BytesRemaining := Irp.IoSizeInBytes,
        IoBufferOffset := 0 }
    let s := emit (EVENT.MmFreeNonPagedPool Address) r.2.System
    (r.1, { r.2.Irp with IoBytesCompleted := Irp.IoSizeInBytes - r.2.BytesRemaining }, s)

/-- `SpecialDispatchIo`: serves a read or write according to the device type and
completes the request.  Returns the request as it was completed next to the
system. -/
def SpecialDispatchIo (Irp : IRP) (Env : IO_ENVIRONMENT) (s : SYSTEM) : IRP × SYSTEM :=
  let s := ASSERT (Irp.MajorCode == IrpMajorIo) 635 s
  let s := ASSERT (Irp.Direction == IrpDown) 636 s
  let r : KSTATUS × IRP × SYSTEM :=
    match s.Device.Type_ with
    | SpecialDeviceNull =>
      if Irp.MinorCode == IrpMinorIoRead then
        (STATUS_SUCCESS, { Irp with IoBytesCompleted := 0 }, s)
      else
        let s := ASSERT (Irp.MinorCode == IrpMinorIoWrite) 651 s
        (STATUS_SUCCESS, { Irp with IoBytesCompleted := Irp.IoSizeInBytes }, s)
    | SpecialDeviceZero =>
      if Irp.MinorCode == IrpMinorIoRead then
        SpecialFillZeroes Irp Env s
      else
        let s := ASSERT (Irp.MinorCode == IrpMinorIoWrite) 670 s
        (STATUS_SUCCESS, { Irp with IoBytesCompleted := Irp.IoSizeInBytes }, s)
    | SpecialDeviceFull =>
      if Irp.MinorCode == IrpMinorIoRead then
        SpecialFillZeroes Irp Env s
      else
        let s := ASSERT (Irp.MinorCode == IrpMinorIoWrite) 689 s
        (STATUS_VOLUME_FULL, Irp, s)
    | SpecialDevicePseudoRandom => SpecialPerformPseudoRandomIo Irp Env s
    | SpecialDeviceInvalid =>
      let s := ASSERT false 707 s
      (STATUS_FILE_CORRUPT, Irp, s)
  (r.2.1, emit (EVENT.IoCompleteIrp r.2.1 r.1) r.2.2)

/-! ## System control and user control -/

/-- Modelled from the spec: the types of I/O objects are declared in a header
that is not among the sources.  The type the driver names is kept by name;
`IoObjectOther` stands for every other type. -/
inductive IO_OBJECT_TYPE
  | IoObjectInvalid
  | IoObjectCharacterDevice
  | IoObjectOther (Code : Nat)
  deriving DecidableEq, Repr

/-- Modelled from the spec: `FILE_PERMISSION_ALL` is declared in a header that
is not among the sources; all permission bits are the nine bits that let the
user, the group and the others read, write and execute. -/
def FILE_PERMISSION_ALL : Nat := 0x1FF

/-- Modelled from the spec: the file properties are declared in a header that
is not among the sources; these are the members the driver writes. -/
structure FILE_PROPERTIES where
  FileId : Nat
  Type_ : IO_OBJECT_TYPE
  HardLinkCount : Nat
  BlockSize : Nat
  BlockCount : Nat
  StatusChangeTime : SYSTEM_TIME
  ModifiedTime : SYSTEM_TIME
  AccessTime : SYSTEM_TIME
  Permissions : Nat
  FileSize : Nat
  deriving DecidableEq, Repr

/-- Modelled from the spec: the lookup request is declared in a header that is
not among the sources; these are the members the driver reads and writes. -/
structure SYSTEM_CONTROL_LOOKUP where
  Root : Bool
  Properties : FILE_PROPERTIES
  deriving DecidableEq, Repr

/-- `SpecialDispatchSystemControl`: answers a lookup of the root with the
properties of a character device, fails any other lookup with
`STATUS_PATH_NOT_FOUND`, succeeds for writing file properties and truncating,
and ignores everything else.  `Lookup` is what the system context of the
request points to, read as a lookup request when the minor code says so.
Returns the lookup request next to the system. -/
def SpecialDispatchSystemControl (Irp : IRP) (Lookup : SYSTEM_CONTROL_LOOKUP) (s : SYSTEM) :
    SYSTEM_CONTROL_LOOKUP × SYSTEM :=
  match Irp.MinorCode with
  | IrpMinorSystemControlLookup =>
    if Lookup.Root != false then
      let Properties := { Lookup.Properties with
        FileId := 0,
        Type_ := IO_OBJECT_TYPE.IoObjectCharacterDevice,
        HardLinkCount := 1,
        BlockSize := 1,
        BlockCount := 0,
        StatusChangeTime := s.Device.CreationTime }
      let Properties := { Properties with ModifiedTime := Properties.StatusChangeTime }
      let Properties := { Properties with AccessTime := Properties.StatusChangeTime }
      let Properties := { Properties with Permissions := FILE_PERMISSION_ALL }
      let Properties := { Properties with FileSize := 0 }
      ({ Lookup with Properties := Properties }, emit (EVENT.IoCompleteIrp Irp STATUS_SUCCESS) s)
    else
      (Lookup, emit (EVENT.IoCompleteIrp Irp STATUS_PATH_NOT_FOUND) s)
  | IrpMinorSystemControlWriteFileProperties =>
    (Lookup, emit (EVENT.IoCompleteIrp Irp STATUS_SUCCESS) s)
  | IrpMinorSystemControlTruncate =>
    (Lookup, emit (EVENT.IoCompleteIrp Irp STATUS_SUCCESS) s)
  | _ => (Lookup, ASSERT false 799 s)

/-- `SpecialDispatchUserControl`: returns at once. -/
def SpecialDispatchUserControl (_Irp : IRP) (s : SYSTEM) : SYSTEM :=
  s

/-! ## The entry points of the interface -/

/-- `SpecialPseudoRandomAddEntropy`: mixes the `Length` bytes at `Data` into the
generator, at dispatch level and under the device lock.  The system holds the
one device the interface's token points to. -/
def SpecialPseudoRandomAddEntropy (Data : List Nat) (Length : Nat) (s : SYSTEM) : SYSTEM :=
  let s := ASSERT (s.Device.Type_ == SpecialDevicePseudoRandom) 1126 s
  let OldRunLevel := (KeRaiseRunLevel RunLevelDispatch s).1
  let s := (KeRaiseRunLevel RunLevelDispatch s).2
  let s := KeAcquireSpinLock s
  let s := emit (EVENT.CyFortunaAddEntropy (Data.take Length)) s
  let s := KeReleaseSpinLock s
  KeLowerRunLevel OldRunLevel s

/-- `SpecialPseudoRandomGetBytes`: has the generator produce `Length` bytes, at
dispatch level and under the device lock; `Random` gives the bytes the
generator produces.  Returns the bytes stored at `Data` next to the system. -/
def SpecialPseudoRandomGetBytes (Length : Nat) (Random : Nat → Nat) (s : SYSTEM) :
    List Nat × SYSTEM :=
  let s := ASSERT (s.Device.Type_ == SpecialDevicePseudoRandom) 1216 s
  let OldRunLevel := (KeRaiseRunLevel RunLevelDispatch s).1
  let s := (KeRaiseRunLevel RunLevelDispatch s).2
  let s := KeAcquireSpinLock s
  let Output := (List.range Length).map Random
  let s := emit (EVENT.CyFortunaGetRandomBytes Length Output) s
  let s := KeReleaseSpinLock s
  (Output, KeLowerRunLevel OldRunLevel s)

/-! ## Sequences of calls -/

/-- The two reference counting calls. -/
inductive REFERENCE_CALL
  | AddReference
  | ReleaseReference
  deriving DecidableEq, Repr

/-- One reference counting call. -/
def ReferenceCall (s : SYSTEM) : REFERENCE_CALL → SYSTEM
  | REFERENCE_CALL.AddReference => SpecialDeviceAddReference s
  | REFERENCE_CALL.ReleaseReference => SpecialDeviceReleaseReference s

/-- A sequence of reference counting calls, first call first. -/
def ReferenceCalls (s : SYSTEM) (Calls : List REFERENCE_CALL) : SYSTEM :=
  Calls.foldl ReferenceCall s

/-- How often `SpecialDestroyDevice` was entered. -/
def DestroyCount (Trace : List EVENT) : Nat :=
  Trace.count EVENT.SpecialDestroyDevice

/-- How often the assertion at the given line of `special.c` failed. -/
def AssertionCount (Line : Nat) (Trace : List EVENT) : Nat :=
  Trace.count (EVENT.RtlRaiseAssertion Line)

/-- A request of the device lifetime, named by the entry of the function table
that `DriverEntry` registers for it, with what the kernel hands that call. -/
inductive SPECIAL_REQUEST
  | Open (Irp : IRP)
  | Close (Irp : IRP)
  | StateChange (Irp : IRP) (Env : STATE_CHANGE_ENVIRONMENT)
  deriving DecidableEq, Repr

/-- Dispatches one request through the function table. -/
def SpecialDispatch (s : SYSTEM) : SPECIAL_REQUEST → SYSTEM
  | SPECIAL_REQUEST.Open Irp => (SpecialDispatchOpen Irp s).2
  | SPECIAL_REQUEST.Close Irp => SpecialDispatchClose Irp s
  | SPECIAL_REQUEST.StateChange Irp Env => SpecialDispatchStateChange Irp Env s

/-- Dispatches a sequence of requests, first request first. -/
def SpecialDispatchAll (s : SYSTEM) (Requests : List SPECIAL_REQUEST) : SYSTEM :=
  Requests.foldl SpecialDispatch s

/-- Whether the request is an open request. -/
def IsOpen : SPECIAL_REQUEST → Bool
  | SPECIAL_REQUEST.Open _ => true
  | _ => false

/-- Whether the request is a close request. -/
def IsClose : SPECIAL_REQUEST → Bool
  | SPECIAL_REQUEST.Close _ => true
  | _ => false

/-- Whether the request is a start-device state change travelling up. -/
def IsUpwardStart : SPECIAL_REQUEST → Bool
  | SPECIAL_REQUEST.StateChange Irp _ =>
    Irp.MinorCode == IrpMinorStartDevice && Irp.Direction == IrpUp
  | _ => false

/-- Whether the request is a remove-device state change travelling up. -/
def IsUpwardRemove : SPECIAL_REQUEST → Bool
  | SPECIAL_REQUEST.StateChange Irp _ =>
    Irp.MinorCode == IrpMinorRemoveDevice && Irp.Direction == IrpUp
  | _ => false

/-- The lines of the assertions that failed, oldest first. -/
def AssertionFaults (Trace : List EVENT) : List Nat :=
  Trace.filterMap (fun Event =>
    match Event with
    | EVENT.RtlRaiseAssertion Line => some Line
    | _ => none)

/-- The statuses the requests were completed with, oldest first. -/
def Completions (Trace : List EVENT) : List KSTATUS :=
  Trace.filterMap (fun Event =>
    match Event with
    | EVENT.IoCompleteIrp _ Status => some Status
    | _ => none)

/-- How often the interface was published with `IoCreateInterface`. -/
def CreateInterfaceCount (Trace : List EVENT) : Nat :=
  Trace.countP (fun Event =>
    match Event with
    | EVENT.IoCreateInterface _ _ => true
    | _ => false)

/-- How often the interface was withdrawn with `IoDestroyInterface`. -/
def DestroyInterfaceCount (Trace : List EVENT) : Nat :=
  Trace.countP (fun Event =>
    match Event with
    | EVENT.IoDestroyInterface _ _ => true
    | _ => false)

/-- The addresses the pools handed out, oldest first. -/
def PoolAllocations (Trace : List EVENT) : List Nat :=
  Trace.filterMap (fun Event =>
    match Event with
    | EVENT.MmAllocateNonPagedPool (some Address) => some Address
    | EVENT.MmAllocatePagedPool (some Address) => some Address
    | _ => none)

/-- The addresses given back to the pools, oldest first. -/
def PoolFrees (Trace : List EVENT) : List Nat :=
  Trace.filterMap (fun Event =>
    match Event with
    | EVENT.MmFreeNonPagedPool Address => some Address
    | EVENT.MmFreePagedPool Address => some Address
    | _ => none)

/-- The data mixed into the generator with `CyFortunaAddEntropy`, oldest
first. -/
def FortunaAddEntropyCalls (Trace : List EVENT) : List (List Nat) :=
  Trace.filterMap (fun Event =>
    match Event with
    | EVENT.CyFortunaAddEntropy Data => some Data
    | _ => none)

/-- The number of bytes of each call of the generator, mixing in or producing,
oldest first. -/
def CsprngCallSizes (Trace : List EVENT) : List Nat :=
  Trace.filterMap (fun Event =>
    match Event with
    | EVENT.CyFortunaAddEntropy Data => some Data.length
    | EVENT.CyFortunaGetRandomBytes Size _ => some Size
    | _ => none)

/-- Modelled from the spec: the interface registry belongs to the I/O manager,
which is not among the sources.  The interface is published after a successful
`IoCreateInterface` and until a successful `IoDestroyInterface`; failing calls
change nothing. -/
def InterfacePublishedStep (Published : Bool) : EVENT → Bool
  | EVENT.IoCreateInterface _ Status => if KSUCCESS Status then true else Published
  | EVENT.IoDestroyInterface _ Status => if KSUCCESS Status then false else Published
  | _ => Published

/-- Whether the interface is published after the calls of the trace, none
being published before the first call. -/
def InterfacePublished (Trace : List EVENT) : Bool :=
  Trace.foldl InterfacePublishedStep false

/-- The sizes of the chunks in which `N` bytes are served: as many full scratch
buffers as fit, then the rest if there is one. -/
def ChunkSizes (N : Nat) : List Nat :=
  List.replicate (N / SPECIAL_URANDOM_BUFFER_SIZE) SPECIAL_URANDOM_BUFFER_SIZE ++
    (if N % SPECIAL_URANDOM_BUFFER_SIZE = 0 then [] else [N % SPECIAL_URANDOM_BUFFER_SIZE])

/-- Where a routine stands in the protocol around the generator: at the run
level it was entered at, raised to dispatch level, or raised and holding the
device lock. -/
inductive PROTOCOL_STATE
  | Idle
  | Raised
  | Locked
  deriving DecidableEq, Repr

/-- One call checked against the protocol: the run level is raised to dispatch
level only from the level of entry, the lock is taken only while raised, the
generator is called only under the lock, the lock is released only while held,
the run level is lowered only after the release and to the level of entry, and
a buffer copy is made only at the level of entry.  Other calls are free.
`none` marks a call out of order. -/
def ProtocolStep (Entry : RUNLEVEL) : PROTOCOL_STATE → EVENT → Option PROTOCOL_STATE
  | PROTOCOL_STATE.Idle, EVENT.KeRaiseRunLevel RunLevel =>
    if RunLevel = RunLevelDispatch then some PROTOCOL_STATE.Raised else none
  | _, EVENT.KeRaiseRunLevel _ => none
  | PROTOCOL_STATE.Raised, EVENT.KeAcquireSpinLock => some PROTOCOL_STATE.Locked
  | _, EVENT.KeAcquireSpinLock => none
  | PROTOCOL_STATE.Locked, EVENT.CyFortunaAddEntropy _ => some PROTOCOL_STATE.Locked
  | _, EVENT.CyFortunaAddEntropy _ => none
  | PROTOCOL_STATE.Locked, EVENT.CyFortunaGetRandomBytes _ _ => some PROTOCOL_STATE.Locked
  | _, EVENT.CyFortunaGetRandomBytes _ _ => none
  | PROTOCOL_STATE.Locked, EVENT.KeReleaseSpinLock => some PROTOCOL_STATE.Raised
  | _, EVENT.KeReleaseSpinLock => none
  | PROTOCOL_STATE.Raised, EVENT.KeLowerRunLevel RunLevel =>
    if RunLevel = Entry then some PROTOCOL_STATE.Idle else none
  | _, EVENT.KeLowerRunLevel _ => none
  | PROTOCOL_STATE.Idle, EVENT.MmCopyIoBufferData _ _ _ _ => some PROTOCOL_STATE.Idle
  | _, EVENT.MmCopyIoBufferData _ _ _ _ => none
  | State, _ => some State

/-- A sequence of calls checked against the protocol, oldest first. -/
def ProtocolRun (Entry : RUNLEVEL) : PROTOCOL_STATE → List EVENT → Option PROTOCOL_STATE
  | State, [] => some State
  | State, Event :: Rest =>
    match ProtocolStep Entry State Event with
    | some Next => ProtocolRun Entry Next Rest
    | none => none

/-- The bytes the generator produced in each call of `CyFortunaGetRandomBytes`,
oldest first. -/
def FortunaGetRandomBytesCalls (Trace : List EVENT) : List (List Nat) :=
  Trace.filterMap (fun Event =>
    match Event with
    | EVENT.CyFortunaGetRandomBytes _ Output => some Output
    | _ => none)

/-- The slice of `Data` that chunk `i` of a transfer of `N` bytes covers: the
bytes from `2048 * i` up to, but not including, `min (2048 * (i + 1)) N`. -/
def ChunkSlice (Data : List Nat) (N i : Nat) : List Nat :=
  (Data.drop (2048 * i)).take (min (2048 * (i + 1)) N - 2048 * i)

/-- The slices of `Data` that the chunks of a transfer of `N` bytes cover, in
the order of the chunks. -/
def ChunkSlices (Data : List Nat) (N : Nat) : List (List Nat) :=
  (List.range ((N + 2047) / 2048)).map (ChunkSlice Data N)

/-- The requests of the life of one `urandom` device, from attach to removal,
with what the kernel hands each of them: an open, a start-device, a write, a
read, a close and a remove-device. -/
structure SPECIAL_SCENARIO where
  DeviceToken : Nat
  AddDevice : ADD_DEVICE_ENVIRONMENT
  Open : IRP
  Start : IRP
  StartEnvironment : STATE_CHANGE_ENVIRONMENT
  Write : IRP
  WriteEnvironment : IO_ENVIRONMENT
  Read : IRP
  ReadEnvironment : IO_ENVIRONMENT
  Close : IRP
  Remove : IRP
  RemoveEnvironment : STATE_CHANGE_ENVIRONMENT

/-- The system after `urandom` was attached. -/
def ScenarioAttached (x : SPECIAL_SCENARIO) : SYSTEM :=
  (SpecialAddDevice "urandom" x.DeviceToken x.AddDevice).System

/-- The system after the open that follows. -/
def ScenarioOpened (x : SPECIAL_SCENARIO) : SYSTEM :=
  (SpecialDispatchOpen x.Open (ScenarioAttached x)).2

/-- The system after the start-device that follows. -/
def ScenarioStarted (x : SPECIAL_SCENARIO) : SYSTEM :=
  SpecialDispatchStateChange x.Start x.StartEnvironment (ScenarioOpened x)

/-- The write that follows, as it was completed, and the system after it. -/
def ScenarioWritten (x : SPECIAL_SCENARIO) : IRP × SYSTEM :=
  SpecialDispatchIo x.Write x.WriteEnvironment (ScenarioStarted x)

/-- The read that follows, as it was completed, and the system after it. -/
def ScenarioRead (x : SPECIAL_SCENARIO) : IRP × SYSTEM :=
  SpecialDispatchIo x.Read x.ReadEnvironment (ScenarioWritten x).2

/-- The system after the close that follows. -/
def ScenarioClosed (x : SPECIAL_SCENARIO) : SYSTEM :=
  SpecialDispatchClose x.Close (ScenarioRead x).2

/-- The system after the remove-device that ends the scenario. -/
def ScenarioRemoved (x : SPECIAL_SCENARIO) : SYSTEM :=
  SpecialDispatchStateChange x.Remove x.RemoveEnvironment (ScenarioClosed x)

/-! ## Sample values -/

/-- An environment in which every call of `SpecialAddDevice` succeeds. -/
def SampleAddDeviceEnvironment : ADD_DEVICE_ENVIRONMENT where
  Allocation := some 4096
  TimeCounterFrequency := 1000
  SystemTime := ⟨1380000000, 500⟩
  AttachStatus := STATUS_SUCCESS
  SizeOfSpecialDevice := 64
  RunLevel := RunLevelLow

/-- An environment in which the pool allocation of `SpecialAddDevice` fails. -/
def SampleAllocationFailure : ADD_DEVICE_ENVIRONMENT :=
  { SampleAddDeviceEnvironment with Allocation := none }

/-- An environment in which `IoAttachDriverToDevice` fails. -/
def SampleAttachFailure : ADD_DEVICE_ENVIRONMENT :=
  { SampleAddDeviceEnvironment with AttachStatus := STATUS_OTHER 3 }

/-- The system right after `urandom` was attached. -/
def SampleRandomSystem : SYSTEM :=
  (SpecialAddDevice "urandom" 7 SampleAddDeviceEnvironment).System

/-- The system right after `null` was attached. -/
def SampleNullSystem : SYSTEM :=
  (SpecialAddDevice "null" 7 SampleAddDeviceEnvironment).System

/-- The given system with another reference count. -/
def WithReferenceCount (Count : Nat) (s : SYSTEM) : SYSTEM :=
  { s with Device := { s.Device with ReferenceCount := Count } }

/-- A request with the given codes and direction, for device token 7. -/
def SampleIrp (MajorCode : IRP_MAJOR_CODE) (MinorCode : IRP_MINOR_CODE)
    (Direction : IRP_DIRECTION) : IRP where
  MajorCode := MajorCode
  MinorCode := MinorCode
  Direction := Direction
  Device := 7
  IoState := some ⟨false, false⟩
  IoBuffer := none
  IoSizeInBytes := 0
  IoBytesCompleted := 0

/-- An environment in which publishing and withdrawing the interface succeed. -/
def SampleStateChangeEnvironment : STATE_CHANGE_ENVIRONMENT where
  CreateInterfaceStatus := STATUS_SUCCESS
  DestroyInterfaceStatus := STATUS_SUCCESS
  ProcessorCounter := 258

/-- An environment in which publishing and withdrawing the interface fail. -/
def SampleFailingEnvironment : STATE_CHANGE_ENVIRONMENT where
  CreateInterfaceStatus := STATUS_OTHER 1
  DestroyInterfaceStatus := STATUS_OTHER 1
  ProcessorCounter := 258

/-- An open request. -/
def SampleOpen : SPECIAL_REQUEST :=
  SPECIAL_REQUEST.Open (SampleIrp IrpMajorOpen (IrpMinorOther 0) IrpDown)

/-- A close request. -/
def SampleClose : SPECIAL_REQUEST :=
  SPECIAL_REQUEST.Close (SampleIrp IrpMajorClose (IrpMinorOther 0) IrpDown)

/-- A start-device request travelling up, all calls succeeding. -/
def SampleStart : SPECIAL_REQUEST :=
  SPECIAL_REQUEST.StateChange (SampleIrp IrpMajorStateChange IrpMinorStartDevice IrpUp)
    SampleStateChangeEnvironment

/-- A remove-device request travelling up, all calls succeeding. -/
def SampleRemove : SPECIAL_REQUEST :=
  SPECIAL_REQUEST.StateChange (SampleIrp IrpMajorStateChange IrpMinorRemoveDevice IrpUp)
    SampleStateChangeEnvironment

/-- The system after `urandom` was attached and started. -/
def SampleStartedSystem : SYSTEM :=
  SpecialDispatch SampleRandomSystem SampleStart

/-- An environment in which every call of a read or write succeeds; the
generator produces the bytes 0, 1, 2 and so on. -/
def SampleIoEnvironment : IO_ENVIRONMENT where
  ZeroIoBufferStatus := STATUS_SUCCESS
  ScratchAllocation := some 8192
  ScratchContents := []
  CopyStatus := fun _ => STATUS_SUCCESS
  RandomByte := fun i => i % 256

/-- An environment in which the zero fill, the scratch allocation and every
buffer copy fail. -/
def SampleIoFailure : IO_ENVIRONMENT where
  ZeroIoBufferStatus := STATUS_OTHER 2
  ScratchAllocation := none
  ScratchContents := []
  CopyStatus := fun _ => STATUS_OTHER 2
  RandomByte := fun i => i % 256

/-- An environment in which the buffer copy at offset 4096 fails and every
other call succeeds. -/
def SampleCopyFailure : IO_ENVIRONMENT where
  ZeroIoBufferStatus := STATUS_SUCCESS
  ScratchAllocation := some 8192
  ScratchContents := []
  CopyStatus := fun Offset => if Offset = 4096 then STATUS_OTHER 9 else STATUS_SUCCESS
  RandomByte := fun i => i % 256

/-- A write request of `N` bytes, all of them 5, whose completed size holds 99
on entry. -/
def SampleWrite (N : Nat) : IRP where
  MajorCode := IrpMajorIo
  MinorCode := IrpMinorIoWrite
  Direction := IrpDown
  Device := 7
  IoState := none
  IoBuffer := some (List.replicate N 5)
  IoSizeInBytes := N
  IoBytesCompleted := 99

/-- A read request of `N` bytes into a buffer holding 5 everywhere, whose
completed size holds 99 on entry. -/
def SampleRead (N : Nat) : IRP :=
  { SampleWrite N with MinorCode := IrpMinorIoRead }

/-- The system right after `zero` was attached. -/
def SampleZeroSystem : SYSTEM :=
  (SpecialAddDevice "zero" 7 SampleAddDeviceEnvironment).System

/-- The system right after `full` was attached. -/
def SampleFullSystem : SYSTEM :=
  (SpecialAddDevice "full" 7 SampleAddDeviceEnvironment).System

/-- A lookup request, of the root or not, whose properties hold other values
than the driver writes. -/
def SampleLookup (Root : Bool) : SYSTEM_CONTROL_LOOKUP where
  Root := Root
  Properties :=
    { FileId := 11,
      Type_ := IO_OBJECT_TYPE.IoObjectInvalid,
      HardLinkCount := 12,
      BlockSize := 13,
      BlockCount := 14,
      StatusChangeTime := ⟨15, 16⟩,
      ModifiedTime := ⟨17, 18⟩,
      AccessTime := ⟨19, 20⟩,
      Permissions := 21,
      FileSize := 22 }

/-- The scenario with a write of 4096 bytes and a read of 10 bytes, in which
every call succeeds. -/
def SampleScenario : SPECIAL_SCENARIO where
  DeviceToken := 7
  AddDevice := SampleAddDeviceEnvironment
  Open := SampleIrp IrpMajorOpen (IrpMinorOther 0) IrpDown
  Start := SampleIrp IrpMajorStateChange IrpMinorStartDevice IrpUp
  StartEnvironment := SampleStateChangeEnvironment
  Write := SampleWrite 4096
  WriteEnvironment := SampleIoEnvironment
  Read := SampleRead 10
  ReadEnvironment := SampleIoEnvironment
  Close := SampleIrp IrpMajorClose (IrpMinorOther 0) IrpDown
  Remove := SampleIrp IrpMajorStateChange IrpMinorRemoveDevice IrpUp
  RemoveEnvironment := SampleStateChangeEnvironment

/-! ## The effect of each routine, field by field -/

theorem SpecialDestroyDevice_eq (s : SYSTEM) :
    SpecialDestroyDevice s = { s with Trace := s.Trace ++
      (EVENT.SpecialDestroyDevice ::
        ((if s.Device.InterfaceRegistered = false then [] else [EVENT.RtlRaiseAssertion 1317]) ++
          [if s.Device.Type_ = SpecialDevicePseudoRandom then EVENT.MmFreeNonPagedPool s.Context
            else EVENT.MmFreePagedPool s.Context])) } := by
  unfold SpecialDestroyDevice ASSERT emit
  by_cases hr : s.Device.InterfaceRegistered = false <;>
    by_cases ht : s.Device.Type_ = SpecialDevicePseudoRandom <;> simp [hr, ht]

theorem SpecialDeviceAddReference_eq (s : SYSTEM) :
    SpecialDeviceAddReference s =
      { s with
        Device := { s.Device with
          ReferenceCount := (s.Device.ReferenceCount + 1) % 4294967296 },
        Trace := s.Trace ++
          (if s.Device.ReferenceCount < 0x10000000 then [] else [EVENT.RtlRaiseAssertion 1253]) } := by
  unfold SpecialDeviceAddReference ASSERT emit RtlAtomicAdd32
  by_cases h : s.Device.ReferenceCount < 0x10000000 <;> simp [h]

theorem SpecialDeviceReleaseReference_eq (s : SYSTEM) :
    SpecialDeviceReleaseReference s =
      { s with
        Device := { s.Device with
          ReferenceCount := (s.Device.ReferenceCount + 0xFFFFFFFF) % 4294967296 },
        Trace := s.Trace ++
          ((if s.Device.ReferenceCount ≠ 0 ∧ s.Device.ReferenceCount < 0x10000000 then []
              else [EVENT.RtlRaiseAssertion 1285]) ++
            (if s.Device.ReferenceCount = 1 then
              EVENT.SpecialDestroyDevice ::
                ((if s.Device.InterfaceRegistered = false then []
                    else [EVENT.RtlRaiseAssertion 1317]) ++
                  [if s.Device.Type_ = SpecialDevicePseudoRandom then
                      EVENT.MmFreeNonPagedPool s.Context
                    else EVENT.MmFreePagedPool s.Context])
              else [])) } := by
  unfold SpecialDeviceReleaseReference
  simp only [SpecialDestroyDevice_eq]
  unfold ASSERT emit RtlAtomicAdd32
  by_cases h1 : s.Device.ReferenceCount = 1
  · simp [h1]
  · by_cases h0 : s.Device.ReferenceCount = 0
    · simp [h0]
    · by_cases h2 : s.Device.ReferenceCount < 0x10000000 <;> simp [h0, h1, h2]

theorem SpecialPseudoRandomAddTimePointEntropy_eq (Counter : Nat) (s : SYSTEM) :
    SpecialPseudoRandomAddTimePointEntropy Counter s =
      { s with
        Device := { s.Device with Lock := false },
        Trace := s.Trace ++
          ((if s.Device.Type_ = SpecialDevicePseudoRandom then [] else [EVENT.RtlRaiseAssertion 1169]) ++
            [EVENT.KeRaiseRunLevel RunLevelDispatch, EVENT.HlQueryProcessorCounter Counter,
              EVENT.KeAcquireSpinLock, EVENT.CyFortunaAddEntropy (CounterBytes Counter),
              EVENT.KeReleaseSpinLock, EVENT.KeLowerRunLevel s.RunLevel]) } := by
  unfold SpecialPseudoRandomAddTimePointEntropy KeLowerRunLevel KeReleaseSpinLock
    KeAcquireSpinLock KeRaiseRunLevel ASSERT emit
  by_cases ht : s.Device.Type_ = SpecialDevicePseudoRandom <;> simp [ht]

theorem SpecialPseudoRandomStartDevice_eq (Irp : IRP) (Env : STATE_CHANGE_ENVIRONMENT)
    (s : SYSTEM) (hT : s.Device.Type_ = SpecialDevicePseudoRandom) :
    SpecialPseudoRandomStartDevice Irp Env s =
      if s.Device.InterfaceRegistered = true then (STATUS_SUCCESS, s)
      else (Env.CreateInterfaceStatus,
        { s with
          Device := { s.Device with
            Lock := false, InterfaceRegistered := KSUCCESS Env.CreateInterfaceStatus },
          Trace := s.Trace ++
            [EVENT.IoCreateInterface Irp.Device Env.CreateInterfaceStatus,
              EVENT.KeRaiseRunLevel RunLevelDispatch,
              EVENT.HlQueryProcessorCounter Env.ProcessorCounter,
              EVENT.KeAcquireSpinLock,
              EVENT.CyFortunaAddEntropy (CounterBytes Env.ProcessorCounter),
              EVENT.KeReleaseSpinLock, EVENT.KeLowerRunLevel s.RunLevel] }) := by
  unfold SpecialPseudoRandomStartDevice
  simp only [SpecialPseudoRandomAddTimePointEntropy_eq]
  unfold ASSERT emit
  by_cases hr : s.Device.InterfaceRegistered = true
  · simp [hT, hr]
  · by_cases hk : KSUCCESS Env.CreateInterfaceStatus = true
    · simp [hT, hr, hk]
    · simp [hT, hr, hk]

theorem SpecialPseudoRandomRemoveDevice_eq (Irp : IRP) (Env : STATE_CHANGE_ENVIRONMENT)
    (s : SYSTEM) (hT : s.Device.Type_ = SpecialDevicePseudoRandom) :
    SpecialPseudoRandomRemoveDevice Irp Env s =
      if s.Device.InterfaceRegistered = false then (STATUS_SUCCESS, s)
      else (Env.DestroyInterfaceStatus,
        { s with
          Device := { s.Device with
            InterfaceRegistered := !KSUCCESS Env.DestroyInterfaceStatus },
          Trace := s.Trace ++
            [EVENT.IoDestroyInterface Irp.Device Env.DestroyInterfaceStatus] }) := by
  unfold SpecialPseudoRandomRemoveDevice ASSERT emit
  by_cases hr : s.Device.InterfaceRegistered = false
  · simp [hT, hr]
  · by_cases hk : KSUCCESS Env.DestroyInterfaceStatus = true
    · simp [hT, hr, hk]
    · simp [hT, hr, hk]
      simp at hr
      rcases s with ⟨c, ⟨t, ct, rc, fc, l, i, ir⟩, rl, tr⟩
      simp_all


theorem SpecialDispatchStateChange_start (Irp : IRP) (Env : STATE_CHANGE_ENVIRONMENT)
    (s : SYSTEM) (hT : s.Device.Type_ = SpecialDevicePseudoRandom)
    (hMajor : Irp.MajorCode = IrpMajorStateChange)
    (hMinor : Irp.MinorCode = IrpMinorStartDevice) (hUp : Irp.Direction = IrpUp) :
    SpecialDispatchStateChange Irp Env s =
      emit (EVENT.IoCompleteIrp Irp (SpecialPseudoRandomStartDevice Irp Env s).1)
        (SpecialPseudoRandomStartDevice Irp Env s).2 := by
  unfold SpecialDispatchStateChange ASSERT
  simp [hT, hMajor, hMinor, hUp]

theorem SpecialDispatchStateChange_remove (Irp : IRP) (Env : STATE_CHANGE_ENVIRONMENT)
    (s : SYSTEM) (hT : s.Device.Type_ = SpecialDevicePseudoRandom)
    (hMajor : Irp.MajorCode = IrpMajorStateChange)
    (hMinor : Irp.MinorCode = IrpMinorRemoveDevice) (hUp : Irp.Direction = IrpUp) :
    SpecialDispatchStateChange Irp Env s =
      emit (EVENT.IoCompleteIrp Irp (SpecialPseudoRandomRemoveDevice Irp Env s).1)
        (if KSUCCESS (SpecialPseudoRandomRemoveDevice Irp Env s).1 then
          SpecialDeviceReleaseReference (SpecialPseudoRandomRemoveDevice Irp Env s).2
        else (SpecialPseudoRandomRemoveDevice Irp Env s).2) := by
  unfold SpecialDispatchStateChange ASSERT
  simp [hT, hMajor, hMinor, hUp]

@[simp] theorem emit_Device (Event : EVENT) (s : SYSTEM) : (emit Event s).Device = s.Device := rfl

@[simp] theorem emit_Trace (Event : EVENT) (s : SYSTEM) :
    (emit Event s).Trace = s.Trace ++ [Event] := rfl

@[simp] theorem ASSERT_Device (Condition : Bool) (Line : Nat) (s : SYSTEM) :
    (ASSERT Condition Line s).Device = s.Device := by
  unfold ASSERT emit
  split <;> rfl

theorem ASSERT_Trace_mem (Condition : Bool) (Line Other : Nat) (s : SYSTEM) (h : Other ≠ Line) :
    EVENT.RtlRaiseAssertion Other ∈ (ASSERT Condition Line s).Trace ↔
      EVENT.RtlRaiseAssertion Other ∈ s.Trace := by
  unfold ASSERT emit
  split <;> simp [h]

theorem SpecialDeviceReleaseReference_Device (s : SYSTEM) :
    (SpecialDeviceReleaseReference s).Device =
      { s.Device with ReferenceCount := (s.Device.ReferenceCount + 0xFFFFFFFF) % 4294967296 } := by
  rw [SpecialDeviceReleaseReference_eq]

theorem SpecialDeviceReleaseReference_destroy_assertion (s : SYSTEM) :
    EVENT.RtlRaiseAssertion 1317 ∈ (SpecialDeviceReleaseReference s).Trace ↔
      EVENT.RtlRaiseAssertion 1317 ∈ s.Trace ∨
        (s.Device.ReferenceCount = 1 ∧ s.Device.InterfaceRegistered = true) := by
  rw [SpecialDeviceReleaseReference_eq]
  by_cases h1 : s.Device.ReferenceCount = 1 <;>
    by_cases hr : s.Device.InterfaceRegistered = false <;>
    by_cases ht : s.Device.Type_ = SpecialDevicePseudoRandom <;>
    by_cases h0 : s.Device.ReferenceCount = 0 <;>
    by_cases h2 : s.Device.ReferenceCount < 0x10000000 <;>
    simp [h1, hr, ht, h0, h2]

theorem SpecialDeviceAddReference_Device (s : SYSTEM) :
    (SpecialDeviceAddReference s).Device =
      { s.Device with ReferenceCount := (s.Device.ReferenceCount + 1) % 4294967296 } := by
  rw [SpecialDeviceAddReference_eq]

theorem SpecialDeviceAddReference_destroy_assertion (s : SYSTEM) :
    EVENT.RtlRaiseAssertion 1317 ∈ (SpecialDeviceAddReference s).Trace ↔
      EVENT.RtlRaiseAssertion 1317 ∈ s.Trace := by
  rw [SpecialDeviceAddReference_eq]
  by_cases h2 : s.Device.ReferenceCount < 0x10000000 <;> simp [h2]

theorem SpecialDispatchStateChange_effect (Irp : IRP) (Env : STATE_CHANGE_ENVIRONMENT)
    (s : SYSTEM) (hT : s.Device.Type_ = SpecialDevicePseudoRandom) :
    (SpecialDispatchStateChange Irp Env s).Device.Type_ = SpecialDevicePseudoRandom ∧
    (EVENT.RtlRaiseAssertion 1317 ∈ (SpecialDispatchStateChange Irp Env s).Trace ↔
      EVENT.RtlRaiseAssertion 1317 ∈ s.Trace) ∧
    (((SpecialDispatchStateChange Irp Env s).Device.ReferenceCount = s.Device.ReferenceCount ∧
        (IsUpwardStart (SPECIAL_REQUEST.StateChange Irp Env) = false →
          (SpecialDispatchStateChange Irp Env s).Device.InterfaceRegistered =
            s.Device.InterfaceRegistered)) ∨
      (IsUpwardRemove (SPECIAL_REQUEST.StateChange Irp Env) = true ∧
        (SpecialDispatchStateChange Irp Env s).Device.InterfaceRegistered = false ∧
        (SpecialDispatchStateChange Irp Env s).Device.ReferenceCount =
          (s.Device.ReferenceCount + 0xFFFFFFFF) % 4294967296)) := by
  unfold SpecialDispatchStateChange
  have hD := ASSERT_Device (Irp.MajorCode == IrpMajorStateChange) 451 s
  have hM := ASSERT_Trace_mem (Irp.MajorCode == IrpMajorStateChange) 451 1317 s (by decide)
  generalize ASSERT (Irp.MajorCode == IrpMajorStateChange) 451 s = s₁ at hD hM ⊢
  have hT₁ : s₁.Device.Type_ = SpecialDevicePseudoRandom := by rw [hD]; exact hT
  rw [← hD, ← hM]
  simp only [IsUpwardStart, IsUpwardRemove]
  cases hMinor : Irp.MinorCode <;> cases hDir : Irp.Direction
  case IrpMinorStartDevice.IrpUp =>
    simp only [hT₁, beq_self_eq_true, if_true]
    rw [SpecialPseudoRandomStartDevice_eq Irp Env s₁ hT₁]
    by_cases hr : s₁.Device.InterfaceRegistered = true
    · simp [hr, hT₁]
    · simp [hr, hT₁]
  case IrpMinorRemoveDevice.IrpUp =>
    simp only [hT₁, beq_self_eq_true, if_true]
    rw [SpecialPseudoRandomRemoveDevice_eq Irp Env s₁ hT₁]
    by_cases hr : s₁.Device.InterfaceRegistered = false
    · simp only [hr, if_true, KSUCCESS, beq_self_eq_true, emit_Device, emit_Trace,
        SpecialDeviceReleaseReference_Device, List.mem_append, List.mem_singleton,
        SpecialDeviceReleaseReference_destroy_assertion]
      simp [hr, hT₁]
    · by_cases hk : KSUCCESS Env.DestroyInterfaceStatus = true
      · rw [if_neg hr]
        simp only [hk, ↓reduceIte, emit_Device, emit_Trace,
          SpecialDeviceReleaseReference_Device, List.mem_append, List.mem_singleton,
          SpecialDeviceReleaseReference_destroy_assertion]
        simp [hT₁]
      · rw [if_neg hr]
        simp only [hk, ↓reduceIte, emit_Device, emit_Trace,
          List.mem_append, List.mem_singleton]
        simp [hk, hT₁]
        simpa using hr
  all_goals simp [hT₁]

theorem SpecialDispatchOpen_Device (Irp : IRP) (s : SYSTEM) :
    (SpecialDispatchOpen Irp s).2.Device =
      { s.Device with ReferenceCount := (s.Device.ReferenceCount + 1) % 4294967296 } := by
  simp [SpecialDispatchOpen, SpecialDeviceAddReference_Device]

theorem SpecialDispatchOpen_destroy_assertion (Irp : IRP) (s : SYSTEM) :
    EVENT.RtlRaiseAssertion 1317 ∈ (SpecialDispatchOpen Irp s).2.Trace ↔
      EVENT.RtlRaiseAssertion 1317 ∈ s.Trace := by
  simp [SpecialDispatchOpen, ASSERT_Trace_mem, SpecialDeviceAddReference_destroy_assertion]

theorem SpecialDispatchClose_Device (Irp : IRP) (s : SYSTEM) :
    (SpecialDispatchClose Irp s).Device =
      { s.Device with ReferenceCount := (s.Device.ReferenceCount + 0xFFFFFFFF) % 4294967296 } := by
  simp [SpecialDispatchClose, SpecialDeviceReleaseReference_Device]

theorem SpecialDispatchClose_destroy_assertion (Irp : IRP) (s : SYSTEM) :
    EVENT.RtlRaiseAssertion 1317 ∈ (SpecialDispatchClose Irp s).Trace ↔
      EVENT.RtlRaiseAssertion 1317 ∈ s.Trace ∨
        (s.Device.ReferenceCount = 1 ∧ s.Device.InterfaceRegistered = true) := by
  simp [SpecialDispatchClose, SpecialDeviceReleaseReference_destroy_assertion]

/-- Once the interface is unregistered and no start request comes any more,
the destroy assertion cannot fail. -/
theorem SpecialDispatchAll_unregistered (Requests : List SPECIAL_REQUEST) :
    ∀ s : SYSTEM, s.Device.Type_ = SpecialDevicePseudoRandom →
      s.Device.InterfaceRegistered = false →
      EVENT.RtlRaiseAssertion 1317 ∉ s.Trace →
      (∀ q, q ∈ Requests → IsUpwardStart q = false) →
      EVENT.RtlRaiseAssertion 1317 ∉ (SpecialDispatchAll s Requests).Trace := by
  induction Requests with
  | nil => intro s _ _ hN _; simpa [SpecialDispatchAll] using hN
  | cons r Rest ih =>
    intro s hT hR hN hS
    have hrest : ∀ q, q ∈ Rest → IsUpwardStart q = false :=
      fun q hq => hS q (List.mem_cons_of_mem r hq)
    have hr := hS r (List.mem_cons_self r Rest)
    show EVENT.RtlRaiseAssertion 1317 ∉ (SpecialDispatchAll (SpecialDispatch s r) Rest).Trace
    cases r with
    | Open Irp =>
      apply ih
      · simp [SpecialDispatch, SpecialDispatchOpen_Device, hT]
      · simp [SpecialDispatch, SpecialDispatchOpen_Device, hR]
      · simpa [SpecialDispatch, SpecialDispatchOpen_destroy_assertion] using hN
      · exact hrest
    | Close Irp =>
      apply ih
      · simp [SpecialDispatch, SpecialDispatchClose_Device, hT]
      · simp [SpecialDispatch, SpecialDispatchClose_Device, hR]
      · simp [SpecialDispatch, SpecialDispatchClose_destroy_assertion, hN, hR]
      · exact hrest
    | StateChange Irp Env =>
      obtain ⟨h1, h2, h3⟩ := SpecialDispatchStateChange_effect Irp Env s hT
      apply ih
      · exact h1
      · rcases h3 with ⟨_, h4⟩ | ⟨_, h4, _⟩
        · exact (h4 hr).trans hR
        · exact h4
      · simpa [SpecialDispatch, h2] using hN
      · exact hrest

theorem SpecialDispatchAll_balanced (Requests : List SPECIAL_REQUEST) :
    ∀ (s : SYSTEM) (n : Nat), s.Device.Type_ = SpecialDevicePseudoRandom →
      s.Device.ReferenceCount = 1 + n →
      n < 0x10000000 →
      EVENT.RtlRaiseAssertion 1317 ∉ s.Trace →
      (∀ i, i ≤ Requests.length →
        (Requests.take i).countP IsClose ≤ n + (Requests.take i).countP IsOpen ∧
          n + (Requests.take i).countP IsOpen - (Requests.take i).countP IsClose < 0x10000000) →
      (∀ j, j < Requests.length → ∀ i, i < j →
        ¬ ((Requests[i]?).any IsUpwardRemove = true ∧ (Requests[j]?).any IsUpwardStart = true)) →
      EVENT.RtlRaiseAssertion 1317 ∉ (SpecialDispatchAll s Requests).Trace := by
  induction Requests with
  | nil => intro s n _ _ _ hN _ _; simpa [SpecialDispatchAll] using hN
  | cons r Rest ih =>
    intro s n hT hC hn hN hB hO
    have hOrest : ∀ j, j < Rest.length → ∀ i, i < j →
        ¬ ((Rest[i]?).any IsUpwardRemove = true ∧ (Rest[j]?).any IsUpwardStart = true) := by
      intro j hj i hi
      have := hO (j + 1) (by simp; omega) (i + 1) (by omega)
      simpa using this
    have hB1 := hB 1 (by simp)
    show EVENT.RtlRaiseAssertion 1317 ∉ (SpecialDispatchAll (SpecialDispatch s r) Rest).Trace
    cases r with
    | Open Irp =>
      simp [IsOpen, IsClose] at hB1
      apply ih _ (n + 1)
      · simp [SpecialDispatch, SpecialDispatchOpen_Device, hT]
      · simp [SpecialDispatch, SpecialDispatchOpen_Device, hC]
        omega
      · omega
      · simpa [SpecialDispatch, SpecialDispatchOpen_destroy_assertion] using hN
      · intro i hi
        have := hB (i + 1) (by simp; omega)
        simp [IsOpen, IsClose] at this
        constructor <;> omega
      · exact hOrest
    | Close Irp =>
      simp [IsOpen, IsClose] at hB1
      apply ih _ (n - 1)
      · simp [SpecialDispatch, SpecialDispatchClose_Device, hT]
      · simp [SpecialDispatch, SpecialDispatchClose_Device, hC]
        omega
      · omega
      · simp [SpecialDispatch, SpecialDispatchClose_destroy_assertion, hN, hC]
        omega
      · intro i hi
        have := hB (i + 1) (by simp; omega)
        simp [IsOpen, IsClose] at this
        constructor <;> omega
      · exact hOrest
    | StateChange Irp Env =>
      obtain ⟨h1, h2, h3⟩ := SpecialDispatchStateChange_effect Irp Env s hT
      have hN' : EVENT.RtlRaiseAssertion 1317 ∉
          (SpecialDispatch s (SPECIAL_REQUEST.StateChange Irp Env)).Trace := by
        simpa [SpecialDispatch, h2] using hN
      rcases h3 with ⟨h4, _⟩ | ⟨h4, h5, _⟩
      · apply ih _ n h1 (h4.trans hC) hn hN'
        · intro i hi
          have := hB (i + 1) (by simp; omega)
          simpa [IsOpen, IsClose] using this
        · exact hOrest
      · apply SpecialDispatchAll_unregistered Rest _ h1 h5 hN'
        intro q hq
        obtain ⟨k, hk, hget⟩ := List.getElem_of_mem hq
        have := hO (k + 1) (by simp; omega) 0 (by omega)
        have hget' : Rest[k]? = some q := by rw [List.getElem?_eq_getElem hk, hget]
        simp [h4, hget'] at this
        exact this

/-! ## Reference counting -/

/-- C3: `SpecialDeviceReleaseReference` on a count `c` with `1 <= c < 0x10000000`
leaves the count at `c - 1`, raises no reference count assertion, and enters
`SpecialDestroyDevice` exactly when `c = 1`; on a count of 0 it raises the
assertion of line 1285 and does nothing else (no destroy, no status), the count
wrapping to `0xFFFFFFFF`. -/
theorem SpecialDeviceReleaseReference_spec (s : SYSTEM) :
    (1 ≤ s.Device.ReferenceCount → s.Device.ReferenceCount < 0x10000000 →
      (SpecialDeviceReleaseReference s).Device.ReferenceCount = s.Device.ReferenceCount - 1 ∧
      AssertionCount 1285 (SpecialDeviceReleaseReference s).Trace = AssertionCount 1285 s.Trace ∧
      DestroyCount (SpecialDeviceReleaseReference s).Trace =
        DestroyCount s.Trace + (if s.Device.ReferenceCount = 1 then 1 else 0)) ∧
    (s.Device.ReferenceCount = 0 →
      (SpecialDeviceReleaseReference s).Trace = s.Trace ++ [EVENT.RtlRaiseAssertion 1285] ∧
      (SpecialDeviceReleaseReference s).Device.ReferenceCount = 0xFFFFFFFF) := by
  rw [SpecialDeviceReleaseReference_eq]
  constructor
  · intro h1 h2
    have hne : s.Device.ReferenceCount ≠ 0 := by omega
    refine ⟨by simp only []; omega, ?_, ?_⟩
    · by_cases h : s.Device.ReferenceCount = 1 <;>
        by_cases hr : s.Device.InterfaceRegistered = false <;>
        by_cases ht : s.Device.Type_ = SpecialDevicePseudoRandom <;>
        simp [AssertionCount, List.count_append, List.count_cons, h, hr, hne, h2, ht]
    · by_cases h : s.Device.ReferenceCount = 1 <;>
        by_cases hr : s.Device.InterfaceRegistered = false <;>
        by_cases ht : s.Device.Type_ = SpecialDevicePseudoRandom <;>
        simp [DestroyCount, List.count_append, List.count_cons, h, hr, hne, h2, ht]
  · intro h0
    simp [h0]

theorem ReferenceCall_DestroyCount (t : SYSTEM) (Call : REFERENCE_CALL) :
    DestroyCount (ReferenceCall t Call).Trace = DestroyCount t.Trace +
      (if Call = REFERENCE_CALL.ReleaseReference ∧ t.Device.ReferenceCount = 1 then 1 else 0) := by
  cases Call
  · simp [ReferenceCall, SpecialDeviceAddReference_eq, DestroyCount, List.count_append]
    split <;> simp
  · simp only [ReferenceCall, SpecialDeviceReleaseReference_eq, DestroyCount]
    by_cases h : t.Device.ReferenceCount = 1 <;>
      by_cases hr : t.Device.InterfaceRegistered = false <;>
      by_cases ht : t.Device.Type_ = SpecialDevicePseudoRandom <;>
      by_cases h0 : t.Device.ReferenceCount = 0 <;>
      by_cases h2 : t.Device.ReferenceCount < 0x10000000 <;>
      simp [List.count_append, List.count_cons, h, hr, ht, h0, h2]

theorem ReferenceCall_release_one (t : SYSTEM) (h : t.Device.ReferenceCount = 1) :
    (ReferenceCall t REFERENCE_CALL.ReleaseReference).Device.ReferenceCount = 0 := by
  simp [ReferenceCall, SpecialDeviceReleaseReference_eq, h]

theorem ReferenceCalls_concat (s : SYSTEM) (Before : List REFERENCE_CALL) (Call : REFERENCE_CALL) :
    ReferenceCalls s (Before ++ [Call]) = ReferenceCall (ReferenceCalls s Before) Call := by
  simp [ReferenceCalls, List.foldl_append]

theorem ReferenceCalls_take_succ (s : SYSTEM) (Calls : List REFERENCE_CALL) (i : Nat)
    (Call : REFERENCE_CALL) (h : Calls[i]? = some Call) :
    ReferenceCalls s (Calls.take (i + 1)) = ReferenceCall (ReferenceCalls s (Calls.take i)) Call := by
  rw [List.take_succ, h]
  exact ReferenceCalls_concat s _ Call

theorem ReferenceCalls_no_destroy_before (s : SYSTEM) (Calls : List REFERENCE_CALL)
    (h0 : DestroyCount s.Trace = 0)
    (hlive : ∀ i, i < Calls.length → (ReferenceCalls s (Calls.take i)).Device.ReferenceCount ≠ 0) :
    ∀ i, i < Calls.length → DestroyCount (ReferenceCalls s (Calls.take i)).Trace = 0 := by
  intro i
  induction i with
  | zero => intro _; simpa [ReferenceCalls] using h0
  | succ i ih =>
    intro hi
    have hi' : i < Calls.length := by omega
    have hget : Calls[i]? = some Calls[i] := List.getElem?_eq_getElem hi'
    have hstep := ReferenceCalls_take_succ s Calls i _ hget
    rw [hstep, ReferenceCall_DestroyCount, ih hi']
    by_cases hc : Calls[i] = REFERENCE_CALL.ReleaseReference ∧
        (ReferenceCalls s (Calls.take i)).Device.ReferenceCount = 1
    · exfalso
      apply hlive (i + 1) hi
      rw [hstep, hc.1]
      exact ReferenceCall_release_one _ hc.2
    · simp [hc]

/-- C3, at concrete inputs: a release from 1 destroys, a release from 2 does
not, a release from 0 only raises the assertion. -/
theorem SpecialDeviceReleaseReference_spec_witness :
    ((1 ≤ SampleRandomSystem.Device.ReferenceCount ∧
        SampleRandomSystem.Device.ReferenceCount < 0x10000000) ∧
      (SpecialDeviceReleaseReference SampleRandomSystem).Device.ReferenceCount =
          SampleRandomSystem.Device.ReferenceCount - 1 ∧
        AssertionCount 1285 (SpecialDeviceReleaseReference SampleRandomSystem).Trace =
          AssertionCount 1285 SampleRandomSystem.Trace ∧
        DestroyCount (SpecialDeviceReleaseReference SampleRandomSystem).Trace =
          DestroyCount SampleRandomSystem.Trace +
            (if SampleRandomSystem.Device.ReferenceCount = 1 then 1 else 0)) ∧
    ((WithReferenceCount 0 SampleRandomSystem).Device.ReferenceCount = 0 ∧
      (SpecialDeviceReleaseReference (WithReferenceCount 0 SampleRandomSystem)).Trace =
          (WithReferenceCount 0 SampleRandomSystem).Trace ++ [EVENT.RtlRaiseAssertion 1285] ∧
        (SpecialDeviceReleaseReference
          (WithReferenceCount 0 SampleRandomSystem)).Device.ReferenceCount = 0xFFFFFFFF) :=
  ⟨⟨⟨by decide, by decide⟩,
      (SpecialDeviceReleaseReference_spec SampleRandomSystem).1 (by decide) (by decide)⟩,
    ⟨by decide,
      (SpecialDeviceReleaseReference_spec (WithReferenceCount 0 SampleRandomSystem)).2
        (by decide)⟩⟩

/-- C4, against the claim as stated: at the count `0xFFFFFFFF` the 32-bit add
wraps, and `SpecialDeviceAddReference` leaves the count at 0, not one higher. -/
theorem SpecialDeviceAddReference_wraps :
    (SpecialDeviceAddReference
        (WithReferenceCount 0xFFFFFFFF SampleRandomSystem)).Device.ReferenceCount = 0 ∧
      ¬ ((SpecialDeviceAddReference
          (WithReferenceCount 0xFFFFFFFF SampleRandomSystem)).Device.ReferenceCount =
        (WithReferenceCount 0xFFFFFFFF SampleRandomSystem).Device.ReferenceCount + 1) := by
  decide

/-- C4, amended: `SpecialDeviceAddReference` raises the count by one modulo
`2 ^ 32`, hence by exactly one from every count below `0xFFFFFFFF`; it raises the
assertion of line 1253, and nothing else, exactly when the count before was
`0x10000000` or more; from every count below the ceiling, 0 included, it makes
no call at all and the count is one higher, without wrapping. -/
theorem SpecialDeviceAddReference_spec (s : SYSTEM) :
    (SpecialDeviceAddReference s).Device.ReferenceCount =
        (s.Device.ReferenceCount + 1) % 2 ^ 32 ∧
      (s.Device.ReferenceCount < 0xFFFFFFFF →
        (SpecialDeviceAddReference s).Device.ReferenceCount = s.Device.ReferenceCount + 1) ∧
      (SpecialDeviceAddReference s).Trace = s.Trace ++
        (if 0x10000000 ≤ s.Device.ReferenceCount then [EVENT.RtlRaiseAssertion 1253] else []) ∧
      (s.Device.ReferenceCount < 0x10000000 →
        (SpecialDeviceAddReference s).Trace = s.Trace ∧
          (SpecialDeviceAddReference s).Device.ReferenceCount = s.Device.ReferenceCount + 1) := by
  rw [SpecialDeviceAddReference_eq, show (2 : Nat) ^ 32 = 4294967296 from rfl]
  refine ⟨rfl, ?_, ?_, ?_⟩
  · intro h
    simp only []
    omega
  · by_cases h : 0x10000000 ≤ s.Device.ReferenceCount
    · have h2 : ¬ s.Device.ReferenceCount < 0x10000000 := by omega
      simp [h, h2]
    · have h2 : s.Device.ReferenceCount < 0x10000000 := by omega
      simp [h, h2]
  · intro h
    refine ⟨by simp [h], ?_⟩
    simp only []
    omega

/-- C4, amended, at concrete inputs: a reference added to a device whose count
is 1, and one added at the ceiling. -/
theorem SpecialDeviceAddReference_spec_witness :
    (SampleRandomSystem.Device.ReferenceCount < 0xFFFFFFFF ∧
        SampleRandomSystem.Device.ReferenceCount < 0x10000000) ∧
      (SpecialDeviceAddReference SampleRandomSystem).Device.ReferenceCount = 2 ∧
      (SpecialDeviceAddReference SampleRandomSystem).Trace = SampleRandomSystem.Trace ∧
      (SpecialDeviceAddReference (WithReferenceCount 0x10000000 SampleRandomSystem)).Trace =
        SampleRandomSystem.Trace ++ [EVENT.RtlRaiseAssertion 1253] :=
  ⟨⟨by decide, by decide⟩,
    ((SpecialDeviceAddReference_spec SampleRandomSystem).2.1 (by decide)).trans (by decide),
    ((SpecialDeviceAddReference_spec SampleRandomSystem).2.2.2 (by decide)).1,
    ((SpecialDeviceAddReference_spec
      (WithReferenceCount 0x10000000 SampleRandomSystem)).2.2.1).trans (by decide)⟩

/-- C1, against the claim as stated: with no call at all the device created
with a count of 1 is never destroyed, and the sequence release, add, release
destroys it twice (the add finds the count at 0 and raises nothing). -/
theorem ReferenceCalls_not_exactly_once :
    SampleRandomSystem.Device.ReferenceCount = 1 ∧
      DestroyCount SampleRandomSystem.Trace = 0 ∧
      DestroyCount (ReferenceCalls SampleRandomSystem []).Trace = 0 ∧
      DestroyCount (ReferenceCalls SampleRandomSystem
        [REFERENCE_CALL.ReleaseReference, REFERENCE_CALL.AddReference,
          REFERENCE_CALL.ReleaseReference]).Trace = 2 := by
  decide

/-- C1, amended: in every sequence of add and release calls on a device that
was not destroyed before, a call enters `SpecialDestroyDevice` exactly when it
is a release that finds the count at 1, and that release leaves the count at 0;
if moreover no call of the sequence is made on a count of 0, the device is
destroyed at most once, and exactly once precisely when the last call is a
release that finds the count at 1. -/
theorem ReferenceCalls_destroy (s : SYSTEM) (Calls : List REFERENCE_CALL)
    (h0 : DestroyCount s.Trace = 0) :
    (∀ i Call, Calls[i]? = some Call →
      DestroyCount (ReferenceCalls s (Calls.take (i + 1))).Trace =
        DestroyCount (ReferenceCalls s (Calls.take i)).Trace +
          (if Call = REFERENCE_CALL.ReleaseReference ∧
              (ReferenceCalls s (Calls.take i)).Device.ReferenceCount = 1 then 1 else 0) ∧
      (Call = REFERENCE_CALL.ReleaseReference →
        (ReferenceCalls s (Calls.take i)).Device.ReferenceCount = 1 →
        (ReferenceCalls s (Calls.take (i + 1))).Device.ReferenceCount = 0)) ∧
    ((∀ i, i < Calls.length → (ReferenceCalls s (Calls.take i)).Device.ReferenceCount ≠ 0) →
      DestroyCount (ReferenceCalls s Calls).Trace ≤ 1 ∧
      (DestroyCount (ReferenceCalls s Calls).Trace = 1 ↔
        Calls.getLast? = some REFERENCE_CALL.ReleaseReference ∧
          (ReferenceCalls s Calls.dropLast).Device.ReferenceCount = 1)) := by
  constructor
  · intro i Call hget
    rw [ReferenceCalls_take_succ s Calls i Call hget, ReferenceCall_DestroyCount]
    refine ⟨rfl, ?_⟩
    intro hc h
    rw [hc]
    exact ReferenceCall_release_one _ h
  · intro hlive
    rcases List.eq_nil_or_concat Calls with hnil | ⟨Before, Call, hcat⟩
    · subst hnil
      simp [ReferenceCalls, h0]
    · rw [List.concat_eq_append] at hcat
      subst hcat
      have hlen : Before.length < (Before ++ [Call]).length := by simp
      have hb := ReferenceCalls_no_destroy_before s _ h0 hlive Before.length hlen
      rw [List.take_left] at hb
      rw [ReferenceCalls_concat, ReferenceCall_DestroyCount, hb]
      simp only [List.getLast?_append, List.dropLast_concat]
      by_cases hc : Call = REFERENCE_CALL.ReleaseReference ∧
          (ReferenceCalls s Before).Device.ReferenceCount = 1
      · simp [hc]
      · simp [hc]

/-- C1, amended, at a concrete input: add, release, release on a fresh device
destroys it once, by the last call. -/
theorem ReferenceCalls_destroy_witness :
    DestroyCount SampleRandomSystem.Trace = 0 ∧
      (∀ i, i < [REFERENCE_CALL.AddReference, REFERENCE_CALL.ReleaseReference,
          REFERENCE_CALL.ReleaseReference].length →
        (ReferenceCalls SampleRandomSystem
          ([REFERENCE_CALL.AddReference, REFERENCE_CALL.ReleaseReference,
            REFERENCE_CALL.ReleaseReference].take i)).Device.ReferenceCount ≠ 0) ∧
      DestroyCount (ReferenceCalls SampleRandomSystem
        [REFERENCE_CALL.AddReference, REFERENCE_CALL.ReleaseReference,
          REFERENCE_CALL.ReleaseReference]).Trace = 1 :=
  ⟨by decide, by decide,
    ((ReferenceCalls_destroy SampleRandomSystem
      [REFERENCE_CALL.AddReference, REFERENCE_CALL.ReleaseReference,
        REFERENCE_CALL.ReleaseReference] (by decide)).2 (by decide)).2.2 (by decide)⟩

/-! ## The destroy assertion over the device lifetime -/

/-- C2, against the claim as stated: open, remove, start, close on a freshly
attached `urandom` device never has more closes than opens, yet the close
destroys the device while its interface is registered, and the assertion at the
head of `SpecialDestroyDevice` fails. -/
theorem SpecialDispatchAll_start_after_remove :
    SampleRandomSystem.Device.Type_ = SpecialDevicePseudoRandom ∧
      SampleRandomSystem.Device.ReferenceCount = 1 ∧
      SampleRandomSystem.Device.InterfaceRegistered = false ∧
      (∀ i, i ≤ [SampleOpen, SampleRemove, SampleStart, SampleClose].length →
        ([SampleOpen, SampleRemove, SampleStart, SampleClose].take i).countP IsClose ≤
          ([SampleOpen, SampleRemove, SampleStart, SampleClose].take i).countP IsOpen) ∧
      EVENT.RtlRaiseAssertion 1317 ∈
        (SpecialDispatchAll SampleRandomSystem
          [SampleOpen, SampleRemove, SampleStart, SampleClose]).Trace ∧
      (SpecialDispatchAll SampleRandomSystem
        [SampleOpen, SampleRemove, SampleStart]).Device.InterfaceRegistered = true := by
  decide

/-- C2, amended: on a pseudo-random device holding the one reference of its
attach, every sequence of open, close and state change requests in which the
closes never outnumber the opens, fewer than `0x10000000` opens are outstanding
at any time, and no start-device travelling up comes after a remove-device
travelling up, never fails the assertion at the head of `SpecialDestroyDevice`:
whenever the device is destroyed its interface is not registered. -/
theorem SpecialDispatchAll_destroy_assertion (s : SYSTEM) (Requests : List SPECIAL_REQUEST)
    (hType : s.Device.Type_ = SpecialDevicePseudoRandom)
    (hCount : s.Device.ReferenceCount = 1)
    (hTrace : EVENT.RtlRaiseAssertion 1317 ∉ s.Trace)
    (hBalance : ∀ i, i ≤ Requests.length →
      (Requests.take i).countP IsClose ≤ (Requests.take i).countP IsOpen ∧
        (Requests.take i).countP IsOpen - (Requests.take i).countP IsClose < 0x10000000)
    (hOrder : ∀ j, j < Requests.length → ∀ i, i < j →
      ¬ ((Requests[i]?).any IsUpwardRemove = true ∧ (Requests[j]?).any IsUpwardStart = true)) :
    EVENT.RtlRaiseAssertion 1317 ∉ (SpecialDispatchAll s Requests).Trace := by
  apply SpecialDispatchAll_balanced Requests s 0 hType (by simpa using hCount) (by decide) hTrace
  · intro i hi
    simpa using hBalance i hi
  · exact hOrder

/-- C2, amended, at a concrete input: open, start, close, remove on a freshly
attached `urandom` device. -/
theorem SpecialDispatchAll_destroy_assertion_witness :
    (SampleRandomSystem.Device.Type_ = SpecialDevicePseudoRandom ∧
      SampleRandomSystem.Device.ReferenceCount = 1 ∧
      EVENT.RtlRaiseAssertion 1317 ∉ SampleRandomSystem.Trace) ∧
    DestroyCount (SpecialDispatchAll SampleRandomSystem
      [SampleOpen, SampleStart, SampleClose, SampleRemove]).Trace = 1 ∧
    EVENT.RtlRaiseAssertion 1317 ∉
      (SpecialDispatchAll SampleRandomSystem
        [SampleOpen, SampleStart, SampleClose, SampleRemove]).Trace :=
  ⟨by decide, by decide,
    SpecialDispatchAll_destroy_assertion SampleRandomSystem
      [SampleOpen, SampleStart, SampleClose, SampleRemove]
      (by decide) (by decide) (by decide) (by decide) (by decide)⟩

/-! ## Attaching a device -/

theorem SpecialAddDeviceType_eq (DeviceId : String) :
    SpecialAddDeviceType DeviceId =
      if DeviceId = "null" then some SpecialDeviceNull
      else if DeviceId = "zero" then some SpecialDeviceZero
      else if DeviceId = "full" then some SpecialDeviceFull
      else if DeviceId = "urandom" ∨ DeviceId = "random" then some SpecialDevicePseudoRandom
      else none := by
  unfold SpecialAddDeviceType IoAreDeviceIdsEqual
  by_cases h1 : DeviceId = "null"
  · simp [h1]
  by_cases h2 : DeviceId = "zero"
  · simp [h2]
  by_cases h3 : DeviceId = "full"
  · simp [h3]
  by_cases h4 : DeviceId = "urandom"
  · simp [h4]
  by_cases h5 : DeviceId = "random"
  · simp [h5]
  simp [h1, h2, h3, h4, h5]

theorem SpecialAddDeviceType_ne_invalid (DeviceId : String) (Kind : SPECIAL_DEVICE_TYPE)
    (h : SpecialAddDeviceType DeviceId = some Kind) : Kind ≠ SpecialDeviceInvalid := by
  rw [SpecialAddDeviceType_eq] at h
  split at h
  · cases h; decide
  split at h
  · cases h; decide
  split at h
  · cases h; decide
  split at h
  · cases h; decide
  · cases h

theorem SpecialAddDeviceEnd_some (Status : KSTATUS) (Context : Nat) (s : SYSTEM) :
    SpecialAddDeviceEnd Status (some Context) s =
      { Status := Status, Context := some Context,
        System := if KSUCCESS Status = true then s else SpecialDeviceReleaseReference s } := by
  unfold SpecialAddDeviceEnd
  by_cases hk : KSUCCESS Status = true <;> simp [hk]

/-- The result of `SpecialAddDevice` once the device type is known. -/
theorem SpecialAddDevice_eq (DeviceId : String) (DeviceToken : Nat)
    (Env : ADD_DEVICE_ENVIRONMENT) (Kind : SPECIAL_DEVICE_TYPE) (Context : Nat)
    (hKind : SpecialAddDeviceType DeviceId = some Kind) (hAlloc : Env.Allocation = some Context) :
    SpecialAddDevice DeviceId DeviceToken Env =
      SpecialAddDeviceEnd Env.AttachStatus (some Context)
        (SpecialAddDeviceCreated Kind Context DeviceToken Env) := by
  unfold SpecialAddDevice SpecialAddDeviceCreated
  simp only [hKind, hAlloc]
  by_cases hk : Kind = SpecialDevicePseudoRandom
  · simp [hk, emit, ZeroedDevice]
  · simp [hk, emit, ZeroedDevice]

/-- C5: `SpecialAddDevice` picks the device type by exact, case-sensitive match of
the identifier: `null`, `zero` and `full` give their own type, `urandom` and
`random` both give the pseudo-random type, and anything else gives none; the
device that is created carries the type picked; and attaching `random` leaves
exactly the system that attaching `urandom` leaves, so every later sequence of
requests runs the same on both. -/
theorem SpecialAddDevice_type (DeviceId : String) (DeviceToken : Nat)
    (Env : ADD_DEVICE_ENVIRONMENT) :
    (SpecialAddDeviceType DeviceId =
      if DeviceId = "null" then some SpecialDeviceNull
      else if DeviceId = "zero" then some SpecialDeviceZero
      else if DeviceId = "full" then some SpecialDeviceFull
      else if DeviceId = "urandom" ∨ DeviceId = "random" then some SpecialDevicePseudoRandom
      else none) ∧
    (∀ Kind, SpecialAddDeviceType DeviceId = some Kind →
      (SpecialAddDevice DeviceId DeviceToken Env).Context ≠ none →
      (SpecialAddDevice DeviceId DeviceToken Env).System.Device.Type_ = Kind) ∧
    SpecialAddDevice "random" DeviceToken Env = SpecialAddDevice "urandom" DeviceToken Env ∧
    (∀ Requests : List SPECIAL_REQUEST,
      SpecialDispatchAll (SpecialAddDevice "random" DeviceToken Env).System Requests =
        SpecialDispatchAll (SpecialAddDevice "urandom" DeviceToken Env).System Requests) := by
  have hsame : SpecialAddDevice "random" DeviceToken Env =
      SpecialAddDevice "urandom" DeviceToken Env := by
    unfold SpecialAddDevice
    have h1 : SpecialAddDeviceType "random" = some SpecialDevicePseudoRandom := by
      rw [SpecialAddDeviceType_eq]; simp
    have h2 : SpecialAddDeviceType "urandom" = some SpecialDevicePseudoRandom := by
      rw [SpecialAddDeviceType_eq]; simp
    rw [h1, h2]
  refine ⟨SpecialAddDeviceType_eq DeviceId, ?_, hsame, ?_⟩
  · intro Kind hKind hContext
    cases hAlloc : Env.Allocation with
    | none =>
      exfalso
      apply hContext
      unfold SpecialAddDevice
      simp only [hKind, hAlloc]
      split <;> simp [SpecialAddDeviceEnd, KSUCCESS]
    | some Context =>
      rw [SpecialAddDevice_eq DeviceId DeviceToken Env Kind Context hKind hAlloc,
        SpecialAddDeviceEnd_some]
      by_cases hk : KSUCCESS Env.AttachStatus = true
      · rw [if_pos hk]
        rfl
      · rw [if_neg hk, SpecialDeviceReleaseReference_Device]
        rfl
  · intro Requests
    rw [hsame]

/-- C5, at concrete inputs: `full` is attached as the full device, and `Null`
and `URANDOM` are not recognized. -/
theorem SpecialAddDevice_type_witness :
    (SpecialAddDeviceType "full" = some SpecialDeviceFull ∧
      (SpecialAddDevice "full" 7 SampleAddDeviceEnvironment).Context ≠ none) ∧
    (SpecialAddDevice "full" 7 SampleAddDeviceEnvironment).System.Device.Type_ =
      SpecialDeviceFull ∧
    SpecialAddDeviceType "Null" = none ∧ SpecialAddDeviceType "URANDOM" = none :=
  ⟨⟨by decide, by decide⟩,
    (SpecialAddDevice_type "full" 7 SampleAddDeviceEnvironment).2.1 SpecialDeviceFull
      (by decide) (by decide),
    by decide, by decide⟩

/-- C6: for an identifier that is none of `null`, `zero`, `full`, `random` and
`urandom`, `SpecialAddDevice` returns `STATUS_NOT_SUPPORTED`, its context stays
`NULL`, and its only call is the debug print: no pool allocation, no
`IoAttachDriverToDevice`, no release of a reference and no destroy. -/
theorem SpecialAddDevice_not_supported (DeviceId : String) (DeviceToken : Nat)
    (Env : ADD_DEVICE_ENVIRONMENT)
    (h : DeviceId ∉ ["null", "zero", "full", "random", "urandom"]) :
    (SpecialAddDevice DeviceId DeviceToken Env).Status = STATUS_NOT_SUPPORTED ∧
      (SpecialAddDevice DeviceId DeviceToken Env).Context = none ∧
      (SpecialAddDevice DeviceId DeviceToken Env).System.Trace =
        [EVENT.RtlDebugPrint DeviceId] ∧
      (SpecialAddDevice DeviceId DeviceToken Env).System.Device = ZeroedDevice ∧
      PoolAllocations (SpecialAddDevice DeviceId DeviceToken Env).System.Trace = [] ∧
      DestroyCount (SpecialAddDevice DeviceId DeviceToken Env).System.Trace = 0 := by
  simp only [List.mem_cons, List.mem_singleton, List.not_mem_nil, or_false, not_or] at h
  obtain ⟨h1, h2, h3, h4, h5⟩ := h
  have hType : SpecialAddDeviceType DeviceId = none := by
    rw [SpecialAddDeviceType_eq]
    simp [h1, h2, h3, h4, h5]
  unfold SpecialAddDevice
  simp [hType, SpecialAddDeviceEnd, KSUCCESS, emit, PoolAllocations, DestroyCount]

/-- C6, at a concrete input: the identifier `tty`. -/
theorem SpecialAddDevice_not_supported_witness :
    "tty" ∉ ["null", "zero", "full", "random", "urandom"] ∧
      (SpecialAddDevice "tty" 7 SampleAddDeviceEnvironment).Status = STATUS_NOT_SUPPORTED ∧
      (SpecialAddDevice "tty" 7 SampleAddDeviceEnvironment).System.Trace =
        [EVENT.RtlDebugPrint "tty"] :=
  ⟨by decide,
    (SpecialAddDevice_not_supported "tty" 7 SampleAddDeviceEnvironment (by decide)).1,
    (SpecialAddDevice_not_supported "tty" 7 SampleAddDeviceEnvironment (by decide)).2.2.1⟩

/-- C7: for a recognized identifier, when the pool allocation hands out
`Context` and `IoAttachDriverToDevice` succeeds, `SpecialAddDevice` returns
success; the device at `Context`, the one handed to `IoAttachDriverToDevice` as
its last call, has the type picked from the identifier, a reference count of 1,
the interface not registered and the system time read during the attach as its
creation time; the allocation is made from the non-paged pool exactly for the
pseudo-random type, from the paged pool otherwise; and for the pseudo-random
type the interface is the template with the device itself as device token. -/
theorem SpecialAddDevice_success (DeviceId : String) (DeviceToken : Nat)
    (Env : ADD_DEVICE_ENVIRONMENT) (Kind : SPECIAL_DEVICE_TYPE) (Context : Nat)
    (hKind : SpecialAddDeviceType DeviceId = some Kind)
    (hAlloc : Env.Allocation = some Context)
    (hAttach : KSUCCESS Env.AttachStatus = true) :
    (SpecialAddDevice DeviceId DeviceToken Env).Status = STATUS_SUCCESS ∧
      (SpecialAddDevice DeviceId DeviceToken Env).Context = some Context ∧
      (SpecialAddDevice DeviceId DeviceToken Env).System.Context = Context ∧
      (SpecialAddDevice DeviceId DeviceToken Env).System.Trace.getLast? =
        some (EVENT.IoAttachDriverToDevice DeviceToken Context Env.AttachStatus) ∧
      (SpecialAddDevice DeviceId DeviceToken Env).System.Device.Type_ = Kind ∧
      Kind ≠ SpecialDeviceInvalid ∧
      (SpecialAddDevice DeviceId DeviceToken Env).System.Device.ReferenceCount = 1 ∧
      (SpecialAddDevice DeviceId DeviceToken Env).System.Device.InterfaceRegistered = false ∧
      (SpecialAddDevice DeviceId DeviceToken Env).System.Device.CreationTime = Env.SystemTime ∧
      EVENT.KeGetSystemTime Env.SystemTime ∈
        (SpecialAddDevice DeviceId DeviceToken Env).System.Trace ∧
      (EVENT.MmAllocateNonPagedPool (some Context) ∈
          (SpecialAddDevice DeviceId DeviceToken Env).System.Trace ↔
        Kind = SpecialDevicePseudoRandom) ∧
      (EVENT.MmAllocatePagedPool (some Context) ∈
          (SpecialAddDevice DeviceId DeviceToken Env).System.Trace ↔
        Kind ≠ SpecialDevicePseudoRandom) ∧
      PoolAllocations (SpecialAddDevice DeviceId DeviceToken Env).System.Trace = [Context] ∧
      PoolFrees (SpecialAddDevice DeviceId DeviceToken Env).System.Trace = [] ∧
      (Kind = SpecialDevicePseudoRandom →
        (SpecialAddDevice DeviceId DeviceToken Env).System.Device.Interface =
          some { SpecialPseudoRandomInterfaceTemplate with DeviceToken := some Context }) := by
  have hs : Env.AttachStatus = STATUS_SUCCESS := by simpa [KSUCCESS] using hAttach
  rw [SpecialAddDevice_eq DeviceId DeviceToken Env Kind Context hKind hAlloc,
    SpecialAddDeviceEnd_some, if_pos hAttach]
  refine ⟨hs, rfl, rfl, ?_, rfl, SpecialAddDeviceType_ne_invalid DeviceId Kind hKind, rfl, rfl,
    rfl, ?_, ?_, ?_, ?_, ?_, ?_⟩ <;>
    by_cases hk : Kind = SpecialDevicePseudoRandom <;>
    simp [hk, PoolAllocations, PoolFrees, SpecialAddDeviceCreated]

/-- C7, at a concrete input: `urandom` attached with every call succeeding. -/
theorem SpecialAddDevice_success_witness :
    (SpecialAddDeviceType "urandom" = some SpecialDevicePseudoRandom ∧
      SampleAddDeviceEnvironment.Allocation = some 4096 ∧
      KSUCCESS SampleAddDeviceEnvironment.AttachStatus = true) ∧
    (SpecialAddDevice "urandom" 7 SampleAddDeviceEnvironment).Status = STATUS_SUCCESS ∧
    (SpecialAddDevice "urandom" 7 SampleAddDeviceEnvironment).System.Device.ReferenceCount = 1 ∧
    (SpecialAddDevice "urandom" 7 SampleAddDeviceEnvironment).System.Device.Interface =
      some { SpecialPseudoRandomInterfaceTemplate with DeviceToken := some 4096 } :=
  ⟨⟨by decide, by decide, by decide⟩,
    (SpecialAddDevice_success "urandom" 7 SampleAddDeviceEnvironment SpecialDevicePseudoRandom
      4096 (by decide) (by decide) (by decide)).1,
    (SpecialAddDevice_success "urandom" 7 SampleAddDeviceEnvironment SpecialDevicePseudoRandom
      4096 (by decide) (by decide) (by decide)).2.2.2.2.2.2.1,
    (SpecialAddDevice_success "urandom" 7 SampleAddDeviceEnvironment SpecialDevicePseudoRandom
      4096 (by decide) (by decide) (by decide)).2.2.2.2.2.2.2.2.2.2.2.2.2.2 rfl⟩

theorem SpecialDeviceReleaseReference_last (s : SYSTEM) (h1 : s.Device.ReferenceCount = 1)
    (hr : s.Device.InterfaceRegistered = false) :
    (SpecialDeviceReleaseReference s).Device.ReferenceCount = 0 ∧
      (SpecialDeviceReleaseReference s).Trace = s.Trace ++
        [EVENT.SpecialDestroyDevice,
          if s.Device.Type_ = SpecialDevicePseudoRandom then EVENT.MmFreeNonPagedPool s.Context
          else EVENT.MmFreePagedPool s.Context] := by
  rw [SpecialDeviceReleaseReference_eq]
  simp [h1, hr]

/-- C8: a failing `SpecialAddDevice` leaves no live device.  If the pool
allocation fails it returns `STATUS_INSUFFICIENT_RESOURCES` after that one call,
with nothing attached.  If `IoAttachDriverToDevice` fails on the created device
it returns that status unchanged and releases the one reference the device
holds: the count goes from 1 to 0, `SpecialDestroyDevice` runs once, no
assertion fails, and the device goes back to the pool it came from.  In every
failing attach what was allocated is what was freed. -/
theorem SpecialAddDevice_failure (DeviceId : String) (DeviceToken : Nat)
    (Env : ADD_DEVICE_ENVIRONMENT) :
    (∀ Kind, SpecialAddDeviceType DeviceId = some Kind → Env.Allocation = none →
      (SpecialAddDevice DeviceId DeviceToken Env).Status = STATUS_INSUFFICIENT_RESOURCES ∧
        (SpecialAddDevice DeviceId DeviceToken Env).Context = none ∧
        (SpecialAddDevice DeviceId DeviceToken Env).System.Trace =
          [if Kind = SpecialDevicePseudoRandom then EVENT.MmAllocateNonPagedPool none
            else EVENT.MmAllocatePagedPool none]) ∧
    (∀ Kind Context, SpecialAddDeviceType DeviceId = some Kind →
      Env.Allocation = some Context → KSUCCESS Env.AttachStatus = false →
      (SpecialAddDevice DeviceId DeviceToken Env).Status = Env.AttachStatus ∧
        (∃ s : SYSTEM, s.Device.ReferenceCount = 1 ∧ DestroyCount s.Trace = 0 ∧
          s.Trace.getLast? =
            some (EVENT.IoAttachDriverToDevice DeviceToken Context Env.AttachStatus) ∧
          (SpecialAddDevice DeviceId DeviceToken Env).System =
            SpecialDeviceReleaseReference s) ∧
        (SpecialAddDevice DeviceId DeviceToken Env).System.Device.ReferenceCount = 0 ∧
        DestroyCount (SpecialAddDevice DeviceId DeviceToken Env).System.Trace = 1 ∧
        AssertionFaults (SpecialAddDevice DeviceId DeviceToken Env).System.Trace = [] ∧
        (SpecialAddDevice DeviceId DeviceToken Env).System.Trace.getLast? =
          some (if Kind = SpecialDevicePseudoRandom then EVENT.MmFreeNonPagedPool Context
            else EVENT.MmFreePagedPool Context) ∧
        PoolAllocations (SpecialAddDevice DeviceId DeviceToken Env).System.Trace = [Context] ∧
        PoolFrees (SpecialAddDevice DeviceId DeviceToken Env).System.Trace = [Context]) ∧
    (KSUCCESS (SpecialAddDevice DeviceId DeviceToken Env).Status = false →
      PoolAllocations (SpecialAddDevice DeviceId DeviceToken Env).System.Trace =
        PoolFrees (SpecialAddDevice DeviceId DeviceToken Env).System.Trace) := by
  have hA : ∀ Kind, SpecialAddDeviceType DeviceId = some Kind → Env.Allocation = none →
      (SpecialAddDevice DeviceId DeviceToken Env).Status = STATUS_INSUFFICIENT_RESOURCES ∧
        (SpecialAddDevice DeviceId DeviceToken Env).Context = none ∧
        (SpecialAddDevice DeviceId DeviceToken Env).System.Trace =
          [if Kind = SpecialDevicePseudoRandom then EVENT.MmAllocateNonPagedPool none
            else EVENT.MmAllocatePagedPool none] := by
    intro Kind hKind hAlloc
    unfold SpecialAddDevice
    simp only [hKind, hAlloc]
    by_cases hk : Kind = SpecialDevicePseudoRandom <;>
      simp [hk, SpecialAddDeviceEnd, KSUCCESS, emit]
  have hB : ∀ Kind Context, SpecialAddDeviceType DeviceId = some Kind →
      Env.Allocation = some Context → KSUCCESS Env.AttachStatus = false →
      (SpecialAddDevice DeviceId DeviceToken Env).Status = Env.AttachStatus ∧
        (∃ s : SYSTEM, s.Device.ReferenceCount = 1 ∧ DestroyCount s.Trace = 0 ∧
          s.Trace.getLast? =
            some (EVENT.IoAttachDriverToDevice DeviceToken Context Env.AttachStatus) ∧
          (SpecialAddDevice DeviceId DeviceToken Env).System =
            SpecialDeviceReleaseReference s) ∧
        (SpecialAddDevice DeviceId DeviceToken Env).System.Device.ReferenceCount = 0 ∧
        DestroyCount (SpecialAddDevice DeviceId DeviceToken Env).System.Trace = 1 ∧
        AssertionFaults (SpecialAddDevice DeviceId DeviceToken Env).System.Trace = [] ∧
        (SpecialAddDevice DeviceId DeviceToken Env).System.Trace.getLast? =
          some (if Kind = SpecialDevicePseudoRandom then EVENT.MmFreeNonPagedPool Context
            else EVENT.MmFreePagedPool Context) ∧
        PoolAllocations (SpecialAddDevice DeviceId DeviceToken Env).System.Trace = [Context] ∧
        PoolFrees (SpecialAddDevice DeviceId DeviceToken Env).System.Trace = [Context] := by
    intro Kind Context hKind hAlloc hAttach
    have hk : ¬ KSUCCESS Env.AttachStatus = true := by simp [hAttach]
    rw [SpecialAddDevice_eq DeviceId DeviceToken Env Kind Context hKind hAlloc,
      SpecialAddDeviceEnd_some, if_neg hk]
    obtain ⟨h0, hT⟩ := SpecialDeviceReleaseReference_last
      (SpecialAddDeviceCreated Kind Context DeviceToken Env) rfl rfl
    refine ⟨rfl, ⟨SpecialAddDeviceCreated Kind Context DeviceToken Env, rfl, ?_, ?_, rfl⟩, ?_⟩
    · by_cases hp : Kind = SpecialDevicePseudoRandom <;>
        simp [hp, DestroyCount, SpecialAddDeviceCreated]
    · by_cases hp : Kind = SpecialDevicePseudoRandom <;> simp [hp, SpecialAddDeviceCreated]
    · rw [h0, hT]
      by_cases hp : Kind = SpecialDevicePseudoRandom <;>
        simp [hp, DestroyCount, AssertionFaults, PoolAllocations, PoolFrees,
          SpecialAddDeviceCreated]
  refine ⟨hA, hB, ?_⟩
  intro hFail
  cases hType : SpecialAddDeviceType DeviceId with
  | none =>
    unfold SpecialAddDevice
    simp [hType, SpecialAddDeviceEnd, KSUCCESS, emit, PoolAllocations, PoolFrees]
  | some Kind =>
    cases hAlloc : Env.Allocation with
    | none =>
      rw [(hA Kind hType hAlloc).2.2]
      by_cases hp : Kind = SpecialDevicePseudoRandom <;> simp [hp, PoolAllocations, PoolFrees]
    | some Context =>
      have hAttach : KSUCCESS Env.AttachStatus = false := by
        rw [SpecialAddDevice_eq DeviceId DeviceToken Env Kind Context hType hAlloc,
          SpecialAddDeviceEnd_some] at hFail
        exact hFail
      obtain ⟨_, _, _, _, _, _, h1, h2⟩ := hB Kind Context hType hAlloc hAttach
      rw [h1, h2]

/-- C8, at concrete inputs: `zero` attached while the pool is exhausted, and
`urandom` attached while `IoAttachDriverToDevice` fails. -/
theorem SpecialAddDevice_failure_witness :
    (SpecialAddDeviceType "zero" = some SpecialDeviceZero ∧
      SampleAllocationFailure.Allocation = none ∧
      SpecialAddDeviceType "urandom" = some SpecialDevicePseudoRandom ∧
      SampleAttachFailure.Allocation = some 4096 ∧
      KSUCCESS SampleAttachFailure.AttachStatus = false) ∧
    (SpecialAddDevice "zero" 7 SampleAllocationFailure).Status =
      STATUS_INSUFFICIENT_RESOURCES ∧
    (SpecialAddDevice "urandom" 7 SampleAttachFailure).Status = STATUS_OTHER 3 ∧
    DestroyCount (SpecialAddDevice "urandom" 7 SampleAttachFailure).System.Trace = 1 ∧
    PoolAllocations (SpecialAddDevice "urandom" 7 SampleAttachFailure).System.Trace =
      PoolFrees (SpecialAddDevice "urandom" 7 SampleAttachFailure).System.Trace :=
  ⟨⟨by decide, by decide, by decide, by decide, by decide⟩,
    ((SpecialAddDevice_failure "zero" 7 SampleAllocationFailure).1 SpecialDeviceZero
      (by decide) (by decide)).1,
    ((SpecialAddDevice_failure "urandom" 7 SampleAttachFailure).2.1 SpecialDevicePseudoRandom
      4096 (by decide) (by decide) (by decide)).1,
    ((SpecialAddDevice_failure "urandom" 7 SampleAttachFailure).2.1 SpecialDevicePseudoRandom
      4096 (by decide) (by decide) (by decide)).2.2.2.1,
    (SpecialAddDevice_failure "urandom" 7 SampleAttachFailure).2.2 (by decide)⟩

/-! ## Starting and removing the pseudo-random device -/

/-- A start-device travelling up on a pseudo-random device whose interface is
not registered. -/
theorem SpecialDispatchStateChange_start_unregistered (Irp : IRP)
    (Env : STATE_CHANGE_ENVIRONMENT) (s : SYSTEM)
    (hType : s.Device.Type_ = SpecialDevicePseudoRandom)
    (hReg : s.Device.InterfaceRegistered = false)
    (hMajor : Irp.MajorCode = IrpMajorStateChange)
    (hMinor : Irp.MinorCode = IrpMinorStartDevice) (hUp : Irp.Direction = IrpUp) :
    SpecialDispatchStateChange Irp Env s =
      { s with
        Device := { s.Device with
          Lock := false, InterfaceRegistered := KSUCCESS Env.CreateInterfaceStatus },
        Trace := s.Trace ++
          [EVENT.IoCreateInterface Irp.Device Env.CreateInterfaceStatus,
            EVENT.KeRaiseRunLevel RunLevelDispatch,
            EVENT.HlQueryProcessorCounter Env.ProcessorCounter,
            EVENT.KeAcquireSpinLock,
            EVENT.CyFortunaAddEntropy (CounterBytes Env.ProcessorCounter),
            EVENT.KeReleaseSpinLock, EVENT.KeLowerRunLevel s.RunLevel,
            EVENT.IoCompleteIrp Irp Env.CreateInterfaceStatus] } := by
  rw [SpecialDispatchStateChange_start Irp Env s hType hMajor hMinor hUp,
    SpecialPseudoRandomStartDevice_eq Irp Env s hType]
  simp [hReg, emit]

/-- A start-device travelling up on a pseudo-random device whose interface is
registered. -/
theorem SpecialDispatchStateChange_start_registered (Irp : IRP)
    (Env : STATE_CHANGE_ENVIRONMENT) (s : SYSTEM)
    (hType : s.Device.Type_ = SpecialDevicePseudoRandom)
    (hReg : s.Device.InterfaceRegistered = true)
    (hMajor : Irp.MajorCode = IrpMajorStateChange)
    (hMinor : Irp.MinorCode = IrpMinorStartDevice) (hUp : Irp.Direction = IrpUp) :
    SpecialDispatchStateChange Irp Env s = emit (EVENT.IoCompleteIrp Irp STATUS_SUCCESS) s := by
  rw [SpecialDispatchStateChange_start Irp Env s hType hMajor hMinor hUp,
    SpecialPseudoRandomStartDevice_eq Irp Env s hType]
  simp [hReg]

/-- C9: on a pseudo-random device whose interface is not registered, two
start-device requests travelling up, the publish call of the first succeeding,
are both completed with success and leave the interface registered; the second
makes no call but its completion, so `IoCreateInterface` is called once. -/
theorem SpecialDispatchStateChange_start_twice (Irp₁ Irp₂ : IRP)
    (Env₁ Env₂ : STATE_CHANGE_ENVIRONMENT) (s : SYSTEM)
    (hType : s.Device.Type_ = SpecialDevicePseudoRandom)
    (hReg : s.Device.InterfaceRegistered = false)
    (hMajor₁ : Irp₁.MajorCode = IrpMajorStateChange)
    (hMinor₁ : Irp₁.MinorCode = IrpMinorStartDevice) (hUp₁ : Irp₁.Direction = IrpUp)
    (hMajor₂ : Irp₂.MajorCode = IrpMajorStateChange)
    (hMinor₂ : Irp₂.MinorCode = IrpMinorStartDevice) (hUp₂ : Irp₂.Direction = IrpUp)
    (hPublish : KSUCCESS Env₁.CreateInterfaceStatus = true) :
    (SpecialDispatchStateChange Irp₁ Env₁ s).Device.InterfaceRegistered = true ∧
      (SpecialDispatchStateChange Irp₂ Env₂
        (SpecialDispatchStateChange Irp₁ Env₁ s)).Device.InterfaceRegistered = true ∧
      (SpecialDispatchStateChange Irp₂ Env₂ (SpecialDispatchStateChange Irp₁ Env₁ s)).Trace =
        (SpecialDispatchStateChange Irp₁ Env₁ s).Trace ++
          [EVENT.IoCompleteIrp Irp₂ STATUS_SUCCESS] ∧
      Completions
          (SpecialDispatchStateChange Irp₂ Env₂ (SpecialDispatchStateChange Irp₁ Env₁ s)).Trace =
        Completions s.Trace ++ [STATUS_SUCCESS, STATUS_SUCCESS] ∧
      CreateInterfaceCount
          (SpecialDispatchStateChange Irp₂ Env₂ (SpecialDispatchStateChange Irp₁ Env₁ s)).Trace =
        CreateInterfaceCount s.Trace + 1 ∧
      AssertionFaults
          (SpecialDispatchStateChange Irp₂ Env₂ (SpecialDispatchStateChange Irp₁ Env₁ s)).Trace =
        AssertionFaults s.Trace := by
  have hs : Env₁.CreateInterfaceStatus = STATUS_SUCCESS := by simpa [KSUCCESS] using hPublish
  have h1 := SpecialDispatchStateChange_start_unregistered Irp₁ Env₁ s hType hReg hMajor₁
    hMinor₁ hUp₁
  have hReg₁ : (SpecialDispatchStateChange Irp₁ Env₁ s).Device.InterfaceRegistered = true := by
    rw [h1]; exact hPublish
  have hType₁ : (SpecialDispatchStateChange Irp₁ Env₁ s).Device.Type_ =
      SpecialDevicePseudoRandom := by
    rw [h1]; exact hType
  rw [SpecialDispatchStateChange_start_registered Irp₂ Env₂ _ hType₁ hReg₁ hMajor₂ hMinor₂ hUp₂]
  refine ⟨hReg₁, hReg₁, rfl, ?_, ?_, ?_⟩
  · rw [h1]
    simp [Completions, emit, hs]
  · rw [h1]
    simp [CreateInterfaceCount, emit, List.countP_append, List.countP_cons]
  · rw [h1]
    simp [AssertionFaults, emit]

/-- C9, at a concrete input: `urandom` freshly attached and started twice. -/
theorem SpecialDispatchStateChange_start_twice_witness :
    (SampleRandomSystem.Device.Type_ = SpecialDevicePseudoRandom ∧
      SampleRandomSystem.Device.InterfaceRegistered = false ∧
      KSUCCESS SampleStateChangeEnvironment.CreateInterfaceStatus = true) ∧
    CreateInterfaceCount
        (SpecialDispatchStateChange (SampleIrp IrpMajorStateChange IrpMinorStartDevice IrpUp)
          SampleFailingEnvironment
          (SpecialDispatchStateChange (SampleIrp IrpMajorStateChange IrpMinorStartDevice IrpUp)
            SampleStateChangeEnvironment SampleRandomSystem)).Trace =
      CreateInterfaceCount SampleRandomSystem.Trace + 1 :=
  ⟨⟨by decide, by decide, by decide⟩,
    (SpecialDispatchStateChange_start_twice
      (SampleIrp IrpMajorStateChange IrpMinorStartDevice IrpUp)
      (SampleIrp IrpMajorStateChange IrpMinorStartDevice IrpUp)
      SampleStateChangeEnvironment SampleFailingEnvironment SampleRandomSystem
      (by decide) (by decide) rfl rfl rfl rfl rfl rfl (by decide)).2.2.2.2.1⟩

theorem SpecialDeviceReleaseReference_Trace (s : SYSTEM) :
    (SpecialDeviceReleaseReference s).Trace = s.Trace ++
      ((if s.Device.ReferenceCount ≠ 0 ∧ s.Device.ReferenceCount < 0x10000000 then []
          else [EVENT.RtlRaiseAssertion 1285]) ++
        (if s.Device.ReferenceCount = 1 then
          EVENT.SpecialDestroyDevice ::
            ((if s.Device.InterfaceRegistered = false then []
                else [EVENT.RtlRaiseAssertion 1317]) ++
              [if s.Device.Type_ = SpecialDevicePseudoRandom then
                  EVENT.MmFreeNonPagedPool s.Context
                else EVENT.MmFreePagedPool s.Context])
          else [])) := by
  rw [SpecialDeviceReleaseReference_eq]

theorem Completions_append (a b : List EVENT) :
    Completions (a ++ b) = Completions a ++ Completions b := by
  unfold Completions
  exact List.filterMap_append _ _ _

theorem DestroyInterfaceCount_append (a b : List EVENT) :
    DestroyInterfaceCount (a ++ b) = DestroyInterfaceCount a + DestroyInterfaceCount b := by
  unfold DestroyInterfaceCount
  exact List.countP_append _ _ _

theorem AssertionFaults_append (a b : List EVENT) :
    AssertionFaults (a ++ b) = AssertionFaults a ++ AssertionFaults b := by
  unfold AssertionFaults
  exact List.filterMap_append _ _ _

/-- What a release adds to the observations of the trace, on a device whose
interface is not registered. -/
theorem SpecialDeviceReleaseReference_unregistered (s : SYSTEM)
    (hReg : s.Device.InterfaceRegistered = false) :
    (SpecialDeviceReleaseReference s).Device.InterfaceRegistered = false ∧
      (SpecialDeviceReleaseReference s).Device.Type_ = s.Device.Type_ ∧
      (SpecialDeviceReleaseReference s).Device.ReferenceCount =
        (s.Device.ReferenceCount + 0xFFFFFFFF) % 4294967296 ∧
      Completions (SpecialDeviceReleaseReference s).Trace = Completions s.Trace ∧
      DestroyInterfaceCount (SpecialDeviceReleaseReference s).Trace =
        DestroyInterfaceCount s.Trace ∧
      AssertionFaults (SpecialDeviceReleaseReference s).Trace = AssertionFaults s.Trace ++
        (if s.Device.ReferenceCount ≠ 0 ∧ s.Device.ReferenceCount < 0x10000000 then []
          else [1285]) := by
  rw [SpecialDeviceReleaseReference_Trace, SpecialDeviceReleaseReference_Device]
  refine ⟨hReg, rfl, rfl, ?_, ?_, ?_⟩
  · rw [Completions_append, Completions_append, if_pos hReg]
    split_ifs <;> simp [Completions]
  · rw [DestroyInterfaceCount_append, DestroyInterfaceCount_append, if_pos hReg]
    split_ifs <;> simp [DestroyInterfaceCount]
  · rw [AssertionFaults_append, AssertionFaults_append, if_pos hReg]
    split_ifs <;> simp [AssertionFaults]

/-- A remove-device travelling up on a pseudo-random device whose unpublish
call, if it is made, succeeds. -/
theorem SpecialDispatchStateChange_remove_ok (Irp : IRP)
    (Env : STATE_CHANGE_ENVIRONMENT) (s : SYSTEM)
    (hType : s.Device.Type_ = SpecialDevicePseudoRandom)
    (hMajor : Irp.MajorCode = IrpMajorStateChange)
    (hMinor : Irp.MinorCode = IrpMinorRemoveDevice) (hUp : Irp.Direction = IrpUp)
    (hOk : s.Device.InterfaceRegistered = true → KSUCCESS Env.DestroyInterfaceStatus = true) :
    SpecialDispatchStateChange Irp Env s =
      emit (EVENT.IoCompleteIrp Irp STATUS_SUCCESS)
        (SpecialDeviceReleaseReference
          { s with
            Device := { s.Device with InterfaceRegistered := false },
            Trace := s.Trace ++
              (if s.Device.InterfaceRegistered = true then
                [EVENT.IoDestroyInterface Irp.Device Env.DestroyInterfaceStatus] else []) }) := by
  rw [SpecialDispatchStateChange_remove Irp Env s hType hMajor hMinor hUp,
    SpecialPseudoRandomRemoveDevice_eq Irp Env s hType]
  by_cases hr : s.Device.InterfaceRegistered = true
  · have hk := hOk hr
    have hs : Env.DestroyInterfaceStatus = STATUS_SUCCESS := by simpa [KSUCCESS] using hk
    simp [hr, hs, KSUCCESS]
  · have hf : s.Device.InterfaceRegistered = false := by simpa using hr
    rcases s with ⟨c, ⟨t, ct, rc, fc, l, i, ir⟩, rl, tr⟩
    simp only at hf
    subst hf
    simp [KSUCCESS]


/-- What one remove-device travelling up leaves behind on a pseudo-random
device whose unpublish call, if it is made, succeeds. -/
theorem SpecialDispatchStateChange_remove_effect (Irp : IRP)
    (Env : STATE_CHANGE_ENVIRONMENT) (s : SYSTEM)
    (hType : s.Device.Type_ = SpecialDevicePseudoRandom)
    (hMajor : Irp.MajorCode = IrpMajorStateChange)
    (hMinor : Irp.MinorCode = IrpMinorRemoveDevice) (hUp : Irp.Direction = IrpUp)
    (hOk : s.Device.InterfaceRegistered = true → KSUCCESS Env.DestroyInterfaceStatus = true) :
    (SpecialDispatchStateChange Irp Env s).Device.InterfaceRegistered = false ∧
      (SpecialDispatchStateChange Irp Env s).Device.Type_ = SpecialDevicePseudoRandom ∧
      (SpecialDispatchStateChange Irp Env s).Device.ReferenceCount =
        (s.Device.ReferenceCount + 0xFFFFFFFF) % 4294967296 ∧
      Completions (SpecialDispatchStateChange Irp Env s).Trace =
        Completions s.Trace ++ [STATUS_SUCCESS] ∧
      DestroyInterfaceCount (SpecialDispatchStateChange Irp Env s).Trace =
        DestroyInterfaceCount s.Trace + (if s.Device.InterfaceRegistered = true then 1 else 0) ∧
      AssertionFaults (SpecialDispatchStateChange Irp Env s).Trace = AssertionFaults s.Trace ++
        (if s.Device.ReferenceCount ≠ 0 ∧ s.Device.ReferenceCount < 0x10000000 then []
          else [1285]) := by
  rw [SpecialDispatchStateChange_remove_ok Irp Env s hType hMajor hMinor hUp hOk]
  obtain ⟨h1, h2, h3, h4, h5, h6⟩ := SpecialDeviceReleaseReference_unregistered
    { s with
      Device := { s.Device with InterfaceRegistered := false },
      Trace := s.Trace ++
        (if s.Device.InterfaceRegistered = true then
          [EVENT.IoDestroyInterface Irp.Device Env.DestroyInterfaceStatus] else []) } rfl
  refine ⟨h1, h2.trans hType, h3, ?_, ?_, ?_⟩
  · rw [emit_Trace, Completions_append, h4, Completions_append]
    split_ifs <;> simp [Completions]
  · rw [emit_Trace, DestroyInterfaceCount_append, h5, DestroyInterfaceCount_append]
    split_ifs <;> simp [DestroyInterfaceCount]
  · rw [emit_Trace, AssertionFaults_append, h6, AssertionFaults_append]
    split_ifs <;> simp [AssertionFaults]

/-- C10, against the claim as stated: two remove-device requests on a freshly
attached `urandom` device release two references where one is held, so the
second release finds the count at 0 and fails the assertion of line 1285; and
when the unpublish call fails, on a started device holding five references,
both requests are completed with that failure, the interface stays registered
and `IoDestroyInterface` is called twice. -/
theorem SpecialDispatchStateChange_remove_twice_faults :
    (SampleRandomSystem.Device.Type_ = SpecialDevicePseudoRandom ∧
      SampleRandomSystem.Device.ReferenceCount = 1 ∧
      AssertionFaults SampleRandomSystem.Trace = [] ∧
      AssertionFaults
          (SpecialDispatchStateChange (SampleIrp IrpMajorStateChange IrpMinorRemoveDevice IrpUp)
            SampleStateChangeEnvironment
            (SpecialDispatchStateChange
              (SampleIrp IrpMajorStateChange IrpMinorRemoveDevice IrpUp)
              SampleStateChangeEnvironment SampleRandomSystem)).Trace = [1285]) ∧
    ((WithReferenceCount 5 SampleStartedSystem).Device.Type_ = SpecialDevicePseudoRandom ∧
      DestroyInterfaceCount (WithReferenceCount 5 SampleStartedSystem).Trace = 0 ∧
      Completions (WithReferenceCount 5 SampleStartedSystem).Trace = [STATUS_SUCCESS] ∧
      Completions
          (SpecialDispatchStateChange (SampleIrp IrpMajorStateChange IrpMinorRemoveDevice IrpUp)
            SampleFailingEnvironment
            (SpecialDispatchStateChange
              (SampleIrp IrpMajorStateChange IrpMinorRemoveDevice IrpUp)
              SampleFailingEnvironment (WithReferenceCount 5 SampleStartedSystem))).Trace =
        [STATUS_SUCCESS, STATUS_OTHER 1, STATUS_OTHER 1] ∧
      DestroyInterfaceCount
          (SpecialDispatchStateChange (SampleIrp IrpMajorStateChange IrpMinorRemoveDevice IrpUp)
            SampleFailingEnvironment
            (SpecialDispatchStateChange
              (SampleIrp IrpMajorStateChange IrpMinorRemoveDevice IrpUp)
              SampleFailingEnvironment (WithReferenceCount 5 SampleStartedSystem))).Trace = 2 ∧
      (SpecialDispatchStateChange (SampleIrp IrpMajorStateChange IrpMinorRemoveDevice IrpUp)
        SampleFailingEnvironment
        (SpecialDispatchStateChange (SampleIrp IrpMajorStateChange IrpMinorRemoveDevice IrpUp)
          SampleFailingEnvironment
          (WithReferenceCount 5 SampleStartedSystem))).Device.InterfaceRegistered = true) := by
  decide

/-- C10, amended: on a pseudo-random device whose unpublish call, if it is
made, succeeds, two remove-device requests travelling up are both completed
with success and leave the interface not registered; `IoDestroyInterface` is
called once if the interface was registered and not at all otherwise; each of
the two releases one reference, and no assertion fails exactly when the count
before them is at least 2 and below `0x10000000`. -/
theorem SpecialDispatchStateChange_remove_twice (Irp₁ Irp₂ : IRP)
    (Env₁ Env₂ : STATE_CHANGE_ENVIRONMENT) (s : SYSTEM)
    (hType : s.Device.Type_ = SpecialDevicePseudoRandom)
    (hMajor₁ : Irp₁.MajorCode = IrpMajorStateChange)
    (hMinor₁ : Irp₁.MinorCode = IrpMinorRemoveDevice) (hUp₁ : Irp₁.Direction = IrpUp)
    (hMajor₂ : Irp₂.MajorCode = IrpMajorStateChange)
    (hMinor₂ : Irp₂.MinorCode = IrpMinorRemoveDevice) (hUp₂ : Irp₂.Direction = IrpUp)
    (hUnpublish : s.Device.InterfaceRegistered = true →
      KSUCCESS Env₁.DestroyInterfaceStatus = true) :
    Completions
        (SpecialDispatchStateChange Irp₂ Env₂ (SpecialDispatchStateChange Irp₁ Env₁ s)).Trace =
      Completions s.Trace ++ [STATUS_SUCCESS, STATUS_SUCCESS] ∧
    (SpecialDispatchStateChange Irp₁ Env₁ s).Device.InterfaceRegistered = false ∧
    (SpecialDispatchStateChange Irp₂ Env₂
      (SpecialDispatchStateChange Irp₁ Env₁ s)).Device.InterfaceRegistered = false ∧
    DestroyInterfaceCount
        (SpecialDispatchStateChange Irp₂ Env₂ (SpecialDispatchStateChange Irp₁ Env₁ s)).Trace =
      DestroyInterfaceCount s.Trace + (if s.Device.InterfaceRegistered = true then 1 else 0) ∧
    (SpecialDispatchStateChange Irp₂ Env₂
        (SpecialDispatchStateChange Irp₁ Env₁ s)).Device.ReferenceCount =
      ((s.Device.ReferenceCount + 0xFFFFFFFF) % 2 ^ 32 + 0xFFFFFFFF) % 2 ^ 32 ∧
    (AssertionFaults
        (SpecialDispatchStateChange Irp₂ Env₂ (SpecialDispatchStateChange Irp₁ Env₁ s)).Trace =
      AssertionFaults s.Trace ↔
        2 ≤ s.Device.ReferenceCount ∧ s.Device.ReferenceCount < 0x10000000) := by
  obtain ⟨a1, a2, a3, a4, a5, a6⟩ :=
    SpecialDispatchStateChange_remove_effect Irp₁ Env₁ s hType hMajor₁ hMinor₁ hUp₁ hUnpublish
  obtain ⟨b1, _, b3, b4, b5, b6⟩ :=
    SpecialDispatchStateChange_remove_effect Irp₂ Env₂ (SpecialDispatchStateChange Irp₁ Env₁ s)
      a2 hMajor₂ hMinor₂ hUp₂ (by simp [a1])
  rw [show (2 : Nat) ^ 32 = 4294967296 from rfl]
  refine ⟨?_, a1, b1, ?_, ?_, ?_⟩
  · rw [b4, a4]; simp
  · rw [b5, a5]; simp [a1]
  · rw [b3, a3]
  · rw [b6, a6, a3]
    constructor
    · intro h
      have hlen := congrArg List.length h
      simp only [List.length_append] at hlen
      split at hlen <;> split at hlen <;>
        simp only [List.length_nil, List.length_cons, List.length_singleton] at hlen <;> omega
    · intro h
      have h1 : s.Device.ReferenceCount ≠ 0 ∧ s.Device.ReferenceCount < 0x10000000 := by omega
      have h2 : (s.Device.ReferenceCount + 0xFFFFFFFF) % 4294967296 ≠ 0 ∧
          (s.Device.ReferenceCount + 0xFFFFFFFF) % 4294967296 < 0x10000000 := by omega
      rw [if_pos h1, if_pos h2]
      simp

/-- C10, amended, at a concrete input: a started `urandom` device holding three
references is removed twice. -/
theorem SpecialDispatchStateChange_remove_twice_witness :
    ((WithReferenceCount 3 SampleStartedSystem).Device.Type_ = SpecialDevicePseudoRandom ∧
      ((WithReferenceCount 3 SampleStartedSystem).Device.InterfaceRegistered = true →
        KSUCCESS SampleStateChangeEnvironment.DestroyInterfaceStatus = true)) ∧
    DestroyInterfaceCount
        (SpecialDispatchStateChange (SampleIrp IrpMajorStateChange IrpMinorRemoveDevice IrpUp)
          SampleFailingEnvironment
          (SpecialDispatchStateChange (SampleIrp IrpMajorStateChange IrpMinorRemoveDevice IrpUp)
            SampleStateChangeEnvironment (WithReferenceCount 3 SampleStartedSystem))).Trace =
      1 ∧
    AssertionFaults
        (SpecialDispatchStateChange (SampleIrp IrpMajorStateChange IrpMinorRemoveDevice IrpUp)
          SampleFailingEnvironment
          (SpecialDispatchStateChange (SampleIrp IrpMajorStateChange IrpMinorRemoveDevice IrpUp)
            SampleStateChangeEnvironment (WithReferenceCount 3 SampleStartedSystem))).Trace =
      AssertionFaults (WithReferenceCount 3 SampleStartedSystem).Trace :=
  ⟨⟨by decide, by decide⟩,
    ((SpecialDispatchStateChange_remove_twice
      (SampleIrp IrpMajorStateChange IrpMinorRemoveDevice IrpUp)
      (SampleIrp IrpMajorStateChange IrpMinorRemoveDevice IrpUp)
      SampleStateChangeEnvironment SampleFailingEnvironment
      (WithReferenceCount 3 SampleStartedSystem)
      (by decide) rfl rfl rfl rfl rfl rfl (by decide)).2.2.2.1).trans (by decide),
    (SpecialDispatchStateChange_remove_twice
      (SampleIrp IrpMajorStateChange IrpMinorRemoveDevice IrpUp)
      (SampleIrp IrpMajorStateChange IrpMinorRemoveDevice IrpUp)
      SampleStateChangeEnvironment SampleFailingEnvironment
      (WithReferenceCount 3 SampleStartedSystem)
      (by decide) rfl rfl rfl rfl rfl rfl (by decide)).2.2.2.2.2.2 (by decide)⟩

/-! ## Start-device and remove-device, one request at a time -/

theorem FortunaAddEntropyCalls_append (a b : List EVENT) :
    FortunaAddEntropyCalls (a ++ b) = FortunaAddEntropyCalls a ++ FortunaAddEntropyCalls b := by
  unfold FortunaAddEntropyCalls
  exact List.filterMap_append _ _ _

theorem CsprngCallSizes_append (a b : List EVENT) :
    CsprngCallSizes (a ++ b) = CsprngCallSizes a ++ CsprngCallSizes b := by
  unfold CsprngCallSizes
  exact List.filterMap_append _ _ _

theorem CreateInterfaceCount_append (a b : List EVENT) :
    CreateInterfaceCount (a ++ b) = CreateInterfaceCount a + CreateInterfaceCount b := by
  unfold CreateInterfaceCount
  exact List.countP_append _ _ _

theorem CounterBytes_length (Counter : Nat) : (CounterBytes Counter).length = 8 := by
  simp [CounterBytes]

/-- A start-device travelling up on a device that is not the pseudo-random
one. -/
theorem SpecialDispatchStateChange_start_other (Irp : IRP)
    (Env : STATE_CHANGE_ENVIRONMENT) (s : SYSTEM)
    (hType : s.Device.Type_ ≠ SpecialDevicePseudoRandom)
    (hMajor : Irp.MajorCode = IrpMajorStateChange)
    (hMinor : Irp.MinorCode = IrpMinorStartDevice) (hUp : Irp.Direction = IrpUp) :
    SpecialDispatchStateChange Irp Env s = emit (EVENT.IoCompleteIrp Irp STATUS_SUCCESS) s := by
  unfold SpecialDispatchStateChange ASSERT
  simp [hType, hMajor, hMinor, hUp]

/-- C11, against the claim as stated: a start-device travelling up on a
pseudo-random device whose interface is already registered returns before the
time point is mixed in, so the generator is not called at all. -/
theorem SpecialDispatchStateChange_start_again_no_entropy :
    SampleStartedSystem.Device.Type_ = SpecialDevicePseudoRandom ∧
      SampleStartedSystem.Device.InterfaceRegistered = true ∧
      CsprngCallSizes
          (SpecialDispatchStateChange (SampleIrp IrpMajorStateChange IrpMinorStartDevice IrpUp)
            SampleStateChangeEnvironment SampleStartedSystem).Trace =
        CsprngCallSizes SampleStartedSystem.Trace ∧
      (SpecialDispatchStateChange (SampleIrp IrpMajorStateChange IrpMinorStartDevice IrpUp)
          SampleStateChangeEnvironment SampleStartedSystem).Trace =
        SampleStartedSystem.Trace ++
          [EVENT.IoCompleteIrp (SampleIrp IrpMajorStateChange IrpMinorStartDevice IrpUp)
            STATUS_SUCCESS] := by
  decide

/-- C11, amended: a start-device travelling up on a pseudo-random device whose
interface is not registered mixes exactly one reading of the processor counter,
8 bytes, into the generator, whether the publish call succeeds or not; on one
whose interface is already registered it only completes the request with
success, without any call of the generator; on a device of another type it
only completes the request with success, without publish call and without call
of the generator. -/
theorem SpecialDispatchStateChange_start_entropy (Irp : IRP)
    (Env : STATE_CHANGE_ENVIRONMENT) (s : SYSTEM)
    (hMajor : Irp.MajorCode = IrpMajorStateChange)
    (hMinor : Irp.MinorCode = IrpMinorStartDevice) (hUp : Irp.Direction = IrpUp) :
    (s.Device.Type_ = SpecialDevicePseudoRandom → s.Device.InterfaceRegistered = false →
      FortunaAddEntropyCalls (SpecialDispatchStateChange Irp Env s).Trace =
          FortunaAddEntropyCalls s.Trace ++ [CounterBytes Env.ProcessorCounter] ∧
        (CounterBytes Env.ProcessorCounter).length = 8 ∧
        CsprngCallSizes (SpecialDispatchStateChange Irp Env s).Trace =
          CsprngCallSizes s.Trace ++ [8] ∧
        CreateInterfaceCount (SpecialDispatchStateChange Irp Env s).Trace =
          CreateInterfaceCount s.Trace + 1 ∧
        Completions (SpecialDispatchStateChange Irp Env s).Trace =
          Completions s.Trace ++ [Env.CreateInterfaceStatus]) ∧
    (s.Device.Type_ = SpecialDevicePseudoRandom → s.Device.InterfaceRegistered = true →
      SpecialDispatchStateChange Irp Env s = emit (EVENT.IoCompleteIrp Irp STATUS_SUCCESS) s) ∧
    (s.Device.Type_ ≠ SpecialDevicePseudoRandom →
      SpecialDispatchStateChange Irp Env s = emit (EVENT.IoCompleteIrp Irp STATUS_SUCCESS) s) := by
  refine ⟨?_, ?_, ?_⟩
  · intro hType hReg
    rw [SpecialDispatchStateChange_start_unregistered Irp Env s hType hReg hMajor hMinor hUp]
    refine ⟨?_, CounterBytes_length _, ?_, ?_, ?_⟩
    · rw [FortunaAddEntropyCalls_append]
      simp [FortunaAddEntropyCalls]
    · rw [CsprngCallSizes_append]
      simp [CsprngCallSizes, CounterBytes_length]
    · rw [CreateInterfaceCount_append]
      simp [CreateInterfaceCount]
    · rw [Completions_append]
      simp [Completions]
  · intro hType hReg
    exact SpecialDispatchStateChange_start_registered Irp Env s hType hReg hMajor hMinor hUp
  · intro hType
    exact SpecialDispatchStateChange_start_other Irp Env s hType hMajor hMinor hUp

/-- C11, amended, at concrete inputs: `urandom` freshly attached is started
while the publish call fails, then started again while it succeeds, then
started a third time; and `null` is started. -/
theorem SpecialDispatchStateChange_start_entropy_witness :
    (SampleRandomSystem.Device.Type_ = SpecialDevicePseudoRandom ∧
      SampleRandomSystem.Device.InterfaceRegistered = false ∧
      SampleStartedSystem.Device.InterfaceRegistered = true ∧
      SampleNullSystem.Device.Type_ ≠ SpecialDevicePseudoRandom) ∧
    CsprngCallSizes
        (SpecialDispatchStateChange (SampleIrp IrpMajorStateChange IrpMinorStartDevice IrpUp)
          SampleFailingEnvironment SampleRandomSystem).Trace =
      CsprngCallSizes SampleRandomSystem.Trace ++ [8] ∧
    SpecialDispatchStateChange (SampleIrp IrpMajorStateChange IrpMinorStartDevice IrpUp)
        SampleStateChangeEnvironment SampleStartedSystem =
      emit (EVENT.IoCompleteIrp (SampleIrp IrpMajorStateChange IrpMinorStartDevice IrpUp)
        STATUS_SUCCESS) SampleStartedSystem ∧
    SpecialDispatchStateChange (SampleIrp IrpMajorStateChange IrpMinorStartDevice IrpUp)
        SampleStateChangeEnvironment SampleNullSystem =
      emit (EVENT.IoCompleteIrp (SampleIrp IrpMajorStateChange IrpMinorStartDevice IrpUp)
        STATUS_SUCCESS) SampleNullSystem :=
  ⟨⟨by decide, by decide, by decide, by decide⟩,
    ((SpecialDispatchStateChange_start_entropy
      (SampleIrp IrpMajorStateChange IrpMinorStartDevice IrpUp) SampleFailingEnvironment
      SampleRandomSystem rfl rfl rfl).1 (by decide) (by decide)).2.2.1,
    (SpecialDispatchStateChange_start_entropy
      (SampleIrp IrpMajorStateChange IrpMinorStartDevice IrpUp) SampleStateChangeEnvironment
      SampleStartedSystem rfl rfl rfl).2.1 (by decide) (by decide),
    (SpecialDispatchStateChange_start_entropy
      (SampleIrp IrpMajorStateChange IrpMinorStartDevice IrpUp) SampleStateChangeEnvironment
      SampleNullSystem rfl rfl rfl).2.2 (by decide)⟩

theorem SpecialDeviceReleaseReference_Completions (s : SYSTEM) :
    Completions (SpecialDeviceReleaseReference s).Trace = Completions s.Trace := by
  rw [SpecialDeviceReleaseReference_Trace, Completions_append, Completions_append]
  split_ifs <;> simp [Completions]

/-- A remove-device travelling up on a device that is not the pseudo-random
one. -/
theorem SpecialDispatchStateChange_remove_other (Irp : IRP)
    (Env : STATE_CHANGE_ENVIRONMENT) (s : SYSTEM)
    (hType : s.Device.Type_ ≠ SpecialDevicePseudoRandom)
    (hMajor : Irp.MajorCode = IrpMajorStateChange)
    (hMinor : Irp.MinorCode = IrpMinorRemoveDevice) (hUp : Irp.Direction = IrpUp) :
    SpecialDispatchStateChange Irp Env s =
      emit (EVENT.IoCompleteIrp Irp STATUS_SUCCESS) (SpecialDeviceReleaseReference s) := by
  unfold SpecialDispatchStateChange ASSERT
  simp [hType, hMajor, hMinor, hUp, KSUCCESS]

/-- A remove-device travelling up on a pseudo-random device whose unpublish
call fails. -/
theorem SpecialDispatchStateChange_remove_failed (Irp : IRP)
    (Env : STATE_CHANGE_ENVIRONMENT) (s : SYSTEM)
    (hType : s.Device.Type_ = SpecialDevicePseudoRandom)
    (hReg : s.Device.InterfaceRegistered = true)
    (hFail : KSUCCESS Env.DestroyInterfaceStatus = false)
    (hMajor : Irp.MajorCode = IrpMajorStateChange)
    (hMinor : Irp.MinorCode = IrpMinorRemoveDevice) (hUp : Irp.Direction = IrpUp) :
    SpecialDispatchStateChange Irp Env s =
      { s with Trace := s.Trace ++
        [EVENT.IoDestroyInterface Irp.Device Env.DestroyInterfaceStatus,
          EVENT.IoCompleteIrp Irp Env.DestroyInterfaceStatus] } := by
  rw [SpecialDispatchStateChange_remove Irp Env s hType hMajor hMinor hUp,
    SpecialPseudoRandomRemoveDevice_eq Irp Env s hType]
  rcases s with ⟨c, ⟨t, ct, rc, fc, l, i, ir⟩, rl, tr⟩
  simp only at hReg
  subst hReg
  simp [hFail, emit]

/-- C12: a remove-device travelling up releases one reference exactly when the
interface is unregistered afterwards, which is always so on a device that is
not the pseudo-random one: the release is made once, on the count the request
found, and the request is then completed with success.  When the unpublish call
fails the request is completed with the status of that call, the device is as
it was, reference count and registration included, and it is not destroyed. -/
theorem SpecialDispatchStateChange_remove_release (Irp : IRP)
    (Env : STATE_CHANGE_ENVIRONMENT) (s : SYSTEM)
    (hMajor : Irp.MajorCode = IrpMajorStateChange)
    (hMinor : Irp.MinorCode = IrpMinorRemoveDevice) (hUp : Irp.Direction = IrpUp) :
    ((s.Device.Type_ ≠ SpecialDevicePseudoRandom ∨ s.Device.InterfaceRegistered = false ∨
        KSUCCESS Env.DestroyInterfaceStatus = true) →
      (∃ t : SYSTEM, t.Device.ReferenceCount = s.Device.ReferenceCount ∧
        DestroyCount t.Trace = DestroyCount s.Trace ∧
        SpecialDispatchStateChange Irp Env s =
          emit (EVENT.IoCompleteIrp Irp STATUS_SUCCESS) (SpecialDeviceReleaseReference t)) ∧
      (SpecialDispatchStateChange Irp Env s).Device.ReferenceCount =
        (s.Device.ReferenceCount + 0xFFFFFFFF) % 2 ^ 32 ∧
      (s.Device.Type_ = SpecialDevicePseudoRandom →
        (SpecialDispatchStateChange Irp Env s).Device.InterfaceRegistered = false) ∧
      (s.Device.Type_ ≠ SpecialDevicePseudoRandom →
        DestroyInterfaceCount (SpecialDispatchStateChange Irp Env s).Trace =
          DestroyInterfaceCount s.Trace) ∧
      Completions (SpecialDispatchStateChange Irp Env s).Trace =
        Completions s.Trace ++ [STATUS_SUCCESS]) ∧
    (s.Device.Type_ = SpecialDevicePseudoRandom → s.Device.InterfaceRegistered = true →
      KSUCCESS Env.DestroyInterfaceStatus = false →
      (SpecialDispatchStateChange Irp Env s).Device = s.Device ∧
        (SpecialDispatchStateChange Irp Env s).Trace = s.Trace ++
          [EVENT.IoDestroyInterface Irp.Device Env.DestroyInterfaceStatus,
            EVENT.IoCompleteIrp Irp Env.DestroyInterfaceStatus] ∧
        DestroyCount (SpecialDispatchStateChange Irp Env s).Trace = DestroyCount s.Trace ∧
        Completions (SpecialDispatchStateChange Irp Env s).Trace =
          Completions s.Trace ++ [Env.DestroyInterfaceStatus]) := by
  rw [show (2 : Nat) ^ 32 = 4294967296 from rfl]
  constructor
  · intro hOk
    by_cases hType : s.Device.Type_ = SpecialDevicePseudoRandom
    · have hOk2 : s.Device.InterfaceRegistered = true →
          KSUCCESS Env.DestroyInterfaceStatus = true := by
        intro hr
        rcases hOk with h | h | h
        · exact absurd hType h
        · rw [hr] at h; cases h
        · exact h
      have heq := SpecialDispatchStateChange_remove_ok Irp Env s hType hMajor hMinor hUp hOk2
      obtain ⟨e1, _, e3, e4, _, _⟩ :=
        SpecialDispatchStateChange_remove_effect Irp Env s hType hMajor hMinor hUp hOk2
      refine ⟨⟨{ s with
          Device := { s.Device with InterfaceRegistered := false },
          Trace := s.Trace ++ (if s.Device.InterfaceRegistered = true then
            [EVENT.IoDestroyInterface Irp.Device Env.DestroyInterfaceStatus] else []) },
        rfl, ?_, heq⟩, e3, fun _ => e1, fun h => absurd hType h, e4⟩
      show DestroyCount (s.Trace ++ _) = _
      unfold DestroyCount
      rw [List.count_append]
      split_ifs <;> simp
    · have heq := SpecialDispatchStateChange_remove_other Irp Env s hType hMajor hMinor hUp
      refine ⟨⟨s, rfl, rfl, heq⟩, ?_, fun h => absurd h hType, fun _ => ?_, ?_⟩
      · rw [heq, emit_Device, SpecialDeviceReleaseReference_Device]
      · rw [heq, emit_Trace, DestroyInterfaceCount_append, SpecialDeviceReleaseReference_Trace,
          DestroyInterfaceCount_append, DestroyInterfaceCount_append]
        split_ifs <;> simp [DestroyInterfaceCount]
      · rw [heq, emit_Trace, Completions_append, SpecialDeviceReleaseReference_Completions]
        simp [Completions]
  · intro hType hReg hFail
    rw [SpecialDispatchStateChange_remove_failed Irp Env s hType hReg hFail hMajor hMinor hUp]
    refine ⟨rfl, rfl, ?_, ?_⟩
    · show DestroyCount (s.Trace ++ _) = _
      unfold DestroyCount
      rw [List.count_append]
      simp
    · show Completions (s.Trace ++ _) = _
      rw [Completions_append]
      simp [Completions]

/-- C12, at concrete inputs: a started `urandom` device holding two references
is removed while the unpublish call succeeds, and while it fails; and `null` is
removed. -/
theorem SpecialDispatchStateChange_remove_release_witness :
    ((WithReferenceCount 2 SampleStartedSystem).Device.Type_ = SpecialDevicePseudoRandom ∧
      (WithReferenceCount 2 SampleStartedSystem).Device.InterfaceRegistered = true ∧
      KSUCCESS SampleStateChangeEnvironment.DestroyInterfaceStatus = true ∧
      KSUCCESS SampleFailingEnvironment.DestroyInterfaceStatus = false ∧
      SampleNullSystem.Device.Type_ ≠ SpecialDevicePseudoRandom) ∧
    (SpecialDispatchStateChange (SampleIrp IrpMajorStateChange IrpMinorRemoveDevice IrpUp)
        SampleStateChangeEnvironment
        (WithReferenceCount 2 SampleStartedSystem)).Device.ReferenceCount = 1 ∧
    (SpecialDispatchStateChange (SampleIrp IrpMajorStateChange IrpMinorRemoveDevice IrpUp)
        SampleFailingEnvironment (WithReferenceCount 2 SampleStartedSystem)).Device =
      (WithReferenceCount 2 SampleStartedSystem).Device ∧
    Completions
        (SpecialDispatchStateChange (SampleIrp IrpMajorStateChange IrpMinorRemoveDevice IrpUp)
          SampleStateChangeEnvironment SampleNullSystem).Trace =
      Completions SampleNullSystem.Trace ++ [STATUS_SUCCESS] :=
  ⟨⟨by decide, by decide, by decide, by decide, by decide⟩,
    ((SpecialDispatchStateChange_remove_release
      (SampleIrp IrpMajorStateChange IrpMinorRemoveDevice IrpUp) SampleStateChangeEnvironment
      (WithReferenceCount 2 SampleStartedSystem) rfl rfl rfl).1
        (Or.inr (Or.inr (by decide)))).2.1.trans (by decide),
    ((SpecialDispatchStateChange_remove_release
      (SampleIrp IrpMajorStateChange IrpMinorRemoveDevice IrpUp) SampleFailingEnvironment
      (WithReferenceCount 2 SampleStartedSystem) rfl rfl rfl).2
        (by decide) (by decide) (by decide)).1,
    ((SpecialDispatchStateChange_remove_release
      (SampleIrp IrpMajorStateChange IrpMinorRemoveDevice IrpUp) SampleStateChangeEnvironment
      SampleNullSystem rfl rfl rfl).1 (Or.inl (by decide))).2.2.2.2⟩

/-! ## The loop of the pseudo-random device, one round at a time -/

theorem SpecialPerformPseudoRandomIoLoop_done (Env : IO_ENVIRONMENT) (Fuel : Nat)
    (Io : PSEUDO_RANDOM_IO) (hR : Io.BytesRemaining = 0) :
    SpecialPerformPseudoRandomIoLoop Env Fuel Io = (STATUS_SUCCESS, Io) := by
  cases Fuel <;> simp [SpecialPerformPseudoRandomIoLoop, hR]

theorem MmCopyIoBufferData_out_length (IoBuffer Buffer : List Nat) (Offset Size : Nat)
    (Status : KSTATUS) (hS : KSUCCESS Status = true) :
    ((MmCopyIoBufferData IoBuffer Buffer Offset Size false Status).2.take Size).length = Size := by
  simp [MmCopyIoBufferData, hS]

theorem SpecialPerformPseudoRandomIoLoop_write_fail (Env : IO_ENVIRONMENT) (Fuel : Nat)
    (Io : PSEUDO_RANDOM_IO) (hR : Io.BytesRemaining ≠ 0)
    (hW : Io.Irp.MinorCode = IrpMinorIoWrite)
    (hF : KSUCCESS (Env.CopyStatus Io.IoBufferOffset) = false) :
    SpecialPerformPseudoRandomIoLoop Env (Fuel + 1) Io =
      (Env.CopyStatus Io.IoBufferOffset,
        { Io with System := { Io.System with Trace := Io.System.Trace ++
          [EVENT.MmCopyIoBufferData Io.IoBufferOffset (min 2048 Io.BytesRemaining) false
            (Env.CopyStatus Io.IoBufferOffset)] } }) := by
  have hmin : (if SPECIAL_URANDOM_BUFFER_SIZE > Io.BytesRemaining then Io.BytesRemaining
      else SPECIAL_URANDOM_BUFFER_SIZE) = min 2048 Io.BytesRemaining := by
    unfold SPECIAL_URANDOM_BUFFER_SIZE
    split_ifs <;> omega
  simp only [SpecialPerformPseudoRandomIoLoop, hmin]
  simp [hR, hW, hF, emit, MmCopyIoBufferData]

theorem SpecialPerformPseudoRandomIoLoop_write_ok (Env : IO_ENVIRONMENT) (Fuel : Nat)
    (Io : PSEUDO_RANDOM_IO) (hR : Io.BytesRemaining ≠ 0)
    (hW : Io.Irp.MinorCode = IrpMinorIoWrite)
    (hS : KSUCCESS (Env.CopyStatus Io.IoBufferOffset) = true) :
    SpecialPerformPseudoRandomIoLoop Env (Fuel + 1) Io =
      SpecialPerformPseudoRandomIoLoop Env Fuel
        { Io with
          System := { Io.System with
            Device := { Io.System.Device with Lock := false },
            Trace := Io.System.Trace ++
              [EVENT.MmCopyIoBufferData Io.IoBufferOffset (min 2048 Io.BytesRemaining) false
                (Env.CopyStatus Io.IoBufferOffset),
                EVENT.KeRaiseRunLevel RunLevelDispatch, EVENT.KeAcquireSpinLock,
                EVENT.CyFortunaAddEntropy
                  ((MmCopyIoBufferData (Io.Irp.IoBuffer.getD []) Io.Buffer Io.IoBufferOffset
                    (min 2048 Io.BytesRemaining) false
                    (Env.CopyStatus Io.IoBufferOffset)).2.take (min 2048 Io.BytesRemaining)),
                EVENT.KeReleaseSpinLock, EVENT.KeLowerRunLevel Io.System.RunLevel] },
          Buffer := (MmCopyIoBufferData (Io.Irp.IoBuffer.getD []) Io.Buffer Io.IoBufferOffset
            (min 2048 Io.BytesRemaining) false (Env.CopyStatus Io.IoBufferOffset)).2,
          BytesRemaining := Io.BytesRemaining - min 2048 Io.BytesRemaining,
          IoBufferOffset := Io.IoBufferOffset + min 2048 Io.BytesRemaining } := by
  have hmin : (if SPECIAL_URANDOM_BUFFER_SIZE > Io.BytesRemaining then Io.BytesRemaining
      else SPECIAL_URANDOM_BUFFER_SIZE) = min 2048 Io.BytesRemaining := by
    unfold SPECIAL_URANDOM_BUFFER_SIZE
    split_ifs <;> omega
  simp only [SpecialPerformPseudoRandomIoLoop, hmin]
  simp [hR, hW, hS, emit, KeRaiseRunLevel, KeLowerRunLevel, KeAcquireSpinLock,
    KeReleaseSpinLock]

theorem SpecialPerformPseudoRandomIoLoop_read_fail (Env : IO_ENVIRONMENT) (Fuel : Nat)
    (Io : PSEUDO_RANDOM_IO) (hR : Io.BytesRemaining ≠ 0)
    (hW : Io.Irp.MinorCode ≠ IrpMinorIoWrite)
    (hF : KSUCCESS (Env.CopyStatus Io.IoBufferOffset) = false) :
    SpecialPerformPseudoRandomIoLoop Env (Fuel + 1) Io =
      (Env.CopyStatus Io.IoBufferOffset,
        { Io with
          System := { Io.System with
            Device := { Io.System.Device with Lock := false },
            Trace := Io.System.Trace ++
              [EVENT.KeRaiseRunLevel RunLevelDispatch, EVENT.KeAcquireSpinLock,
                EVENT.CyFortunaGetRandomBytes (min 2048 Io.BytesRemaining)
                  ((List.range (min 2048 Io.BytesRemaining)).map
                    (fun i => Env.RandomByte (Io.IoBufferOffset + i))),
                EVENT.KeReleaseSpinLock, EVENT.KeLowerRunLevel Io.System.RunLevel,
                EVENT.MmCopyIoBufferData Io.IoBufferOffset (min 2048 Io.BytesRemaining) true
                  (Env.CopyStatus Io.IoBufferOffset)] },
          Buffer := (List.range (min 2048 Io.BytesRemaining)).map
              (fun i => Env.RandomByte (Io.IoBufferOffset + i)) ++
            Io.Buffer.drop (min 2048 Io.BytesRemaining) }) := by
  have hmin : (if SPECIAL_URANDOM_BUFFER_SIZE > Io.BytesRemaining then Io.BytesRemaining
      else SPECIAL_URANDOM_BUFFER_SIZE) = min 2048 Io.BytesRemaining := by
    unfold SPECIAL_URANDOM_BUFFER_SIZE
    split_ifs <;> omega
  simp only [SpecialPerformPseudoRandomIoLoop, hmin]
  simp [hR, hW, hF, emit, KeRaiseRunLevel, KeLowerRunLevel, KeAcquireSpinLock,
    KeReleaseSpinLock, MmCopyIoBufferData]

theorem SpecialPerformPseudoRandomIoLoop_read_ok (Env : IO_ENVIRONMENT) (Fuel : Nat)
    (Io : PSEUDO_RANDOM_IO) (hR : Io.BytesRemaining ≠ 0)
    (hW : Io.Irp.MinorCode ≠ IrpMinorIoWrite)
    (hS : KSUCCESS (Env.CopyStatus Io.IoBufferOffset) = true) :
    SpecialPerformPseudoRandomIoLoop Env (Fuel + 1) Io =
      SpecialPerformPseudoRandomIoLoop Env Fuel
        { Irp := { Io.Irp with IoBuffer := Io.Irp.IoBuffer.map (fun IoBuffer =>
            (MmCopyIoBufferData IoBuffer
              ((List.range (min 2048 Io.BytesRemaining)).map
                  (fun i => Env.RandomByte (Io.IoBufferOffset + i)) ++
                Io.Buffer.drop (min 2048 Io.BytesRemaining))
              Io.IoBufferOffset (min 2048 Io.BytesRemaining) true
              (Env.CopyStatus Io.IoBufferOffset)).1) },
          System := { Io.System with
            Device := { Io.System.Device with Lock := false },
            Trace := Io.System.Trace ++
              [EVENT.KeRaiseRunLevel RunLevelDispatch, EVENT.KeAcquireSpinLock,
                EVENT.CyFortunaGetRandomBytes (min 2048 Io.BytesRemaining)
                  ((List.range (min 2048 Io.BytesRemaining)).map
                    (fun i => Env.RandomByte (Io.IoBufferOffset + i))),
                EVENT.KeReleaseSpinLock, EVENT.KeLowerRunLevel Io.System.RunLevel,
                EVENT.MmCopyIoBufferData Io.IoBufferOffset (min 2048 Io.BytesRemaining) true
                  (Env.CopyStatus Io.IoBufferOffset)] },
          Buffer := (List.range (min 2048 Io.BytesRemaining)).map
              (fun i => Env.RandomByte (Io.IoBufferOffset + i)) ++
            Io.Buffer.drop (min 2048 Io.BytesRemaining),
          BytesRemaining := Io.BytesRemaining - min 2048 Io.BytesRemaining,
          IoBufferOffset := Io.IoBufferOffset + min 2048 Io.BytesRemaining } := by
  have hmin : (if SPECIAL_URANDOM_BUFFER_SIZE > Io.BytesRemaining then Io.BytesRemaining
      else SPECIAL_URANDOM_BUFFER_SIZE) = min 2048 Io.BytesRemaining := by
    unfold SPECIAL_URANDOM_BUFFER_SIZE
    split_ifs <;> omega
  simp only [SpecialPerformPseudoRandomIoLoop, hmin]
  simp [hR, hW, hS, emit, KeRaiseRunLevel, KeLowerRunLevel, KeAcquireSpinLock,
    KeReleaseSpinLock]

theorem ProtocolRun_append (Entry : RUNLEVEL) (a b : List EVENT) :
    ∀ State : PROTOCOL_STATE, ProtocolRun Entry State (a ++ b) =
      (ProtocolRun Entry State a).bind (fun Next => ProtocolRun Entry Next b) := by
  induction a with
  | nil => intro State; rfl
  | cons Event Rest ih =>
    intro State
    simp only [List.cons_append, ProtocolRun]
    cases ProtocolStep Entry State Event with
    | none => rfl
    | some Next => exact ih Next

theorem InterfacePublished_append (a b : List EVENT) :
    InterfacePublished (a ++ b) = b.foldl InterfacePublishedStep (InterfacePublished a) := by
  unfold InterfacePublished
  exact List.foldl_append _ _ _ _

/-- What the loop of `SpecialPerformPseudoRandomIo` leaves as it found it,
whatever the fuel: the context, the run level, the device but for its lock,
which is free if it was taken at all; it never adds to the bytes remaining; and
the calls it adds to the trace follow the protocol around the generator, touch
no interface, complete no request and raise no assertion. -/
theorem SpecialPerformPseudoRandomIoLoop_frame (Env : IO_ENVIRONMENT) :
    ∀ (Fuel : Nat) (Io : PSEUDO_RANDOM_IO),
      (SpecialPerformPseudoRandomIoLoop Env Fuel Io).2.System.Context = Io.System.Context ∧
      (SpecialPerformPseudoRandomIoLoop Env Fuel Io).2.System.RunLevel = Io.System.RunLevel ∧
      ((SpecialPerformPseudoRandomIoLoop Env Fuel Io).2.System.Device = Io.System.Device ∨
        (SpecialPerformPseudoRandomIoLoop Env Fuel Io).2.System.Device =
          { Io.System.Device with Lock := false }) ∧
      (SpecialPerformPseudoRandomIoLoop Env Fuel Io).2.BytesRemaining ≤ Io.BytesRemaining ∧
      ∃ New : List EVENT,
        (SpecialPerformPseudoRandomIoLoop Env Fuel Io).2.System.Trace =
          Io.System.Trace ++ New ∧
        ProtocolRun Io.System.RunLevel PROTOCOL_STATE.Idle New = some PROTOCOL_STATE.Idle ∧
        (∀ Published : Bool, New.foldl InterfacePublishedStep Published = Published) ∧
        Completions New = [] ∧ AssertionFaults New = [] := by
  intro Fuel
  induction Fuel with
  | zero =>
    intro Io
    exact ⟨rfl, rfl, Or.inl rfl, le_refl _, [], by simp [SpecialPerformPseudoRandomIoLoop], rfl,
      fun _ => rfl, rfl, rfl⟩
  | succ Fuel ih =>
    intro Io
    by_cases hR : Io.BytesRemaining = 0
    · rw [SpecialPerformPseudoRandomIoLoop_done Env _ Io hR]
      exact ⟨rfl, rfl, Or.inl rfl, le_refl _, [], by simp, rfl, fun _ => rfl, rfl, rfl⟩
    · by_cases hW : Io.Irp.MinorCode = IrpMinorIoWrite
      · by_cases hS : KSUCCESS (Env.CopyStatus Io.IoBufferOffset) = true
        · rw [SpecialPerformPseudoRandomIoLoop_write_ok Env Fuel Io hR hW hS]
          obtain ⟨h1, h2, h3, h4, New, h5, h6, h7, h8, h9⟩ := ih
            { Io with
              System := { Io.System with
                Device := { Io.System.Device with Lock := false },
                Trace := Io.System.Trace ++
                  [EVENT.MmCopyIoBufferData Io.IoBufferOffset (min 2048 Io.BytesRemaining) false
                    (Env.CopyStatus Io.IoBufferOffset),
                    EVENT.KeRaiseRunLevel RunLevelDispatch, EVENT.KeAcquireSpinLock,
                    EVENT.CyFortunaAddEntropy
                      ((MmCopyIoBufferData (Io.Irp.IoBuffer.getD []) Io.Buffer Io.IoBufferOffset
                        (min 2048 Io.BytesRemaining) false
                        (Env.CopyStatus Io.IoBufferOffset)).2.take (min 2048 Io.BytesRemaining)),
                    EVENT.KeReleaseSpinLock, EVENT.KeLowerRunLevel Io.System.RunLevel] },
              Buffer := (MmCopyIoBufferData (Io.Irp.IoBuffer.getD []) Io.Buffer Io.IoBufferOffset
                (min 2048 Io.BytesRemaining) false (Env.CopyStatus Io.IoBufferOffset)).2,
              BytesRemaining := Io.BytesRemaining - min 2048 Io.BytesRemaining,
              IoBufferOffset := Io.IoBufferOffset + min 2048 Io.BytesRemaining }
          refine ⟨h1, h2, Or.inr ?_, le_trans h4 (Nat.sub_le _ _), ?_⟩
          · rcases h3 with h3 | h3 <;> rw [h3]
          rw [h5, List.append_assoc]
          refine ⟨_, rfl, ?_, ?_, ?_, ?_⟩
          · rw [ProtocolRun_append]
            simpa [ProtocolRun, ProtocolStep] using h6
          · intro Published
            rw [List.foldl_append]
            simpa [InterfacePublishedStep] using h7 Published
          · rw [Completions_append, h8]
            simp [Completions]
          · rw [AssertionFaults_append, h9]
            simp [AssertionFaults]
        · have hF : KSUCCESS (Env.CopyStatus Io.IoBufferOffset) = false := by simpa using hS
          rw [SpecialPerformPseudoRandomIoLoop_write_fail Env Fuel Io hR hW hF]
          refine ⟨rfl, rfl, Or.inl rfl, le_refl _, _, rfl, ?_, ?_, ?_, ?_⟩
          · simp [ProtocolRun, ProtocolStep]
          · intro Published
            simp [InterfacePublishedStep]
          · simp [Completions]
          · simp [AssertionFaults]
      · by_cases hS : KSUCCESS (Env.CopyStatus Io.IoBufferOffset) = true
        · rw [SpecialPerformPseudoRandomIoLoop_read_ok Env Fuel Io hR hW hS]
          obtain ⟨h1, h2, h3, h4, New, h5, h6, h7, h8, h9⟩ := ih
            { Irp := { Io.Irp with IoBuffer := Io.Irp.IoBuffer.map (fun IoBuffer =>
                (MmCopyIoBufferData IoBuffer
                  ((List.range (min 2048 Io.BytesRemaining)).map
                      (fun i => Env.RandomByte (Io.IoBufferOffset + i)) ++
                    Io.Buffer.drop (min 2048 Io.BytesRemaining))
                  Io.IoBufferOffset (min 2048 Io.BytesRemaining) true
                  (Env.CopyStatus Io.IoBufferOffset)).1) },
              System := { Io.System with
                Device := { Io.System.Device with Lock := false },
                Trace := Io.System.Trace ++
                  [EVENT.KeRaiseRunLevel RunLevelDispatch, EVENT.KeAcquireSpinLock,
                    EVENT.CyFortunaGetRandomBytes (min 2048 Io.BytesRemaining)
                      ((List.range (min 2048 Io.BytesRemaining)).map
                        (fun i => Env.RandomByte (Io.IoBufferOffset + i))),
                    EVENT.KeReleaseSpinLock, EVENT.KeLowerRunLevel Io.System.RunLevel,
                    EVENT.MmCopyIoBufferData Io.IoBufferOffset (min 2048 Io.BytesRemaining) true
                      (Env.CopyStatus Io.IoBufferOffset)] },
              Buffer := (List.range (min 2048 Io.BytesRemaining)).map
                  (fun i => Env.RandomByte (Io.IoBufferOffset + i)) ++
                Io.Buffer.drop (min 2048 Io.BytesRemaining),
              BytesRemaining := Io.BytesRemaining - min 2048 Io.BytesRemaining,
              IoBufferOffset := Io.IoBufferOffset + min 2048 Io.BytesRemaining }
          refine ⟨h1, h2, Or.inr ?_, le_trans h4 (Nat.sub_le _ _), ?_⟩
          · rcases h3 with h3 | h3 <;> rw [h3]
          rw [h5, List.append_assoc]
          refine ⟨_, rfl, ?_, ?_, ?_, ?_⟩
          · rw [ProtocolRun_append]
            simpa [ProtocolRun, ProtocolStep] using h6
          · intro Published
            rw [List.foldl_append]
            simpa [InterfacePublishedStep] using h7 Published
          · rw [Completions_append, h8]
            simp [Completions]
          · rw [AssertionFaults_append, h9]
            simp [AssertionFaults]
        · have hF : KSUCCESS (Env.CopyStatus Io.IoBufferOffset) = false := by simpa using hS
          rw [SpecialPerformPseudoRandomIoLoop_read_fail Env Fuel Io hR hW hF]
          refine ⟨rfl, rfl, Or.inr rfl, le_refl _, _, rfl, ?_, ?_, ?_, ?_⟩
          · simp [ProtocolRun, ProtocolStep]
          · intro Published
            simp [InterfacePublishedStep]
          · simp [Completions]
          · simp [AssertionFaults]

theorem ASSERT_eq (Condition : Bool) (Line : Nat) (s : SYSTEM) :
    ASSERT Condition Line s =
      { s with Trace := s.Trace ++
        (if Condition = true then [] else [EVENT.RtlRaiseAssertion Line]) } := by
  unfold ASSERT emit
  split <;> simp

/-- What `SpecialPerformPseudoRandomIo` leaves as it found it on every path: the
context, the run level, the device but for its lock, which is free if it was
taken at all; the calls it adds to the trace follow the protocol around the
generator, touch no interface and complete no request. -/
theorem SpecialPerformPseudoRandomIo_frame (Irp : IRP) (Env : IO_ENVIRONMENT) (s : SYSTEM) :
    (SpecialPerformPseudoRandomIo Irp Env s).2.2.Context = s.Context ∧
    (SpecialPerformPseudoRandomIo Irp Env s).2.2.RunLevel = s.RunLevel ∧
    ((SpecialPerformPseudoRandomIo Irp Env s).2.2.Device = s.Device ∨
      (SpecialPerformPseudoRandomIo Irp Env s).2.2.Device = { s.Device with Lock := false }) ∧
    ∃ New : List EVENT,
      (SpecialPerformPseudoRandomIo Irp Env s).2.2.Trace = s.Trace ++ New ∧
      ProtocolRun s.RunLevel PROTOCOL_STATE.Idle New = some PROTOCOL_STATE.Idle ∧
      (∀ Published : Bool, New.foldl InterfacePublishedStep Published = Published) ∧
      Completions New = [] ∧
      AssertionFaults New = (if Irp.IoBuffer = none then [1013] else []) := by
  unfold SpecialPerformPseudoRandomIo
  rw [ASSERT_eq]
  cases hA : Env.ScratchAllocation with
  | none =>
    refine ⟨rfl, rfl, Or.inl rfl, ?_⟩
    simp only [emit_Trace, List.append_assoc]
    refine ⟨_, rfl, ?_, ?_, ?_, ?_⟩
    · cases hB : Irp.IoBuffer <;> simp [ProtocolRun, ProtocolStep]
    · intro Published
      cases hB : Irp.IoBuffer <;> simp [InterfacePublishedStep]
    · cases hB : Irp.IoBuffer <;> simp [Completions]
    · cases hB : Irp.IoBuffer <;> simp [AssertionFaults]
  | some Address =>
    obtain ⟨h1, h2, h3, _, New, h5, h6, h7, h8, h9⟩ :=
      SpecialPerformPseudoRandomIoLoop_frame Env Irp.IoSizeInBytes
        { Irp := Irp,
          System := emit (EVENT.MmAllocateNonPagedPool (some Address))
            { s with Trace := s.Trace ++
              (if (Irp.IoBuffer != none) = true then [] else [EVENT.RtlRaiseAssertion 1013]) },
          Buffer := Env.ScratchContents,
          BytesRemaining := Irp.IoSizeInBytes,
          IoBufferOffset := 0 }
    refine ⟨h1, h2, h3, ?_⟩
    simp only [emit_Trace]
    rw [h5]
    simp only [emit_Trace, List.append_assoc]
    refine ⟨_, rfl, ?_, ?_, ?_, ?_⟩
    · have h6' : ProtocolRun s.RunLevel PROTOCOL_STATE.Idle New = some PROTOCOL_STATE.Idle := h6
      cases hB : Irp.IoBuffer <;> simp [ProtocolRun_append, ProtocolRun, ProtocolStep, h6']
    · intro Published
      rw [List.foldl_append, List.foldl_append, List.foldl_append, h7]
      cases hB : Irp.IoBuffer <;> simp [InterfacePublishedStep]
    · rw [Completions_append, Completions_append, Completions_append, h8]
      cases hB : Irp.IoBuffer <;> simp [Completions]
    · rw [AssertionFaults_append, AssertionFaults_append, AssertionFaults_append, h9]
      cases hB : Irp.IoBuffer <;> simp [AssertionFaults]

theorem SpecialDispatchIo_random (Irp : IRP) (Env : IO_ENVIRONMENT) (s : SYSTEM)
    (hType : s.Device.Type_ = SpecialDevicePseudoRandom) :
    SpecialDispatchIo Irp Env s =
      ((SpecialPerformPseudoRandomIo Irp Env
          (ASSERT (Irp.Direction == IrpDown) 636 (ASSERT (Irp.MajorCode == IrpMajorIo) 635 s))).2.1,
        emit (EVENT.IoCompleteIrp
            (SpecialPerformPseudoRandomIo Irp Env
              (ASSERT (Irp.Direction == IrpDown) 636
                (ASSERT (Irp.MajorCode == IrpMajorIo) 635 s))).2.1
            (SpecialPerformPseudoRandomIo Irp Env
              (ASSERT (Irp.Direction == IrpDown) 636
                (ASSERT (Irp.MajorCode == IrpMajorIo) 635 s))).1)
          (SpecialPerformPseudoRandomIo Irp Env
            (ASSERT (Irp.Direction == IrpDown) 636
              (ASSERT (Irp.MajorCode == IrpMajorIo) 635 s))).2.2) := by
  unfold SpecialDispatchIo
  simp only [ASSERT_Device, hType]

theorem SpecialFillZeroes_eq (Irp : IRP) (Env : IO_ENVIRONMENT) (s : SYSTEM) :
    SpecialFillZeroes Irp Env s =
      (Env.ZeroIoBufferStatus,
        { Irp with
          IoBuffer := Irp.IoBuffer.map (fun IoBuffer =>
            MmZeroIoBuffer IoBuffer 0 Irp.IoSizeInBytes Env.ZeroIoBufferStatus),
          IoBytesCompleted :=
            if KSUCCESS Env.ZeroIoBufferStatus = true then Irp.IoSizeInBytes
            else Irp.IoBytesCompleted },
        { s with Trace := s.Trace ++
          ((if Irp.MinorCode = IrpMinorIoRead then [] else [EVENT.RtlRaiseAssertion 867]) ++
            (if Irp.IoBuffer = none then [EVENT.RtlRaiseAssertion 868] else []) ++
            [EVENT.MmZeroIoBuffer 0 Irp.IoSizeInBytes Env.ZeroIoBufferStatus]) }) := by
  unfold SpecialFillZeroes
  simp only [ASSERT_eq, emit]
  by_cases hK : KSUCCESS Env.ZeroIoBufferStatus = true
  · have hS : Env.ZeroIoBufferStatus = STATUS_SUCCESS := by simpa [KSUCCESS] using hK
    by_cases hM : Irp.MinorCode = IrpMinorIoRead <;> cases hB : Irp.IoBuffer <;>
      simp [hS, hM, hB, KSUCCESS]
  · by_cases hM : Irp.MinorCode = IrpMinorIoRead <;> cases hB : Irp.IoBuffer <;>
      simp [hK, hM, hB]

/-- A read or write on the `null` device. -/
theorem SpecialDispatchIo_null (Irp : IRP) (Env : IO_ENVIRONMENT) (s : SYSTEM)
    (hType : s.Device.Type_ = SpecialDeviceNull) :
    SpecialDispatchIo Irp Env s =
      ({ Irp with IoBytesCompleted :=
          if Irp.MinorCode = IrpMinorIoRead then 0 else Irp.IoSizeInBytes },
        { s with Trace := s.Trace ++
          ((if Irp.MajorCode = IrpMajorIo then [] else [EVENT.RtlRaiseAssertion 635]) ++
            (if Irp.Direction = IrpDown then [] else [EVENT.RtlRaiseAssertion 636]) ++
            (if Irp.MinorCode = IrpMinorIoRead ∨ Irp.MinorCode = IrpMinorIoWrite then []
              else [EVENT.RtlRaiseAssertion 651]) ++
            [EVENT.IoCompleteIrp
              { Irp with IoBytesCompleted :=
                if Irp.MinorCode = IrpMinorIoRead then 0 else Irp.IoSizeInBytes }
              STATUS_SUCCESS]) }) := by
  unfold SpecialDispatchIo
  simp only [ASSERT_Device, hType]
  simp only [ASSERT_eq, emit]
  by_cases hR : Irp.MinorCode = IrpMinorIoRead
  · simp [hR]
  · by_cases hW : Irp.MinorCode = IrpMinorIoWrite <;> simp [hR, hW]

/-- A read on the `zero` or the `full` device. -/
theorem SpecialDispatchIo_read_zeroes (Irp : IRP) (Env : IO_ENVIRONMENT) (s : SYSTEM)
    (hType : s.Device.Type_ = SpecialDeviceZero ∨ s.Device.Type_ = SpecialDeviceFull)
    (hRead : Irp.MinorCode = IrpMinorIoRead) :
    SpecialDispatchIo Irp Env s =
      ({ Irp with
          IoBuffer := Irp.IoBuffer.map (fun IoBuffer =>
            MmZeroIoBuffer IoBuffer 0 Irp.IoSizeInBytes Env.ZeroIoBufferStatus),
          IoBytesCompleted :=
            if KSUCCESS Env.ZeroIoBufferStatus = true then Irp.IoSizeInBytes
            else Irp.IoBytesCompleted },
        { s with Trace := s.Trace ++
          ((if Irp.MajorCode = IrpMajorIo then [] else [EVENT.RtlRaiseAssertion 635]) ++
            (if Irp.Direction = IrpDown then [] else [EVENT.RtlRaiseAssertion 636]) ++
            (if Irp.IoBuffer = none then [EVENT.RtlRaiseAssertion 868] else []) ++
            [EVENT.MmZeroIoBuffer 0 Irp.IoSizeInBytes Env.ZeroIoBufferStatus,
              EVENT.IoCompleteIrp
                { Irp with
                  IoBuffer := Irp.IoBuffer.map (fun IoBuffer =>
                    MmZeroIoBuffer IoBuffer 0 Irp.IoSizeInBytes Env.ZeroIoBufferStatus),
                  IoBytesCompleted :=
                    if KSUCCESS Env.ZeroIoBufferStatus = true then Irp.IoSizeInBytes
                    else Irp.IoBytesCompleted }
                Env.ZeroIoBufferStatus]) }) := by
  unfold SpecialDispatchIo
  rcases hType with hType | hType <;>
    simp only [ASSERT_Device, hType] <;>
    simp only [SpecialFillZeroes_eq, ASSERT_eq, emit] <;>
    simp [hRead]

/-- A write on the `zero` device. -/
theorem SpecialDispatchIo_zero_write (Irp : IRP) (Env : IO_ENVIRONMENT) (s : SYSTEM)
    (hType : s.Device.Type_ = SpecialDeviceZero)
    (hRead : Irp.MinorCode ≠ IrpMinorIoRead) :
    SpecialDispatchIo Irp Env s =
      ({ Irp with IoBytesCompleted := Irp.IoSizeInBytes },
        { s with Trace := s.Trace ++
          ((if Irp.MajorCode = IrpMajorIo then [] else [EVENT.RtlRaiseAssertion 635]) ++
            (if Irp.Direction = IrpDown then [] else [EVENT.RtlRaiseAssertion 636]) ++
            (if Irp.MinorCode = IrpMinorIoWrite then [] else [EVENT.RtlRaiseAssertion 670]) ++
            [EVENT.IoCompleteIrp { Irp with IoBytesCompleted := Irp.IoSizeInBytes }
              STATUS_SUCCESS]) }) := by
  unfold SpecialDispatchIo
  simp only [ASSERT_Device, hType]
  simp only [ASSERT_eq, emit]
  simp [hRead]

/-- A write on the `full` device. -/
theorem SpecialDispatchIo_full_write (Irp : IRP) (Env : IO_ENVIRONMENT) (s : SYSTEM)
    (hType : s.Device.Type_ = SpecialDeviceFull)
    (hRead : Irp.MinorCode ≠ IrpMinorIoRead) :
    SpecialDispatchIo Irp Env s =
      (Irp,
        { s with Trace := s.Trace ++
          ((if Irp.MajorCode = IrpMajorIo then [] else [EVENT.RtlRaiseAssertion 635]) ++
            (if Irp.Direction = IrpDown then [] else [EVENT.RtlRaiseAssertion 636]) ++
            (if Irp.MinorCode = IrpMinorIoWrite then [] else [EVENT.RtlRaiseAssertion 689]) ++
            [EVENT.IoCompleteIrp Irp STATUS_VOLUME_FULL]) }) := by
  unfold SpecialDispatchIo
  simp only [ASSERT_Device, hType]
  simp only [ASSERT_eq, emit]
  simp [hRead]

/-- A read or write on a device without a valid type. -/
theorem SpecialDispatchIo_invalid (Irp : IRP) (Env : IO_ENVIRONMENT) (s : SYSTEM)
    (hType : s.Device.Type_ = SpecialDeviceInvalid) :
    SpecialDispatchIo Irp Env s =
      (Irp,
        { s with Trace := s.Trace ++
          ((if Irp.MajorCode = IrpMajorIo then [] else [EVENT.RtlRaiseAssertion 635]) ++
            (if Irp.Direction = IrpDown then [] else [EVENT.RtlRaiseAssertion 636]) ++
            [EVENT.RtlRaiseAssertion 707, EVENT.IoCompleteIrp Irp STATUS_FILE_CORRUPT]) }) := by
  unfold SpecialDispatchIo
  simp only [ASSERT_Device, hType]
  simp only [ASSERT_eq, emit]
  simp

/-- What a read or write leaves as it found it, whatever the device: the
context, the run level, the device but for its lock, which is free if it was
taken at all; the calls it adds to the trace follow the protocol around the
generator, touch no interface, and complete one request. -/
theorem SpecialDispatchIo_frame (Irp : IRP) (Env : IO_ENVIRONMENT) (s : SYSTEM) :
    (SpecialDispatchIo Irp Env s).2.Context = s.Context ∧
    (SpecialDispatchIo Irp Env s).2.RunLevel = s.RunLevel ∧
    ((SpecialDispatchIo Irp Env s).2.Device = s.Device ∨
      (SpecialDispatchIo Irp Env s).2.Device = { s.Device with Lock := false }) ∧
    ∃ New : List EVENT,
      (SpecialDispatchIo Irp Env s).2.Trace = s.Trace ++ New ∧
      ProtocolRun s.RunLevel PROTOCOL_STATE.Idle New = some PROTOCOL_STATE.Idle ∧
      (∀ Published : Bool, New.foldl InterfacePublishedStep Published = Published) ∧
      (Completions New).length = 1 := by
  cases hT : s.Device.Type_
  case SpecialDevicePseudoRandom =>
    rw [SpecialDispatchIo_random Irp Env s hT]
    obtain ⟨h1, h2, h3, New, h5, h6, h7, h8, _⟩ := SpecialPerformPseudoRandomIo_frame Irp Env
      (ASSERT (Irp.Direction == IrpDown) 636 (ASSERT (Irp.MajorCode == IrpMajorIo) 635 s))
    simp only [ASSERT_eq] at h1 h2 h3 h5 h6
    simp only [ASSERT_eq]
    refine ⟨h1, h2, h3, ?_⟩
    simp only [emit_Trace]
    rw [h5]
    simp only [List.append_assoc]
    refine ⟨_, rfl, ?_, ?_, ?_⟩
    · simp only [ProtocolRun_append]
      split_ifs <;> simp [ProtocolRun, ProtocolStep, h6]
    · intro Published
      simp only [List.foldl_append, h7]
      split_ifs <;> simp [InterfacePublishedStep]
    · simp only [Completions_append, h8]
      split_ifs <;> simp [Completions]
  case SpecialDeviceNull =>
    rw [SpecialDispatchIo_null Irp Env s hT]
    refine ⟨rfl, rfl, Or.inl rfl, _, rfl, ?_, ?_, ?_⟩
    · split_ifs <;> simp [ProtocolRun, ProtocolStep]
    · intro Published
      split_ifs <;> simp [InterfacePublishedStep]
    · split_ifs <;> simp [Completions]
  case SpecialDeviceInvalid =>
    rw [SpecialDispatchIo_invalid Irp Env s hT]
    refine ⟨rfl, rfl, Or.inl rfl, _, rfl, ?_, ?_, ?_⟩
    · split_ifs <;> simp [ProtocolRun, ProtocolStep]
    · intro Published
      split_ifs <;> simp [InterfacePublishedStep]
    · split_ifs <;> simp [Completions]
  case SpecialDeviceZero =>
    by_cases hR : Irp.MinorCode = IrpMinorIoRead
    · rw [SpecialDispatchIo_read_zeroes Irp Env s (Or.inl hT) hR]
      refine ⟨rfl, rfl, Or.inl rfl, _, rfl, ?_, ?_, ?_⟩
      · split_ifs <;> simp [ProtocolRun, ProtocolStep]
      · intro Published
        split_ifs <;> simp [InterfacePublishedStep]
      · split_ifs <;> simp [Completions]
    · rw [SpecialDispatchIo_zero_write Irp Env s hT hR]
      refine ⟨rfl, rfl, Or.inl rfl, _, rfl, ?_, ?_, ?_⟩
      · split_ifs <;> simp [ProtocolRun, ProtocolStep]
      · intro Published
        split_ifs <;> simp [InterfacePublishedStep]
      · split_ifs <;> simp [Completions]
  case SpecialDeviceFull =>
    by_cases hR : Irp.MinorCode = IrpMinorIoRead
    · rw [SpecialDispatchIo_read_zeroes Irp Env s (Or.inr hT) hR]
      refine ⟨rfl, rfl, Or.inl rfl, _, rfl, ?_, ?_, ?_⟩
      · split_ifs <;> simp [ProtocolRun, ProtocolStep]
      · intro Published
        split_ifs <;> simp [InterfacePublishedStep]
      · split_ifs <;> simp [Completions]
    · rw [SpecialDispatchIo_full_write Irp Env s hT hR]
      refine ⟨rfl, rfl, Or.inl rfl, _, rfl, ?_, ?_, ?_⟩
      · split_ifs <;> simp [ProtocolRun, ProtocolStep]
      · intro Published
        split_ifs <;> simp [InterfacePublishedStep]
      · split_ifs <;> simp [Completions]

/-! ## The registration flag and the published interface -/

theorem InterfacePublished_emit (Event : EVENT) (s : SYSTEM) :
    InterfacePublished (emit Event s).Trace =
      InterfacePublishedStep (InterfacePublished s.Trace) Event := by
  rw [emit_Trace, InterfacePublished_append]
  rfl

theorem InterfacePublished_ASSERT (Condition : Bool) (Line : Nat) (s : SYSTEM) :
    InterfacePublished (ASSERT Condition Line s).Trace = InterfacePublished s.Trace := by
  rw [ASSERT_eq]
  show InterfacePublished (s.Trace ++ _) = _
  rw [InterfacePublished_append]
  split_ifs <;> simp [InterfacePublishedStep]

theorem SpecialDeviceReleaseReference_InterfacePublished (s : SYSTEM) :
    InterfacePublished (SpecialDeviceReleaseReference s).Trace = InterfacePublished s.Trace := by
  rw [SpecialDeviceReleaseReference_Trace, InterfacePublished_append]
  split_ifs <;> simp [InterfacePublishedStep]

theorem SpecialDeviceAddReference_InterfacePublished (s : SYSTEM) :
    InterfacePublished (SpecialDeviceAddReference s).Trace = InterfacePublished s.Trace := by
  rw [SpecialDeviceAddReference_eq]
  show InterfacePublished (s.Trace ++ _) = _
  rw [InterfacePublished_append]
  split_ifs <;> simp [InterfacePublishedStep]

/-- What a state change request does to the registration flag and to the
published interface. -/
theorem SpecialDispatchStateChange_interface (Irp : IRP) (Env : STATE_CHANGE_ENVIRONMENT)
    (s : SYSTEM) :
    (SpecialDispatchStateChange Irp Env s).Device.InterfaceRegistered =
      (if s.Device.Type_ = SpecialDevicePseudoRandom ∧
          IsUpwardStart (SPECIAL_REQUEST.StateChange Irp Env) = true then
        s.Device.InterfaceRegistered || KSUCCESS Env.CreateInterfaceStatus
      else if s.Device.Type_ = SpecialDevicePseudoRandom ∧
          IsUpwardRemove (SPECIAL_REQUEST.StateChange Irp Env) = true then
        s.Device.InterfaceRegistered && !KSUCCESS Env.DestroyInterfaceStatus
      else s.Device.InterfaceRegistered) ∧
    InterfacePublished (SpecialDispatchStateChange Irp Env s).Trace =
      (if s.Device.Type_ = SpecialDevicePseudoRandom ∧
          IsUpwardStart (SPECIAL_REQUEST.StateChange Irp Env) = true ∧
          s.Device.InterfaceRegistered = false then
        InterfacePublished s.Trace || KSUCCESS Env.CreateInterfaceStatus
      else if s.Device.Type_ = SpecialDevicePseudoRandom ∧
          IsUpwardRemove (SPECIAL_REQUEST.StateChange Irp Env) = true ∧
          s.Device.InterfaceRegistered = true then
        InterfacePublished s.Trace && !KSUCCESS Env.DestroyInterfaceStatus
      else InterfacePublished s.Trace) := by
  unfold SpecialDispatchStateChange
  have hD := ASSERT_Device (Irp.MajorCode == IrpMajorStateChange) 451 s
  have hP := InterfacePublished_ASSERT (Irp.MajorCode == IrpMajorStateChange) 451 s
  generalize ASSERT (Irp.MajorCode == IrpMajorStateChange) 451 s = s₁ at hD hP ⊢
  rw [← hD, ← hP]
  simp only [IsUpwardStart, IsUpwardRemove]
  rcases Irp with ⟨Major, Minor, Direction, Token, IoState, IoBuffer, Size, Completed⟩
  by_cases hT : s₁.Device.Type_ = SpecialDevicePseudoRandom
  · cases Minor <;> cases Direction
    case pos.IrpMinorStartDevice.IrpUp =>
      simp only [hT, beq_self_eq_true, if_true]
      rw [SpecialPseudoRandomStartDevice_eq _ Env s₁ hT]
      by_cases hr : s₁.Device.InterfaceRegistered = true
      · simp [hr, InterfacePublished_append, InterfacePublishedStep]
      · have hf : s₁.Device.InterfaceRegistered = false := by simpa using hr
        by_cases hk : KSUCCESS Env.CreateInterfaceStatus = true <;>
          simp [hf, hk, InterfacePublished_append,
            InterfacePublishedStep]
    case pos.IrpMinorRemoveDevice.IrpUp =>
      simp only [hT, beq_self_eq_true, if_true]
      rw [SpecialPseudoRandomRemoveDevice_eq _ Env s₁ hT]
      by_cases hr : s₁.Device.InterfaceRegistered = false
      · simp [hr, KSUCCESS, InterfacePublished_append, InterfacePublishedStep,
          SpecialDeviceReleaseReference_InterfacePublished,
          SpecialDeviceReleaseReference_Device]
      · have ht : s₁.Device.InterfaceRegistered = true := by simpa using hr
        by_cases hk : KSUCCESS Env.DestroyInterfaceStatus = true
        · rw [if_neg hr]
          simp only [hk, ↓reduceIte]
          simp [ht, hk, InterfacePublished_append,
            InterfacePublishedStep, SpecialDeviceReleaseReference_InterfacePublished,
            SpecialDeviceReleaseReference_Device]
        · rw [if_neg hr]
          simp only [hk, ↓reduceIte]
          simp [ht, hk, InterfacePublished_append,
            InterfacePublishedStep]
    all_goals simp [hT, InterfacePublished_append, InterfacePublishedStep]
  · cases Minor <;> cases Direction <;>
      simp [hT, KSUCCESS, InterfacePublished_append, InterfacePublishedStep,
        SpecialDeviceReleaseReference_InterfacePublished, SpecialDeviceReleaseReference_Device]

theorem SpecialDispatchOpen_InterfacePublished (Irp : IRP) (s : SYSTEM) :
    InterfacePublished (SpecialDispatchOpen Irp s).2.Trace = InterfacePublished s.Trace := by
  unfold SpecialDispatchOpen
  simp [InterfacePublished_append, InterfacePublished_ASSERT,
    SpecialDeviceAddReference_InterfacePublished, InterfacePublishedStep]

theorem SpecialDispatchClose_InterfacePublished (Irp : IRP) (s : SYSTEM) :
    InterfacePublished (SpecialDispatchClose Irp s).Trace = InterfacePublished s.Trace := by
  unfold SpecialDispatchClose
  simp [InterfacePublished_append, SpecialDeviceReleaseReference_InterfacePublished,
    InterfacePublishedStep]

theorem IsUpwardStart_not_remove (q : SPECIAL_REQUEST) (h : IsUpwardStart q = true) :
    IsUpwardRemove q = false := by
  cases q with
  | Open Irp => rfl
  | Close Irp => rfl
  | StateChange Irp Env =>
    simp only [IsUpwardStart, IsUpwardRemove, Bool.and_eq_true, beq_iff_eq] at h ⊢
    simp [h.1]

/-- Every request keeps the registration flag equal to whether the interface is
published. -/
theorem SpecialDispatch_interface_invariant (s : SYSTEM) (q : SPECIAL_REQUEST)
    (hInv : s.Device.InterfaceRegistered = InterfacePublished s.Trace) :
    (SpecialDispatch s q).Device.InterfaceRegistered =
      InterfacePublished (SpecialDispatch s q).Trace := by
  cases q with
  | Open Irp =>
    show (SpecialDispatchOpen Irp s).2.Device.InterfaceRegistered =
      InterfacePublished (SpecialDispatchOpen Irp s).2.Trace
    rw [SpecialDispatchOpen_Device, SpecialDispatchOpen_InterfacePublished]
    exact hInv
  | Close Irp =>
    show (SpecialDispatchClose Irp s).Device.InterfaceRegistered =
      InterfacePublished (SpecialDispatchClose Irp s).Trace
    rw [SpecialDispatchClose_Device, SpecialDispatchClose_InterfacePublished]
    exact hInv
  | StateChange Irp Env =>
    show (SpecialDispatchStateChange Irp Env s).Device.InterfaceRegistered =
      InterfacePublished (SpecialDispatchStateChange Irp Env s).Trace
    obtain ⟨hF, hP⟩ := SpecialDispatchStateChange_interface Irp Env s
    rw [hF, hP, ← hInv]
    have hX := IsUpwardStart_not_remove (SPECIAL_REQUEST.StateChange Irp Env)
    generalize s.Device.InterfaceRegistered = Flag
    cases Flag <;> split_ifs <;> simp_all

theorem SpecialDispatchAll_interface_invariant (Requests : List SPECIAL_REQUEST) :
    ∀ s : SYSTEM, s.Device.InterfaceRegistered = InterfacePublished s.Trace →
      (SpecialDispatchAll s Requests).Device.InterfaceRegistered =
        InterfacePublished (SpecialDispatchAll s Requests).Trace := by
  induction Requests with
  | nil => intro s hInv; exact hInv
  | cons q Rest ih =>
    intro s hInv
    exact ih (SpecialDispatch s q) (SpecialDispatch_interface_invariant s q hInv)

theorem SpecialDispatchIo_interface (Irp : IRP) (Env : IO_ENVIRONMENT) (s : SYSTEM) :
    (SpecialDispatchIo Irp Env s).2.Device.InterfaceRegistered = s.Device.InterfaceRegistered ∧
      InterfacePublished (SpecialDispatchIo Irp Env s).2.Trace = InterfacePublished s.Trace := by
  obtain ⟨_, _, h3, New, h5, _, h7, _⟩ := SpecialDispatchIo_frame Irp Env s
  constructor
  · rcases h3 with h3 | h3 <;> rw [h3]
  · rw [h5, InterfacePublished_append, h7]

theorem SpecialDispatchSystemControl_interface (Irp : IRP) (Lookup : SYSTEM_CONTROL_LOOKUP)
    (s : SYSTEM) :
    (SpecialDispatchSystemControl Irp Lookup s).2.Device = s.Device ∧
      InterfacePublished (SpecialDispatchSystemControl Irp Lookup s).2.Trace =
        InterfacePublished s.Trace := by
  unfold SpecialDispatchSystemControl
  rcases Irp with ⟨Major, Minor, Direction, Token, IoState, IoBuffer, Size, Completed⟩
  cases Minor
  case IrpMinorSystemControlLookup =>
    cases Lookup.Root <;>
      simp [InterfacePublished_append, InterfacePublishedStep]
  all_goals simp [InterfacePublished_append, InterfacePublished_ASSERT, InterfacePublishedStep]

/-- C13: starting from a state in which the registration flag equals whether
the interface is published, every sequence of open, close and state change
requests, whatever their codes, directions and the results of the publish and
unpublish calls, ends in such a state, and so does a read or write, a system
control or a user control request, which change neither.  On a pseudo-random
device a start-device travelling up leaves the flag set if it was set or the
publish call succeeded, a remove-device travelling up leaves it set if it was
set and the unpublish call failed; any other open, close or state change
request, and any request on another device, leaves the flag as it was. -/
theorem SpecialDispatchAll_interface_registered (s : SYSTEM)
    (hInv : s.Device.InterfaceRegistered = InterfacePublished s.Trace) :
    (∀ Requests : List SPECIAL_REQUEST,
      (SpecialDispatchAll s Requests).Device.InterfaceRegistered =
        InterfacePublished (SpecialDispatchAll s Requests).Trace) ∧
    (∀ (Irp : IRP) (Env : IO_ENVIRONMENT),
      (SpecialDispatchIo Irp Env s).2.Device.InterfaceRegistered =
          s.Device.InterfaceRegistered ∧
        InterfacePublished (SpecialDispatchIo Irp Env s).2.Trace =
          InterfacePublished s.Trace) ∧
    (∀ (Irp : IRP) (Lookup : SYSTEM_CONTROL_LOOKUP),
      (SpecialDispatchSystemControl Irp Lookup s).2.Device.InterfaceRegistered =
          s.Device.InterfaceRegistered ∧
        InterfacePublished (SpecialDispatchSystemControl Irp Lookup s).2.Trace =
          InterfacePublished s.Trace) ∧
    (∀ Irp : IRP, SpecialDispatchUserControl Irp s = s) ∧
    (∀ (Irp : IRP) (Env : STATE_CHANGE_ENVIRONMENT),
      s.Device.Type_ = SpecialDevicePseudoRandom →
      IsUpwardStart (SPECIAL_REQUEST.StateChange Irp Env) = true →
      (SpecialDispatch s (SPECIAL_REQUEST.StateChange Irp Env)).Device.InterfaceRegistered =
        (s.Device.InterfaceRegistered || KSUCCESS Env.CreateInterfaceStatus)) ∧
    (∀ (Irp : IRP) (Env : STATE_CHANGE_ENVIRONMENT),
      s.Device.Type_ = SpecialDevicePseudoRandom →
      IsUpwardRemove (SPECIAL_REQUEST.StateChange Irp Env) = true →
      (SpecialDispatch s (SPECIAL_REQUEST.StateChange Irp Env)).Device.InterfaceRegistered =
        (s.Device.InterfaceRegistered && !KSUCCESS Env.DestroyInterfaceStatus)) ∧
    (∀ q : SPECIAL_REQUEST,
      (s.Device.Type_ ≠ SpecialDevicePseudoRandom ∨
        (IsUpwardStart q = false ∧ IsUpwardRemove q = false)) →
      (SpecialDispatch s q).Device.InterfaceRegistered = s.Device.InterfaceRegistered ∧
        InterfacePublished (SpecialDispatch s q).Trace = InterfacePublished s.Trace) := by
  refine ⟨fun Requests => SpecialDispatchAll_interface_invariant Requests s hInv,
    fun Irp Env => SpecialDispatchIo_interface Irp Env s, ?_, fun _ => rfl, ?_, ?_, ?_⟩
  · intro Irp Lookup
    obtain ⟨hD, hP⟩ := SpecialDispatchSystemControl_interface Irp Lookup s
    exact ⟨by rw [hD], hP⟩
  · intro Irp Env hT hStart
    show (SpecialDispatchStateChange Irp Env s).Device.InterfaceRegistered = _
    rw [(SpecialDispatchStateChange_interface Irp Env s).1, if_pos ⟨hT, hStart⟩]
  · intro Irp Env hT hRemove
    have hNot : ¬ (s.Device.Type_ = SpecialDevicePseudoRandom ∧
        IsUpwardStart (SPECIAL_REQUEST.StateChange Irp Env) = true) := by
      rintro ⟨_, hStart⟩
      rw [IsUpwardStart_not_remove _ hStart] at hRemove
      exact absurd hRemove (by decide)
    show (SpecialDispatchStateChange Irp Env s).Device.InterfaceRegistered = _
    rw [(SpecialDispatchStateChange_interface Irp Env s).1, if_neg hNot, if_pos ⟨hT, hRemove⟩]
  · intro q hq
    cases q with
    | Open Irp =>
      show (SpecialDispatchOpen Irp s).2.Device.InterfaceRegistered = _ ∧
        InterfacePublished (SpecialDispatchOpen Irp s).2.Trace = _
      rw [SpecialDispatchOpen_Device, SpecialDispatchOpen_InterfacePublished]
      exact ⟨rfl, rfl⟩
    | Close Irp =>
      show (SpecialDispatchClose Irp s).Device.InterfaceRegistered = _ ∧
        InterfacePublished (SpecialDispatchClose Irp s).Trace = _
      rw [SpecialDispatchClose_Device, SpecialDispatchClose_InterfacePublished]
      exact ⟨rfl, rfl⟩
    | StateChange Irp Env =>
      show (SpecialDispatchStateChange Irp Env s).Device.InterfaceRegistered = _ ∧
        InterfacePublished (SpecialDispatchStateChange Irp Env s).Trace = _
      obtain ⟨hF, hP⟩ := SpecialDispatchStateChange_interface Irp Env s
      rw [hF, hP]
      rcases hq with hq | ⟨hq1, hq2⟩
      · simp [hq]
      · simp [hq1, hq2]

/-- C13, at concrete inputs: on the freshly attached `urandom` device a failing
start, a start, a failing remove and a remove, with an open and a close in
between; and single requests on that device. -/
theorem SpecialDispatchAll_interface_registered_witness :
    SampleRandomSystem.Device.InterfaceRegistered = InterfacePublished SampleRandomSystem.Trace ∧
    (SpecialDispatchAll SampleRandomSystem
        [SPECIAL_REQUEST.StateChange (SampleIrp IrpMajorStateChange IrpMinorStartDevice IrpUp)
            SampleFailingEnvironment,
          SampleStart, SampleOpen,
          SPECIAL_REQUEST.StateChange (SampleIrp IrpMajorStateChange IrpMinorRemoveDevice IrpUp)
            SampleFailingEnvironment,
          SampleClose, SampleRemove]).Device.InterfaceRegistered =
      InterfacePublished (SpecialDispatchAll SampleRandomSystem
        [SPECIAL_REQUEST.StateChange (SampleIrp IrpMajorStateChange IrpMinorStartDevice IrpUp)
            SampleFailingEnvironment,
          SampleStart, SampleOpen,
          SPECIAL_REQUEST.StateChange (SampleIrp IrpMajorStateChange IrpMinorRemoveDevice IrpUp)
            SampleFailingEnvironment,
          SampleClose, SampleRemove]).Trace ∧
    (SpecialDispatch SampleRandomSystem SampleStart).Device.InterfaceRegistered = true ∧
    (SpecialDispatch SampleRandomSystem SampleOpen).Device.InterfaceRegistered = false :=
  ⟨by decide,
    (SpecialDispatchAll_interface_registered SampleRandomSystem (by decide)).1 _,
    ((SpecialDispatchAll_interface_registered SampleRandomSystem (by decide)).2.2.2.2.1
      _ _ (by decide) (by decide)).trans (by decide),
    ((SpecialDispatchAll_interface_registered SampleRandomSystem (by decide)).2.2.2.2.2.2
      SampleOpen (Or.inr ⟨by decide, by decide⟩)).1.trans (by decide)⟩

/-! ## Open and close -/

theorem DestroyCount_append (a b : List EVENT) :
    DestroyCount (a ++ b) = DestroyCount a + DestroyCount b := by
  unfold DestroyCount
  exact List.count_append _ _ _

theorem SpecialDispatchOpen_eq (Irp : IRP) (s : SYSTEM) (State : IO_OBJECT_STATE)
    (hState : Irp.IoState = some State) :
    SpecialDispatchOpen Irp s =
      ({ Irp with IoState := some ⟨true, true⟩ },
        { s with
          Device := { s.Device with
            ReferenceCount := (s.Device.ReferenceCount + 1) % 4294967296 },
          Trace := s.Trace ++
            ((if s.Device.ReferenceCount < 0x10000000 then [] else [EVENT.RtlRaiseAssertion 1253]) ++
              [EVENT.IoSetIoObjectState true true true,
                EVENT.IoCompleteIrp { Irp with IoState := some ⟨true, true⟩ } STATUS_SUCCESS]) }) := by
  unfold SpecialDispatchOpen
  simp only [SpecialDeviceAddReference_eq, ASSERT_eq]
  simp [hState, emit, IoSetIoObjectState]

theorem SpecialDispatchClose_eq (Irp : IRP) (s : SYSTEM) :
    SpecialDispatchClose Irp s =
      { s with
        Device := { s.Device with
          ReferenceCount := (s.Device.ReferenceCount + 0xFFFFFFFF) % 4294967296 },
        Trace := s.Trace ++
          ((if s.Device.ReferenceCount ≠ 0 ∧ s.Device.ReferenceCount < 0x10000000 then []
              else [EVENT.RtlRaiseAssertion 1285]) ++
            (if s.Device.ReferenceCount = 1 then
              EVENT.SpecialDestroyDevice ::
                ((if s.Device.InterfaceRegistered = false then []
                    else [EVENT.RtlRaiseAssertion 1317]) ++
                  [if s.Device.Type_ = SpecialDevicePseudoRandom then
                      EVENT.MmFreeNonPagedPool s.Context
                    else EVENT.MmFreePagedPool s.Context])
              else []) ++
            [EVENT.IoCompleteIrp Irp STATUS_SUCCESS]) } := by
  unfold SpecialDispatchClose
  simp only [SpecialDeviceReleaseReference_eq]
  simp [emit]

/-- C14, against the claim as stated: the count is a 32-bit cell, so an open at
`0xFFFFFFFF` leaves it at 0, not one higher, and a close at 0 leaves it at
`0xFFFFFFFF`, not one lower, raising the assertion of line 1285. -/
theorem SpecialDispatchOpen_wraps :
    (SpecialDispatchOpen (SampleIrp IrpMajorOpen (IrpMinorOther 0) IrpDown)
        (WithReferenceCount 0xFFFFFFFF SampleNullSystem)).2.Device.ReferenceCount = 0 ∧
    (SpecialDispatchClose (SampleIrp IrpMajorClose (IrpMinorOther 0) IrpDown)
        (WithReferenceCount 0 SampleNullSystem)).Device.ReferenceCount = 0xFFFFFFFF ∧
    AssertionFaults (SpecialDispatchClose (SampleIrp IrpMajorClose (IrpMinorOther 0) IrpDown)
        (WithReferenceCount 0 SampleNullSystem)).Trace = [1285] := by
  decide

/-- C14, amended: whatever the device type, an open of a request that carries
an I/O state changes nothing in the device but the count, which it raises by
one modulo `2 ^ 32`, hence by exactly one from every count below `0xFFFFFFFF`;
it sets the I/O state of the request to readable and writable, completes the
request with success and destroys nothing.  A close changes nothing in the
device but the count, which it lowers by one modulo `2 ^ 32`, hence by exactly
one from every count from 1 to `0xFFFFFFFF`; it completes the request with
success and destroys the device exactly when the count was 1.  Hence on a
device whose count is at least 1 and fits the 32-bit cell, an open followed by
a close leaves the device as it was and does not destroy it. -/
theorem SpecialDispatchOpen_Close_spec (IrpOpen IrpClose : IRP) (s : SYSTEM)
    (State : IO_OBJECT_STATE) (hState : IrpOpen.IoState = some State) :
    ((SpecialDispatchOpen IrpOpen s).2.Device =
        { s.Device with ReferenceCount := (s.Device.ReferenceCount + 1) % 2 ^ 32 } ∧
      (s.Device.ReferenceCount < 0xFFFFFFFF →
        (SpecialDispatchOpen IrpOpen s).2.Device.ReferenceCount = s.Device.ReferenceCount + 1) ∧
      (SpecialDispatchOpen IrpOpen s).1 = { IrpOpen with IoState := some ⟨true, true⟩ } ∧
      Completions (SpecialDispatchOpen IrpOpen s).2.Trace =
        Completions s.Trace ++ [STATUS_SUCCESS] ∧
      EVENT.IoCompleteIrp { IrpOpen with IoState := some ⟨true, true⟩ } STATUS_SUCCESS ∈
        (SpecialDispatchOpen IrpOpen s).2.Trace ∧
      DestroyCount (SpecialDispatchOpen IrpOpen s).2.Trace = DestroyCount s.Trace) ∧
    ((SpecialDispatchClose IrpClose s).Device =
        { s.Device with ReferenceCount := (s.Device.ReferenceCount + 0xFFFFFFFF) % 2 ^ 32 } ∧
      (1 ≤ s.Device.ReferenceCount → s.Device.ReferenceCount < 2 ^ 32 →
        (SpecialDispatchClose IrpClose s).Device.ReferenceCount = s.Device.ReferenceCount - 1) ∧
      Completions (SpecialDispatchClose IrpClose s).Trace =
        Completions s.Trace ++ [STATUS_SUCCESS] ∧
      DestroyCount (SpecialDispatchClose IrpClose s).Trace =
        DestroyCount s.Trace + (if s.Device.ReferenceCount = 1 then 1 else 0)) ∧
    (1 ≤ s.Device.ReferenceCount → s.Device.ReferenceCount < 2 ^ 32 →
      (SpecialDispatchClose IrpClose (SpecialDispatchOpen IrpOpen s).2).Device = s.Device ∧
        DestroyCount (SpecialDispatchClose IrpClose (SpecialDispatchOpen IrpOpen s).2).Trace =
          DestroyCount s.Trace) := by
  rw [show (2 : Nat) ^ 32 = 4294967296 from rfl]
  have hOpenDestroy : DestroyCount (SpecialDispatchOpen IrpOpen s).2.Trace =
      DestroyCount s.Trace := by
    rw [SpecialDispatchOpen_eq IrpOpen s State hState]
    show DestroyCount (s.Trace ++ _) = _
    rw [DestroyCount_append, DestroyCount_append]
    split_ifs <;> simp [DestroyCount]
  have hCloseDestroy : ∀ t : SYSTEM, DestroyCount (SpecialDispatchClose IrpClose t).Trace =
      DestroyCount t.Trace + (if t.Device.ReferenceCount = 1 then 1 else 0) := by
    intro t
    rw [SpecialDispatchClose_eq]
    show DestroyCount (t.Trace ++ _) = _
    rw [DestroyCount_append, DestroyCount_append, DestroyCount_append]
    split_ifs <;> simp [DestroyCount]
  refine ⟨⟨SpecialDispatchOpen_Device IrpOpen s, ?_, ?_, ?_, ?_, hOpenDestroy⟩,
    ⟨SpecialDispatchClose_Device IrpClose s, ?_, ?_, hCloseDestroy s⟩, ?_⟩
  · intro h
    rw [SpecialDispatchOpen_Device]
    show (s.Device.ReferenceCount + 1) % 4294967296 = _
    omega
  · rw [SpecialDispatchOpen_eq IrpOpen s State hState]
  · rw [SpecialDispatchOpen_eq IrpOpen s State hState]
    show Completions (s.Trace ++ _) = _
    rw [Completions_append, Completions_append]
    split_ifs <;> simp [Completions]
  · rw [SpecialDispatchOpen_eq IrpOpen s State hState]
    show _ ∈ s.Trace ++ _
    simp
  · intro h1 h2
    rw [SpecialDispatchClose_Device]
    show (s.Device.ReferenceCount + 0xFFFFFFFF) % 4294967296 = _
    omega
  · rw [SpecialDispatchClose_eq]
    show Completions (s.Trace ++ _) = _
    rw [Completions_append, Completions_append, Completions_append]
    split_ifs <;> simp [Completions]
  · intro h1 h2
    constructor
    · rw [SpecialDispatchClose_Device, SpecialDispatchOpen_Device]
      have hc : ((s.Device.ReferenceCount + 1) % 4294967296 + 0xFFFFFFFF) % 4294967296 =
          s.Device.ReferenceCount := by omega
      rcases s with ⟨c, ⟨t, ct, rc, fc, l, i, ir⟩, rl, tr⟩
      simp only at hc ⊢
      rw [hc]
    · rw [hCloseDestroy, hOpenDestroy, SpecialDispatchOpen_Device]
      have hne : ¬ (s.Device.ReferenceCount + 1) % 4294967296 = 1 := by omega
      show _ + (if (s.Device.ReferenceCount + 1) % 4294967296 = 1 then 1 else 0) = _
      rw [if_neg hne]
      rfl

/-- C14, amended, at concrete inputs: an open and a close on the freshly
attached `null` device, whose count is 1. -/
theorem SpecialDispatchOpen_Close_spec_witness :
    ((SampleIrp IrpMajorOpen (IrpMinorOther 0) IrpDown).IoState = some ⟨false, false⟩ ∧
      1 ≤ SampleNullSystem.Device.ReferenceCount ∧
      SampleNullSystem.Device.ReferenceCount < 2 ^ 32) ∧
    (SpecialDispatchOpen (SampleIrp IrpMajorOpen (IrpMinorOther 0) IrpDown)
        SampleNullSystem).2.Device.ReferenceCount = 2 ∧
    (SpecialDispatchClose (SampleIrp IrpMajorClose (IrpMinorOther 0) IrpDown)
        (SpecialDispatchOpen (SampleIrp IrpMajorOpen (IrpMinorOther 0) IrpDown)
          SampleNullSystem).2).Device = SampleNullSystem.Device :=
  ⟨⟨rfl, by decide, by decide⟩,
    ((SpecialDispatchOpen_Close_spec (SampleIrp IrpMajorOpen (IrpMinorOther 0) IrpDown)
      (SampleIrp IrpMajorClose (IrpMinorOther 0) IrpDown) SampleNullSystem ⟨false, false⟩
      rfl).1.2.1 (by decide)).trans (by decide),
    ((SpecialDispatchOpen_Close_spec (SampleIrp IrpMajorOpen (IrpMinorOther 0) IrpDown)
      (SampleIrp IrpMajorClose (IrpMinorOther 0) IrpDown) SampleNullSystem ⟨false, false⟩
      rfl).2.2 (by decide) (by decide)).1⟩

/-! ## Reads and writes on `null`, `zero` and `full` -/

/-- C15: on the `null` device a read changes nothing in the request but the
bytes completed, which it sets to 0, so the transfer buffer is as it was; a
write changes nothing in the request but the bytes completed, which it sets to
the requested size; both complete the request with success, make no other call
but for an assertion fault on a request that is not an I/O request going down,
and change no field of the device. -/
theorem SpecialDispatchIo_null_spec (Irp : IRP) (Env : IO_ENVIRONMENT) (s : SYSTEM)
    (hType : s.Device.Type_ = SpecialDeviceNull) :
    (Irp.MinorCode = IrpMinorIoRead →
      SpecialDispatchIo Irp Env s =
        ({ Irp with IoBytesCompleted := 0 },
          { s with Trace := s.Trace ++
            ((if Irp.MajorCode = IrpMajorIo then [] else [EVENT.RtlRaiseAssertion 635]) ++
              (if Irp.Direction = IrpDown then [] else [EVENT.RtlRaiseAssertion 636]) ++
              [EVENT.IoCompleteIrp { Irp with IoBytesCompleted := 0 } STATUS_SUCCESS]) })) ∧
    (Irp.MinorCode = IrpMinorIoWrite →
      SpecialDispatchIo Irp Env s =
        ({ Irp with IoBytesCompleted := Irp.IoSizeInBytes },
          { s with Trace := s.Trace ++
            ((if Irp.MajorCode = IrpMajorIo then [] else [EVENT.RtlRaiseAssertion 635]) ++
              (if Irp.Direction = IrpDown then [] else [EVENT.RtlRaiseAssertion 636]) ++
              [EVENT.IoCompleteIrp { Irp with IoBytesCompleted := Irp.IoSizeInBytes }
                STATUS_SUCCESS]) })) ∧
    (SpecialDispatchIo Irp Env s).1.IoBuffer = Irp.IoBuffer ∧
    (SpecialDispatchIo Irp Env s).2.Device = s.Device ∧
    (SpecialDispatchIo Irp Env s).2.Context = s.Context ∧
    (SpecialDispatchIo Irp Env s).2.RunLevel = s.RunLevel := by
  rw [SpecialDispatchIo_null Irp Env s hType]
  refine ⟨?_, ?_, rfl, rfl, rfl, rfl⟩
  · intro hRead
    simp [hRead]
  · intro hWrite
    simp [hWrite]

/-- C15, at concrete inputs: a read and a write of 7 bytes on the freshly
attached `null` device. -/
theorem SpecialDispatchIo_null_spec_witness :
    SampleNullSystem.Device.Type_ = SpecialDeviceNull ∧
    (SpecialDispatchIo (SampleRead 7) SampleIoEnvironment SampleNullSystem).1 =
      { SampleRead 7 with IoBytesCompleted := 0 } ∧
    (SpecialDispatchIo (SampleWrite 7) SampleIoEnvironment SampleNullSystem).1.IoBytesCompleted =
      7 ∧
    (SpecialDispatchIo (SampleWrite 7) SampleIoEnvironment SampleNullSystem).2.Device =
      SampleNullSystem.Device :=
  ⟨by decide,
    congrArg Prod.fst ((SpecialDispatchIo_null_spec (SampleRead 7) SampleIoEnvironment
      SampleNullSystem (by decide)).1 rfl),
    congrArg (fun r => r.1.IoBytesCompleted) ((SpecialDispatchIo_null_spec (SampleWrite 7)
      SampleIoEnvironment SampleNullSystem (by decide)).2.1 rfl),
    (SpecialDispatchIo_null_spec (SampleWrite 7) SampleIoEnvironment SampleNullSystem
      (by decide)).2.2.2.1⟩

/-- C16: when `MmZeroIoBuffer` succeeds, a read on the `zero` or the `full`
device changes nothing in the request but the transfer buffer, whose first
bytes up to the requested size it sets to zero, and the bytes completed, which
it sets to the requested size; it completes the request with success and
leaves the system as it was but for the trace, and what it returns and adds to
the trace does not depend on which of the two devices it is.  A write on the
`zero` device changes nothing in the request but the bytes completed, which it
sets to the requested size, and completes the request with success. -/
theorem SpecialDispatchIo_zero_spec (Irp : IRP) (Env : IO_ENVIRONMENT) (s : SYSTEM)
    (Buffer : List Nat) :
    ((s.Device.Type_ = SpecialDeviceZero ∨ s.Device.Type_ = SpecialDeviceFull) →
      Irp.MinorCode = IrpMinorIoRead → KSUCCESS Env.ZeroIoBufferStatus = true →
      Irp.IoBuffer = some Buffer →
      SpecialDispatchIo Irp Env s =
          ({ Irp with
              IoBuffer := some (List.replicate Irp.IoSizeInBytes 0 ++
                Buffer.drop Irp.IoSizeInBytes),
              IoBytesCompleted := Irp.IoSizeInBytes },
            { s with Trace := s.Trace ++
              ((if Irp.MajorCode = IrpMajorIo then [] else [EVENT.RtlRaiseAssertion 635]) ++
                (if Irp.Direction = IrpDown then [] else [EVENT.RtlRaiseAssertion 636]) ++
                [EVENT.MmZeroIoBuffer 0 Irp.IoSizeInBytes STATUS_SUCCESS,
                  EVENT.IoCompleteIrp
                    { Irp with
                      IoBuffer := some (List.replicate Irp.IoSizeInBytes 0 ++
                        Buffer.drop Irp.IoSizeInBytes),
                      IoBytesCompleted := Irp.IoSizeInBytes }
                    STATUS_SUCCESS]) }) ∧
        ∀ i, i < Irp.IoSizeInBytes →
          (List.replicate Irp.IoSizeInBytes 0 ++ Buffer.drop Irp.IoSizeInBytes)[i]? = some 0) ∧
    (s.Device.Type_ = SpecialDeviceZero → Irp.MinorCode = IrpMinorIoWrite →
      SpecialDispatchIo Irp Env s =
        ({ Irp with IoBytesCompleted := Irp.IoSizeInBytes },
          { s with Trace := s.Trace ++
            ((if Irp.MajorCode = IrpMajorIo then [] else [EVENT.RtlRaiseAssertion 635]) ++
              (if Irp.Direction = IrpDown then [] else [EVENT.RtlRaiseAssertion 636]) ++
              [EVENT.IoCompleteIrp { Irp with IoBytesCompleted := Irp.IoSizeInBytes }
                STATUS_SUCCESS]) })) := by
  constructor
  · intro hType hRead hOk hBuffer
    have hS : Env.ZeroIoBufferStatus = STATUS_SUCCESS := by simpa [KSUCCESS] using hOk
    constructor
    · rw [SpecialDispatchIo_read_zeroes Irp Env s hType hRead]
      simp [hS, hBuffer, KSUCCESS, MmZeroIoBuffer]
    · intro i hi
      rw [List.getElem?_append_left (by simpa using hi)]
      simp [hi]
  · intro hType hWrite
    have hRead : Irp.MinorCode ≠ IrpMinorIoRead := by rw [hWrite]; decide
    rw [SpecialDispatchIo_zero_write Irp Env s hType hRead]
    simp [hWrite]

/-- C16, at concrete inputs: a read of 3 bytes on the freshly attached `zero`
and `full` devices, and a write of 3 bytes on `zero`. -/
theorem SpecialDispatchIo_zero_spec_witness :
    (SampleZeroSystem.Device.Type_ = SpecialDeviceZero ∧
      SampleFullSystem.Device.Type_ = SpecialDeviceFull ∧
      KSUCCESS SampleIoEnvironment.ZeroIoBufferStatus = true ∧
      (SampleRead 3).IoBuffer = some [5, 5, 5]) ∧
    (SpecialDispatchIo (SampleRead 3) SampleIoEnvironment SampleZeroSystem).1 =
      { SampleRead 3 with IoBuffer := some [0, 0, 0], IoBytesCompleted := 3 } ∧
    (SpecialDispatchIo (SampleRead 3) SampleIoEnvironment SampleFullSystem).1 =
      { SampleRead 3 with IoBuffer := some [0, 0, 0], IoBytesCompleted := 3 } ∧
    (SpecialDispatchIo (SampleWrite 3) SampleIoEnvironment SampleZeroSystem).1 =
      { SampleWrite 3 with IoBytesCompleted := 3 } :=
  ⟨⟨by decide, by decide, by decide, rfl⟩,
    congrArg Prod.fst ((SpecialDispatchIo_zero_spec (SampleRead 3) SampleIoEnvironment
      SampleZeroSystem [5, 5, 5]).1 (Or.inl (by decide)) rfl (by decide) rfl).1,
    congrArg Prod.fst ((SpecialDispatchIo_zero_spec (SampleRead 3) SampleIoEnvironment
      SampleFullSystem [5, 5, 5]).1 (Or.inr (by decide)) rfl (by decide) rfl).1,
    congrArg Prod.fst ((SpecialDispatchIo_zero_spec (SampleWrite 3) SampleIoEnvironment
      SampleZeroSystem [5, 5, 5]).2 (by decide) rfl)⟩

/-- C17: a write on the `full` device completes the request with
`STATUS_VOLUME_FULL` and hands the request back as it came, the bytes
completed included: they read 0 on completion only if they read 0 on entry. -/
theorem SpecialDispatchIo_full_write_spec (Irp : IRP) (Env : IO_ENVIRONMENT) (s : SYSTEM)
    (hType : s.Device.Type_ = SpecialDeviceFull)
    (hWrite : Irp.MinorCode = IrpMinorIoWrite) :
    SpecialDispatchIo Irp Env s =
        (Irp,
          { s with Trace := s.Trace ++
            ((if Irp.MajorCode = IrpMajorIo then [] else [EVENT.RtlRaiseAssertion 635]) ++
              (if Irp.Direction = IrpDown then [] else [EVENT.RtlRaiseAssertion 636]) ++
              [EVENT.IoCompleteIrp Irp STATUS_VOLUME_FULL]) }) ∧
      (SpecialDispatchIo Irp Env s).1.IoBytesCompleted = Irp.IoBytesCompleted ∧
      Completions (SpecialDispatchIo Irp Env s).2.Trace =
        Completions s.Trace ++ [STATUS_VOLUME_FULL] := by
  have hRead : Irp.MinorCode ≠ IrpMinorIoRead := by rw [hWrite]; decide
  rw [SpecialDispatchIo_full_write Irp Env s hType hRead]
  refine ⟨by simp [hWrite], rfl, ?_⟩
  show Completions (s.Trace ++ _) = _
  rw [Completions_append]
  split_ifs <;> simp [Completions]

/-- C17, at a concrete input: a write of 4 bytes on the freshly attached `full`
device, in a request whose bytes completed hold 99 on entry, is completed with
`STATUS_VOLUME_FULL` and 99 bytes completed. -/
theorem SpecialDispatchIo_full_write_spec_witness :
    (SampleFullSystem.Device.Type_ = SpecialDeviceFull ∧
      (SampleWrite 4).MinorCode = IrpMinorIoWrite ∧ (SampleWrite 4).IoSizeInBytes = 4 ∧
      (SampleWrite 4).IoBytesCompleted = 99) ∧
    (SpecialDispatchIo (SampleWrite 4) SampleIoEnvironment SampleFullSystem).1.IoBytesCompleted =
      99 ∧
    Completions (SpecialDispatchIo (SampleWrite 4) SampleIoEnvironment SampleFullSystem).2.Trace =
      Completions SampleFullSystem.Trace ++ [STATUS_VOLUME_FULL] :=
  ⟨⟨by decide, rfl, rfl, rfl⟩,
    (SpecialDispatchIo_full_write_spec (SampleWrite 4) SampleIoEnvironment SampleFullSystem
      (by decide) rfl).2.1,
    (SpecialDispatchIo_full_write_spec (SampleWrite 4) SampleIoEnvironment SampleFullSystem
      (by decide) rfl).2.2⟩

/-! ## Reads and writes on the pseudo-random device -/

theorem ChunkSizes_zero : ChunkSizes 0 = [] := by
  simp [ChunkSizes, SPECIAL_URANDOM_BUFFER_SIZE]

theorem ChunkSizes_step (N : Nat) (hN : N ≠ 0) :
    ChunkSizes N = min 2048 N :: ChunkSizes (N - min 2048 N) := by
  unfold ChunkSizes SPECIAL_URANDOM_BUFFER_SIZE
  by_cases h : N < 2048
  · have h1 : N / 2048 = 0 := Nat.div_eq_of_lt h
    have h2 : N % 2048 = N := Nat.mod_eq_of_lt h
    have h3 : min 2048 N = N := by omega
    rw [h1, h2, h3]
    simp [hN]
  · have h1 : N / 2048 = (N - 2048) / 2048 + 1 := by omega
    have h2 : N % 2048 = (N - 2048) % 2048 := by omega
    have h3 : min 2048 N = 2048 := by omega
    rw [h1, h2, h3, List.replicate_succ]
    rfl

theorem ChunkSizes_length (N : Nat) : (ChunkSizes N).length = (N + 2047) / 2048 := by
  unfold ChunkSizes SPECIAL_URANDOM_BUFFER_SIZE
  split_ifs with h <;> simp <;> omega

theorem ChunkSizes_sum (N : Nat) : (ChunkSizes N).sum = N := by
  unfold ChunkSizes SPECIAL_URANDOM_BUFFER_SIZE
  split_ifs with h <;> simp <;> omega

theorem ChunkSizes_bounds (N c : Nat) (h : c ∈ ChunkSizes N) : 1 ≤ c ∧ c ≤ 2048 := by
  unfold ChunkSizes SPECIAL_URANDOM_BUFFER_SIZE at h
  split_ifs at h with h0
  · simp at h
    omega
  · simp at h
    rcases h with ⟨_, h⟩ | h <;> omega

theorem ChunkSizes_full (N i : Nat) (h : i + 1 < (ChunkSizes N).length) :
    (ChunkSizes N)[i]? = some 2048 := by
  rw [ChunkSizes_length] at h
  unfold ChunkSizes SPECIAL_URANDOM_BUFFER_SIZE
  have hi : i < N / 2048 := by omega
  rw [List.getElem?_append_left (by simpa using hi)]
  simp [hi]

/-- More fuel than bytes remaining changes nothing. -/
theorem SpecialPerformPseudoRandomIoLoop_fuel (Env : IO_ENVIRONMENT) :
    ∀ (Fuel : Nat) (Io : PSEUDO_RANDOM_IO), Io.BytesRemaining ≤ Fuel →
      SpecialPerformPseudoRandomIoLoop Env (Fuel + 1) Io =
        SpecialPerformPseudoRandomIoLoop Env Fuel Io := by
  intro Fuel
  induction Fuel with
  | zero =>
    intro Io h
    have hR : Io.BytesRemaining = 0 := by omega
    rw [SpecialPerformPseudoRandomIoLoop_done Env _ Io hR,
      SpecialPerformPseudoRandomIoLoop_done Env _ Io hR]
  | succ Fuel ih =>
    intro Io h
    by_cases hR : Io.BytesRemaining = 0
    · rw [SpecialPerformPseudoRandomIoLoop_done Env _ Io hR,
        SpecialPerformPseudoRandomIoLoop_done Env _ Io hR]
    · by_cases hW : Io.Irp.MinorCode = IrpMinorIoWrite
      · by_cases hS : KSUCCESS (Env.CopyStatus Io.IoBufferOffset) = true
        · rw [SpecialPerformPseudoRandomIoLoop_write_ok Env (Fuel + 1) Io hR hW hS,
            SpecialPerformPseudoRandomIoLoop_write_ok Env Fuel Io hR hW hS]
          apply ih
          show Io.BytesRemaining - min 2048 Io.BytesRemaining ≤ Fuel
          omega
        · have hF : KSUCCESS (Env.CopyStatus Io.IoBufferOffset) = false := by simpa using hS
          rw [SpecialPerformPseudoRandomIoLoop_write_fail Env (Fuel + 1) Io hR hW hF,
            SpecialPerformPseudoRandomIoLoop_write_fail Env Fuel Io hR hW hF]
      · by_cases hS : KSUCCESS (Env.CopyStatus Io.IoBufferOffset) = true
        · rw [SpecialPerformPseudoRandomIoLoop_read_ok Env (Fuel + 1) Io hR hW hS,
            SpecialPerformPseudoRandomIoLoop_read_ok Env Fuel Io hR hW hS]
          apply ih
          show Io.BytesRemaining - min 2048 Io.BytesRemaining ≤ Fuel
          omega
        · have hF : KSUCCESS (Env.CopyStatus Io.IoBufferOffset) = false := by simpa using hS
          rw [SpecialPerformPseudoRandomIoLoop_read_fail Env (Fuel + 1) Io hR hW hF,
            SpecialPerformPseudoRandomIoLoop_read_fail Env Fuel Io hR hW hF]

/-- The loop needs no more fuel than there are bytes remaining. -/
theorem SpecialPerformPseudoRandomIoLoop_enough (Env : IO_ENVIRONMENT) (Io : PSEUDO_RANDOM_IO) :
    ∀ Extra : Nat, SpecialPerformPseudoRandomIoLoop Env (Io.BytesRemaining + Extra) Io =
      SpecialPerformPseudoRandomIoLoop Env Io.BytesRemaining Io := by
  intro Extra
  induction Extra with
  | zero => rfl
  | succ Extra ih =>
    rw [← ih]
    exact SpecialPerformPseudoRandomIoLoop_fuel Env (Io.BytesRemaining + Extra) Io (by omega)

/-- The loop when every copy it makes succeeds: it ends with success and no
bytes remaining, having called the generator once for every chunk. -/
theorem SpecialPerformPseudoRandomIoLoop_success (Env : IO_ENVIRONMENT) :
    ∀ (Fuel : Nat) (Io : PSEUDO_RANDOM_IO), Io.BytesRemaining ≤ Fuel →
      (∀ j, 2048 * j < Io.BytesRemaining →
        KSUCCESS (Env.CopyStatus (Io.IoBufferOffset + 2048 * j)) = true) →
      (SpecialPerformPseudoRandomIoLoop Env Fuel Io).1 = STATUS_SUCCESS ∧
      (SpecialPerformPseudoRandomIoLoop Env Fuel Io).2.BytesRemaining = 0 ∧
      CsprngCallSizes (SpecialPerformPseudoRandomIoLoop Env Fuel Io).2.System.Trace =
        CsprngCallSizes Io.System.Trace ++ ChunkSizes Io.BytesRemaining := by
  intro Fuel
  induction Fuel with
  | zero =>
    intro Io h _
    have hR : Io.BytesRemaining = 0 := by omega
    rw [SpecialPerformPseudoRandomIoLoop_done Env _ Io hR, hR, ChunkSizes_zero]
    exact ⟨rfl, rfl, by simp⟩
  | succ Fuel ih =>
    intro Io h hCopy
    by_cases hR : Io.BytesRemaining = 0
    · rw [SpecialPerformPseudoRandomIoLoop_done Env _ Io hR, hR, ChunkSizes_zero]
      exact ⟨rfl, rfl, by simp⟩
    · have hS : KSUCCESS (Env.CopyStatus Io.IoBufferOffset) = true := by
        have := hCopy 0 (by omega)
        simpa using this
      have hNext : ∀ j, 2048 * j < Io.BytesRemaining - min 2048 Io.BytesRemaining →
          KSUCCESS (Env.CopyStatus (Io.IoBufferOffset + min 2048 Io.BytesRemaining + 2048 * j)) =
            true := by
        intro j hj
        have := hCopy (j + 1) (by omega)
        have e : Io.IoBufferOffset + 2048 * (j + 1) =
            Io.IoBufferOffset + min 2048 Io.BytesRemaining + 2048 * j := by omega
        rw [e] at this
        exact this
      have hLe : Io.BytesRemaining - min 2048 Io.BytesRemaining ≤ Fuel := by omega
      have key : ∀ Next : PSEUDO_RANDOM_IO,
          Next.BytesRemaining = Io.BytesRemaining - min 2048 Io.BytesRemaining →
          Next.IoBufferOffset = Io.IoBufferOffset + min 2048 Io.BytesRemaining →
          CsprngCallSizes Next.System.Trace =
            CsprngCallSizes Io.System.Trace ++ [min 2048 Io.BytesRemaining] →
          (SpecialPerformPseudoRandomIoLoop Env Fuel Next).1 = STATUS_SUCCESS ∧
            (SpecialPerformPseudoRandomIoLoop Env Fuel Next).2.BytesRemaining = 0 ∧
            CsprngCallSizes (SpecialPerformPseudoRandomIoLoop Env Fuel Next).2.System.Trace =
              CsprngCallSizes Io.System.Trace ++
                (min 2048 Io.BytesRemaining ::
                  ChunkSizes (Io.BytesRemaining - min 2048 Io.BytesRemaining)) := by
        intro Next hB hO hT
        obtain ⟨h1, h2, h3⟩ := ih Next (by rw [hB]; exact hLe) (by rw [hB, hO]; exact hNext)
        refine ⟨h1, h2, ?_⟩
        rw [h3, hT, hB]
        simp
      rw [ChunkSizes_step Io.BytesRemaining hR]
      by_cases hW : Io.Irp.MinorCode = IrpMinorIoWrite
      · rw [SpecialPerformPseudoRandomIoLoop_write_ok Env Fuel Io hR hW hS]
        refine key _ rfl rfl ?_
        show CsprngCallSizes (Io.System.Trace ++ _) = _
        rw [CsprngCallSizes_append]
        simp only [CsprngCallSizes, List.filterMap_cons, List.filterMap_nil,
          MmCopyIoBufferData_out_length _ _ _ _ _ hS]
      · rw [SpecialPerformPseudoRandomIoLoop_read_ok Env Fuel Io hR hW hS]
        refine key _ rfl rfl ?_
        show CsprngCallSizes (Io.System.Trace ++ _) = _
        rw [CsprngCallSizes_append]
        simp [CsprngCallSizes]

theorem SpecialPerformPseudoRandomIo_some (Irp : IRP) (Env : IO_ENVIRONMENT) (s : SYSTEM)
    (Address : Nat) (hAlloc : Env.ScratchAllocation = some Address) :
    SpecialPerformPseudoRandomIo Irp Env s =
      ((SpecialPerformPseudoRandomIoLoop Env Irp.IoSizeInBytes
          { Irp := Irp,
            System := emit (EVENT.MmAllocateNonPagedPool (some Address))
              (ASSERT (Irp.IoBuffer != none) 1013 s),
            Buffer := Env.ScratchContents,
            BytesRemaining := Irp.IoSizeInBytes,
            IoBufferOffset := 0 }).1,
        { (SpecialPerformPseudoRandomIoLoop Env Irp.IoSizeInBytes
            { Irp := Irp,
              System := emit (EVENT.MmAllocateNonPagedPool (some Address))
                (ASSERT (Irp.IoBuffer != none) 1013 s),
              Buffer := Env.ScratchContents,
              BytesRemaining := Irp.IoSizeInBytes,
              IoBufferOffset := 0 }).2.Irp with
          IoBytesCompleted := Irp.IoSizeInBytes -
            (SpecialPerformPseudoRandomIoLoop Env Irp.IoSizeInBytes
              { Irp := Irp,
                System := emit (EVENT.MmAllocateNonPagedPool (some Address))
                  (ASSERT (Irp.IoBuffer != none) 1013 s),
                Buffer := Env.ScratchContents,
                BytesRemaining := Irp.IoSizeInBytes,
                IoBufferOffset := 0 }).2.BytesRemaining },
        emit (EVENT.MmFreeNonPagedPool Address)
          (SpecialPerformPseudoRandomIoLoop Env Irp.IoSizeInBytes
            { Irp := Irp,
              System := emit (EVENT.MmAllocateNonPagedPool (some Address))
                (ASSERT (Irp.IoBuffer != none) 1013 s),
              Buffer := Env.ScratchContents,
              BytesRemaining := Irp.IoSizeInBytes,
              IoBufferOffset := 0 }).2.System) := by
  unfold SpecialPerformPseudoRandomIo
  simp only [hAlloc]

theorem SpecialPerformPseudoRandomIo_none (Irp : IRP) (Env : IO_ENVIRONMENT) (s : SYSTEM)
    (hAlloc : Env.ScratchAllocation = none) :
    SpecialPerformPseudoRandomIo Irp Env s =
      (STATUS_INSUFFICIENT_RESOURCES, { Irp with IoBytesCompleted := 0 },
        emit (EVENT.MmAllocateNonPagedPool none) (ASSERT (Irp.IoBuffer != none) 1013 s)) := by
  unfold SpecialPerformPseudoRandomIo
  simp only [hAlloc, Nat.sub_self]

theorem CsprngCallSizes_ASSERT (Condition : Bool) (Line : Nat) (s : SYSTEM) :
    CsprngCallSizes (ASSERT Condition Line s).Trace = CsprngCallSizes s.Trace := by
  rw [ASSERT_eq]
  show CsprngCallSizes (s.Trace ++ _) = _
  rw [CsprngCallSizes_append]
  split_ifs <;> simp [CsprngCallSizes]

theorem Completions_ASSERT (Condition : Bool) (Line : Nat) (s : SYSTEM) :
    Completions (ASSERT Condition Line s).Trace = Completions s.Trace := by
  rw [ASSERT_eq]
  show Completions (s.Trace ++ _) = _
  rw [Completions_append]
  split_ifs <;> simp [Completions]

/-- What a read or write on the pseudo-random device reports, in terms of the
loop of `SpecialPerformPseudoRandomIo`, when the scratch allocation succeeds. -/
theorem SpecialDispatchIo_random_some (Irp : IRP) (Env : IO_ENVIRONMENT) (s : SYSTEM)
    (Address : Nat) (hType : s.Device.Type_ = SpecialDevicePseudoRandom)
    (hAlloc : Env.ScratchAllocation = some Address) :
    ∃ (Io : PSEUDO_RANDOM_IO) (r : KSTATUS × PSEUDO_RANDOM_IO),
      r = SpecialPerformPseudoRandomIoLoop Env Irp.IoSizeInBytes Io ∧
      Io.Irp = Irp ∧ Io.BytesRemaining = Irp.IoSizeInBytes ∧ Io.IoBufferOffset = 0 ∧
      Io.Buffer = Env.ScratchContents ∧
      Io.System.Device = s.Device ∧ Io.System.RunLevel = s.RunLevel ∧
      CsprngCallSizes Io.System.Trace = CsprngCallSizes s.Trace ∧
      Completions Io.System.Trace = Completions s.Trace ∧
      (SpecialDispatchIo Irp Env s).1.IoBytesCompleted =
        Irp.IoSizeInBytes - r.2.BytesRemaining ∧
      (SpecialDispatchIo Irp Env s).1.IoBuffer = r.2.Irp.IoBuffer ∧
      (SpecialDispatchIo Irp Env s).2.Trace = r.2.System.Trace ++
        [EVENT.MmFreeNonPagedPool Address,
          EVENT.IoCompleteIrp (SpecialDispatchIo Irp Env s).1 r.1] := by
  rw [SpecialDispatchIo_random Irp Env s hType, SpecialPerformPseudoRandomIo_some Irp Env _
    Address hAlloc]
  refine ⟨_, _, rfl, rfl, rfl, rfl, rfl, ?_, ?_, ?_, ?_, rfl, rfl, ?_⟩
  · simp
  · simp [emit, ASSERT_eq]
  · simp only [emit_Trace, CsprngCallSizes_append, CsprngCallSizes_ASSERT]
    simp [CsprngCallSizes]
  · simp only [emit_Trace, Completions_append, Completions_ASSERT]
    simp [Completions]
  · simp

/-- C18: on the pseudo-random device, when the scratch allocation succeeds and
so does the buffer copy of every chunk, at the offsets 0, 2048, 4096 and so on
below the requested size, a read or write completes with success and reports
the requested size as completed; the loop ends with no bytes remaining, so the
fuel of the model is not what stops it.  The generator is called once per
chunk, with the sizes `ChunkSizes` lists: their number is the requested size
divided by 2048 and rounded up, each lies between 1 and 2048, each but the
last is 2048, and they add up to the requested size. -/
theorem SpecialDispatchIo_random_success (Irp : IRP) (Env : IO_ENVIRONMENT) (s : SYSTEM)
    (Address : Nat) (hType : s.Device.Type_ = SpecialDevicePseudoRandom)
    (hAlloc : Env.ScratchAllocation = some Address)
    (hCopy : ∀ j, 2048 * j < Irp.IoSizeInBytes → KSUCCESS (Env.CopyStatus (2048 * j)) = true) :
    (SpecialDispatchIo Irp Env s).1.IoBytesCompleted = Irp.IoSizeInBytes ∧
    Completions (SpecialDispatchIo Irp Env s).2.Trace = Completions s.Trace ++ [STATUS_SUCCESS] ∧
    CsprngCallSizes (SpecialDispatchIo Irp Env s).2.Trace =
      CsprngCallSizes s.Trace ++ ChunkSizes Irp.IoSizeInBytes ∧
    (ChunkSizes Irp.IoSizeInBytes).length = (Irp.IoSizeInBytes + 2047) / 2048 ∧
    (∀ c, c ∈ ChunkSizes Irp.IoSizeInBytes → 1 ≤ c ∧ c ≤ 2048) ∧
    (∀ i, i + 1 < (ChunkSizes Irp.IoSizeInBytes).length →
      (ChunkSizes Irp.IoSizeInBytes)[i]? = some 2048) ∧
    (ChunkSizes Irp.IoSizeInBytes).sum = Irp.IoSizeInBytes ∧
    ChunkSizes 4096 = [2048, 2048] ∧ ChunkSizes 0 = [] := by
  obtain ⟨Io, r, hr, _, hB, hO, _, _, _, hSizes, hDone, hCompleted, _, hTrace⟩ :=
    SpecialDispatchIo_random_some Irp Env s Address hType hAlloc
  obtain ⟨h1, h2, h3⟩ := SpecialPerformPseudoRandomIoLoop_success Env Irp.IoSizeInBytes Io
    (by rw [hB]) (by rw [hB, hO]; simpa using hCopy)
  obtain ⟨_, _, _, _, New, h5, _, _, h8, _⟩ :=
    SpecialPerformPseudoRandomIoLoop_frame Env Irp.IoSizeInBytes Io
  rw [← hr] at h1 h2 h3 h5
  refine ⟨?_, ?_, ?_, ChunkSizes_length _, ChunkSizes_bounds _, ChunkSizes_full _,
    ChunkSizes_sum _, by decide, ChunkSizes_zero⟩
  · rw [hCompleted, h2]
    rfl
  · rw [hTrace, Completions_append, h5, Completions_append, h8, hDone, h1]
    simp [Completions]
  · rw [hTrace, CsprngCallSizes_append, h3, hSizes, hB]
    simp [CsprngCallSizes]

/-- C18, at concrete inputs: a write of 4096 bytes and a read of 10 bytes on the
freshly attached `urandom` device. -/
theorem SpecialDispatchIo_random_success_witness :
    (SampleRandomSystem.Device.Type_ = SpecialDevicePseudoRandom ∧
      SampleIoEnvironment.ScratchAllocation = some 8192 ∧
      (∀ j, 2048 * j < 4096 → KSUCCESS (SampleIoEnvironment.CopyStatus (2048 * j)) = true)) ∧
    ((SpecialDispatchIo (SampleWrite 4096) SampleIoEnvironment
          SampleRandomSystem).1.IoBytesCompleted = 4096 ∧
      CsprngCallSizes (SpecialDispatchIo (SampleWrite 4096) SampleIoEnvironment
          SampleRandomSystem).2.Trace =
        CsprngCallSizes SampleRandomSystem.Trace ++ ChunkSizes 4096) ∧
    (SpecialDispatchIo (SampleRead 10) SampleIoEnvironment
        SampleRandomSystem).1.IoBytesCompleted = 10 :=
  ⟨⟨by decide, rfl, fun _ _ => rfl⟩,
    ⟨(SpecialDispatchIo_random_success (SampleWrite 4096) SampleIoEnvironment SampleRandomSystem
        8192 (by decide) rfl (fun _ _ => rfl)).1,
      (SpecialDispatchIo_random_success (SampleWrite 4096) SampleIoEnvironment SampleRandomSystem
        8192 (by decide) rfl (fun _ _ => rfl)).2.2.1⟩,
    (SpecialDispatchIo_random_success (SampleRead 10) SampleIoEnvironment SampleRandomSystem
      8192 (by decide) rfl (fun _ _ => rfl)).1⟩

/-- The loop when the copy of chunk `k` fails and the copies before it succeed:
it ends with the status of that copy and all bytes from chunk `k` on remaining,
having called the generator for the chunks before, and for chunk `k` too when
reading. -/
theorem SpecialPerformPseudoRandomIoLoop_copy_failure (Env : IO_ENVIRONMENT) :
    ∀ (k Fuel : Nat) (Io : PSEUDO_RANDOM_IO), Io.BytesRemaining ≤ Fuel →
      2048 * k < Io.BytesRemaining →
      (∀ j, j < k → KSUCCESS (Env.CopyStatus (Io.IoBufferOffset + 2048 * j)) = true) →
      KSUCCESS (Env.CopyStatus (Io.IoBufferOffset + 2048 * k)) = false →
      (SpecialPerformPseudoRandomIoLoop Env Fuel Io).1 =
        Env.CopyStatus (Io.IoBufferOffset + 2048 * k) ∧
      (SpecialPerformPseudoRandomIoLoop Env Fuel Io).2.BytesRemaining =
        Io.BytesRemaining - 2048 * k ∧
      CsprngCallSizes (SpecialPerformPseudoRandomIoLoop Env Fuel Io).2.System.Trace =
        CsprngCallSizes Io.System.Trace ++ (List.replicate k 2048 ++
          (if Io.Irp.MinorCode = IrpMinorIoWrite then []
            else [min 2048 (Io.BytesRemaining - 2048 * k)])) := by
  intro k
  induction k with
  | zero =>
    intro Fuel Io hFuel hk _ hFail
    have hR : Io.BytesRemaining ≠ 0 := by omega
    have hF : KSUCCESS (Env.CopyStatus Io.IoBufferOffset) = false := by simpa using hFail
    cases Fuel with
    | zero => omega
    | succ Fuel =>
      by_cases hW : Io.Irp.MinorCode = IrpMinorIoWrite
      · rw [SpecialPerformPseudoRandomIoLoop_write_fail Env Fuel Io hR hW hF]
        refine ⟨rfl, rfl, ?_⟩
        show CsprngCallSizes (Io.System.Trace ++ _) = _
        rw [CsprngCallSizes_append]
        simp [CsprngCallSizes, hW]
      · rw [SpecialPerformPseudoRandomIoLoop_read_fail Env Fuel Io hR hW hF]
        refine ⟨rfl, rfl, ?_⟩
        show CsprngCallSizes (Io.System.Trace ++ _) = _
        rw [CsprngCallSizes_append]
        simp [CsprngCallSizes, hW]
  | succ k ih =>
    intro Fuel Io hFuel hk hOk hFail
    have hR : Io.BytesRemaining ≠ 0 := by omega
    have hMin : min 2048 Io.BytesRemaining = 2048 := by omega
    have hS : KSUCCESS (Env.CopyStatus Io.IoBufferOffset) = true := by
      have := hOk 0 (by omega)
      simpa using this
    cases Fuel with
    | zero => omega
    | succ Fuel =>
      have key : ∀ Next : PSEUDO_RANDOM_IO,
          Next.BytesRemaining = Io.BytesRemaining - min 2048 Io.BytesRemaining →
          Next.IoBufferOffset = Io.IoBufferOffset + min 2048 Io.BytesRemaining →
          Next.Irp.MinorCode = Io.Irp.MinorCode →
          CsprngCallSizes Next.System.Trace =
            CsprngCallSizes Io.System.Trace ++ [min 2048 Io.BytesRemaining] →
          (SpecialPerformPseudoRandomIoLoop Env Fuel Next).1 =
              Env.CopyStatus (Io.IoBufferOffset + 2048 * (k + 1)) ∧
            (SpecialPerformPseudoRandomIoLoop Env Fuel Next).2.BytesRemaining =
              Io.BytesRemaining - 2048 * (k + 1) ∧
            CsprngCallSizes (SpecialPerformPseudoRandomIoLoop Env Fuel Next).2.System.Trace =
              CsprngCallSizes Io.System.Trace ++ (List.replicate (k + 1) 2048 ++
                (if Io.Irp.MinorCode = IrpMinorIoWrite then []
                  else [min 2048 (Io.BytesRemaining - 2048 * (k + 1))])) := by
        intro Next hB hO hM hT
        have e1 : ∀ j, Next.IoBufferOffset + 2048 * j = Io.IoBufferOffset + 2048 * (j + 1) := by
          intro j
          rw [hO]
          omega
        have e2 : Next.BytesRemaining - 2048 * k = Io.BytesRemaining - 2048 * (k + 1) := by
          rw [hB]
          omega
        obtain ⟨h1, h2, h3⟩ := ih Fuel Next (by rw [hB]; omega) (by rw [hB]; omega)
          (by intro j hj; rw [e1]; exact hOk (j + 1) (by omega))
          (by rw [e1]; exact hFail)
        rw [e1] at h1
        rw [e2] at h2 h3
        refine ⟨h1, h2, ?_⟩
        rw [h3, hT, hM, hMin, List.replicate_succ]
        simp
      by_cases hW : Io.Irp.MinorCode = IrpMinorIoWrite
      · rw [SpecialPerformPseudoRandomIoLoop_write_ok Env Fuel Io hR hW hS]
        refine key _ rfl rfl rfl ?_
        show CsprngCallSizes (Io.System.Trace ++ _) = _
        rw [CsprngCallSizes_append]
        simp only [CsprngCallSizes, List.filterMap_cons, List.filterMap_nil,
          MmCopyIoBufferData_out_length _ _ _ _ _ hS]
      · rw [SpecialPerformPseudoRandomIoLoop_read_ok Env Fuel Io hR hW hS]
        refine key _ rfl rfl rfl ?_
        show CsprngCallSizes (Io.System.Trace ++ _) = _
        rw [CsprngCallSizes_append]
        simp [CsprngCallSizes]

/-- C19: on the pseudo-random device, when the scratch allocation succeeds, the
buffer copies of the chunks before chunk `k` succeed and the copy of chunk `k`,
at offset `2048 * k` below the requested size, fails, a read or write completes
with the status of that copy and reports `2048 * k` bytes completed, the sizes
of the `k` chunks before; the generator was called for those chunks, and for
chunk `k` too when reading, where it is called before the copy.  When the
scratch allocation fails the request completes with
`STATUS_INSUFFICIENT_RESOURCES` and 0 bytes completed, and the generator is not
called.  In every outcome the bytes completed are at most the requested size. -/
theorem SpecialDispatchIo_random_failure (Irp : IRP) (Env : IO_ENVIRONMENT) (s : SYSTEM)
    (hType : s.Device.Type_ = SpecialDevicePseudoRandom) :
    (∀ Address k : Nat, Env.ScratchAllocation = some Address →
      2048 * k < Irp.IoSizeInBytes →
      (∀ j, j < k → KSUCCESS (Env.CopyStatus (2048 * j)) = true) →
      KSUCCESS (Env.CopyStatus (2048 * k)) = false →
      Completions (SpecialDispatchIo Irp Env s).2.Trace =
          Completions s.Trace ++ [Env.CopyStatus (2048 * k)] ∧
        (SpecialDispatchIo Irp Env s).1.IoBytesCompleted = 2048 * k ∧
        2048 * k = (List.replicate k 2048).sum ∧
        CsprngCallSizes (SpecialDispatchIo Irp Env s).2.Trace =
          CsprngCallSizes s.Trace ++ (List.replicate k 2048 ++
            (if Irp.MinorCode = IrpMinorIoWrite then []
              else [min 2048 (Irp.IoSizeInBytes - 2048 * k)]))) ∧
    (Env.ScratchAllocation = none →
      Completions (SpecialDispatchIo Irp Env s).2.Trace =
          Completions s.Trace ++ [STATUS_INSUFFICIENT_RESOURCES] ∧
        (SpecialDispatchIo Irp Env s).1.IoBytesCompleted = 0 ∧
        CsprngCallSizes (SpecialDispatchIo Irp Env s).2.Trace = CsprngCallSizes s.Trace) ∧
    (SpecialDispatchIo Irp Env s).1.IoBytesCompleted ≤ Irp.IoSizeInBytes := by
  refine ⟨?_, ?_, ?_⟩
  · intro Address k hAlloc hk hOk hFail
    obtain ⟨Io, r, hr, hI, hB, hO, _, _, _, hSizes, hDone, hCompleted, _, hTrace⟩ :=
      SpecialDispatchIo_random_some Irp Env s Address hType hAlloc
    obtain ⟨h1, h2, h3⟩ := SpecialPerformPseudoRandomIoLoop_copy_failure Env k
      Irp.IoSizeInBytes Io (by rw [hB]) (by rw [hB]; exact hk)
      (by intro j hj; rw [hO]; simpa using hOk j hj) (by rw [hO]; simpa using hFail)
    obtain ⟨_, _, _, _, New, h5, _, _, h8, _⟩ :=
      SpecialPerformPseudoRandomIoLoop_frame Env Irp.IoSizeInBytes Io
    rw [← hr] at h1 h2 h3 h5
    rw [hO] at h1
    rw [hB, hI] at h3
    rw [hB] at h2
    refine ⟨?_, ?_, by simp [Nat.mul_comm], ?_⟩
    · rw [hTrace, Completions_append, h5, Completions_append, h8, hDone, h1]
      simp [Completions]
    · rw [hCompleted, h2]
      omega
    · rw [hTrace, CsprngCallSizes_append, h3, hSizes]
      simp [CsprngCallSizes]
  · intro hAlloc
    rw [SpecialDispatchIo_random Irp Env s hType, SpecialPerformPseudoRandomIo_none Irp Env _
      hAlloc]
    refine ⟨?_, rfl, ?_⟩
    · simp only [emit_Trace, Completions_append, Completions_ASSERT]
      simp [Completions]
    · simp only [emit_Trace, CsprngCallSizes_append, CsprngCallSizes_ASSERT]
      simp [CsprngCallSizes]
  · cases hAlloc : Env.ScratchAllocation with
    | none =>
      rw [SpecialDispatchIo_random Irp Env s hType, SpecialPerformPseudoRandomIo_none Irp Env _
        hAlloc]
      exact Nat.zero_le _
    | some Address =>
      obtain ⟨Io, r, _, _, _, _, _, _, _, _, _, hCompleted, _, _⟩ :=
        SpecialDispatchIo_random_some Irp Env s Address hType hAlloc
      rw [hCompleted]
      exact Nat.sub_le _ _

/-- C19, at concrete inputs: a read of 5000 bytes on the freshly attached
`urandom` device whose copy at offset 4096, of chunk 2, fails; and a write of
4096 bytes whose scratch allocation fails. -/
theorem SpecialDispatchIo_random_failure_witness :
    (SampleRandomSystem.Device.Type_ = SpecialDevicePseudoRandom ∧
      SampleCopyFailure.ScratchAllocation = some 8192 ∧
      2048 * 2 < (SampleRead 5000).IoSizeInBytes ∧
      (∀ j, j < 2 → KSUCCESS (SampleCopyFailure.CopyStatus (2048 * j)) = true) ∧
      KSUCCESS (SampleCopyFailure.CopyStatus (2048 * 2)) = false ∧
      SampleIoFailure.ScratchAllocation = none) ∧
    (Completions (SpecialDispatchIo (SampleRead 5000) SampleCopyFailure
          SampleRandomSystem).2.Trace =
        Completions SampleRandomSystem.Trace ++ [SampleCopyFailure.CopyStatus (2048 * 2)] ∧
      (SpecialDispatchIo (SampleRead 5000) SampleCopyFailure
          SampleRandomSystem).1.IoBytesCompleted = 2048 * 2) ∧
    (SpecialDispatchIo (SampleWrite 4096) SampleIoFailure
        SampleRandomSystem).1.IoBytesCompleted = 0 :=
  ⟨⟨by decide, rfl, by decide, by decide, by decide, rfl⟩,
    ⟨((SpecialDispatchIo_random_failure (SampleRead 5000) SampleCopyFailure SampleRandomSystem
        (by decide)).1 8192 2 rfl (by decide) (by decide) (by decide)).1,
      ((SpecialDispatchIo_random_failure (SampleRead 5000) SampleCopyFailure SampleRandomSystem
        (by decide)).1 8192 2 rfl (by decide) (by decide) (by decide)).2.1⟩,
    ((SpecialDispatchIo_random_failure (SampleWrite 4096) SampleIoFailure SampleRandomSystem
      (by decide)).2.1 rfl).2.1⟩

/-! ## The lock and the run level around the generator -/

theorem SpecialPseudoRandomAddEntropy_eq (Data : List Nat) (Length : Nat) (s : SYSTEM) :
    SpecialPseudoRandomAddEntropy Data Length s =
      { s with
        Device := { s.Device with Lock := false },
        Trace := s.Trace ++
          ((if s.Device.Type_ = SpecialDevicePseudoRandom then [] else [EVENT.RtlRaiseAssertion 1126]) ++
            [EVENT.KeRaiseRunLevel RunLevelDispatch, EVENT.KeAcquireSpinLock,
              EVENT.CyFortunaAddEntropy (Data.take Length),
              EVENT.KeReleaseSpinLock, EVENT.KeLowerRunLevel s.RunLevel]) } := by
  unfold SpecialPseudoRandomAddEntropy KeLowerRunLevel KeReleaseSpinLock
    KeAcquireSpinLock KeRaiseRunLevel ASSERT emit
  by_cases ht : s.Device.Type_ = SpecialDevicePseudoRandom <;> simp [ht]

theorem SpecialPseudoRandomGetBytes_eq (Length : Nat) (Random : Nat → Nat) (s : SYSTEM) :
    SpecialPseudoRandomGetBytes Length Random s =
      ((List.range Length).map Random,
        { s with
          Device := { s.Device with Lock := false },
          Trace := s.Trace ++
            ((if s.Device.Type_ = SpecialDevicePseudoRandom then []
                else [EVENT.RtlRaiseAssertion 1216]) ++
              [EVENT.KeRaiseRunLevel RunLevelDispatch, EVENT.KeAcquireSpinLock,
                EVENT.CyFortunaGetRandomBytes Length ((List.range Length).map Random),
                EVENT.KeReleaseSpinLock, EVENT.KeLowerRunLevel s.RunLevel]) }) := by
  unfold SpecialPseudoRandomGetBytes KeLowerRunLevel KeReleaseSpinLock
    KeAcquireSpinLock KeRaiseRunLevel ASSERT emit
  by_cases ht : s.Device.Type_ = SpecialDevicePseudoRandom <;> simp [ht]

/-- C20: the calls a read or write adds to the trace, and those of each of the
three entry points of the interface, pass the protocol check from the run
level of entry: the run level is raised to dispatch level, the lock is taken,
the generator is called, the lock is released and the run level is lowered to
the level of entry, in this order and as often as the generator is called, and
every buffer copy is made at the level of entry with the lock free.  On
return, whatever the path, the run level is the one of entry and the device is
as it was with its lock free.  The check does reject a generator call without
the lock, a buffer copy under the lock or at the raised level, and a lowering
to another level than the one of entry. -/
theorem SpecialPseudoRandom_protocol (s : SYSTEM) :
    (∀ (Irp : IRP) (Env : IO_ENVIRONMENT),
      (SpecialDispatchIo Irp Env s).2.RunLevel = s.RunLevel ∧
      ((SpecialDispatchIo Irp Env s).2.Device = s.Device ∨
        (SpecialDispatchIo Irp Env s).2.Device = { s.Device with Lock := false }) ∧
      (s.Device.Lock = false → (SpecialDispatchIo Irp Env s).2.Device = s.Device) ∧
      ∃ New : List EVENT, (SpecialDispatchIo Irp Env s).2.Trace = s.Trace ++ New ∧
        ProtocolRun s.RunLevel PROTOCOL_STATE.Idle New = some PROTOCOL_STATE.Idle) ∧
    (∀ (Data : List Nat) (Length : Nat),
      (SpecialPseudoRandomAddEntropy Data Length s).RunLevel = s.RunLevel ∧
      (SpecialPseudoRandomAddEntropy Data Length s).Device = { s.Device with Lock := false } ∧
      ∃ New : List EVENT, (SpecialPseudoRandomAddEntropy Data Length s).Trace = s.Trace ++ New ∧
        ProtocolRun s.RunLevel PROTOCOL_STATE.Idle New = some PROTOCOL_STATE.Idle ∧
        FortunaAddEntropyCalls New = [Data.take Length]) ∧
    (∀ Counter : Nat,
      (SpecialPseudoRandomAddTimePointEntropy Counter s).RunLevel = s.RunLevel ∧
      (SpecialPseudoRandomAddTimePointEntropy Counter s).Device =
        { s.Device with Lock := false } ∧
      ∃ New : List EVENT,
        (SpecialPseudoRandomAddTimePointEntropy Counter s).Trace = s.Trace ++ New ∧
        ProtocolRun s.RunLevel PROTOCOL_STATE.Idle New = some PROTOCOL_STATE.Idle ∧
        FortunaAddEntropyCalls New = [CounterBytes Counter]) ∧
    (∀ (Length : Nat) (Random : Nat → Nat),
      (SpecialPseudoRandomGetBytes Length Random s).2.RunLevel = s.RunLevel ∧
      (SpecialPseudoRandomGetBytes Length Random s).2.Device =
        { s.Device with Lock := false } ∧
      ∃ New : List EVENT,
        (SpecialPseudoRandomGetBytes Length Random s).2.Trace = s.Trace ++ New ∧
        ProtocolRun s.RunLevel PROTOCOL_STATE.Idle New = some PROTOCOL_STATE.Idle ∧
        CsprngCallSizes New = [Length]) ∧
    (∀ (Entry : RUNLEVEL) (Data : List Nat) (Offset Size : Nat) (ToIoBuffer : Bool)
        (Status : KSTATUS),
      ProtocolRun Entry PROTOCOL_STATE.Idle [EVENT.CyFortunaAddEntropy Data] = none ∧
      ProtocolRun Entry PROTOCOL_STATE.Idle
        [EVENT.KeRaiseRunLevel RunLevelDispatch, EVENT.CyFortunaGetRandomBytes Size Data] = none ∧
      ProtocolRun Entry PROTOCOL_STATE.Idle
        [EVENT.KeRaiseRunLevel RunLevelDispatch,
          EVENT.MmCopyIoBufferData Offset Size ToIoBuffer Status] = none ∧
      ProtocolRun Entry PROTOCOL_STATE.Idle
        [EVENT.KeRaiseRunLevel RunLevelDispatch, EVENT.KeAcquireSpinLock,
          EVENT.MmCopyIoBufferData Offset Size ToIoBuffer Status] = none ∧
      ProtocolRun Entry PROTOCOL_STATE.Idle
        [EVENT.KeRaiseRunLevel RunLevelDispatch, EVENT.KeAcquireSpinLock,
          EVENT.KeLowerRunLevel Entry] = none ∧
      (∀ Other : RUNLEVEL, Other ≠ Entry →
        ProtocolRun Entry PROTOCOL_STATE.Idle
          [EVENT.KeRaiseRunLevel RunLevelDispatch, EVENT.KeLowerRunLevel Other] = none)) := by
  refine ⟨?_, ?_, ?_, ?_, ?_⟩
  · intro Irp Env
    obtain ⟨_, h2, h3, New, h5, h6, _, _⟩ := SpecialDispatchIo_frame Irp Env s
    refine ⟨h2, h3, ?_, New, h5, h6⟩
    intro hLock
    rcases h3 with h3 | h3
    · exact h3
    · rw [h3]
      rcases s with ⟨c, ⟨t, ct, rc, fc, l, i, ir⟩, rl, tr⟩
      simp only at hLock
      subst hLock
      rfl
  · intro Data Length
    rw [SpecialPseudoRandomAddEntropy_eq]
    refine ⟨rfl, rfl, _, rfl, ?_, ?_⟩
    · split_ifs <;> simp [ProtocolRun, ProtocolStep]
    · split_ifs <;> simp [FortunaAddEntropyCalls]
  · intro Counter
    rw [SpecialPseudoRandomAddTimePointEntropy_eq]
    refine ⟨rfl, rfl, _, rfl, ?_, ?_⟩
    · split_ifs <;> simp [ProtocolRun, ProtocolStep]
    · split_ifs <;> simp [FortunaAddEntropyCalls]
  · intro Length Random
    rw [SpecialPseudoRandomGetBytes_eq]
    refine ⟨rfl, rfl, _, rfl, ?_, ?_⟩
    · split_ifs <;> simp [ProtocolRun, ProtocolStep]
    · split_ifs <;> simp [CsprngCallSizes]
  · intro Entry Data Offset Size ToIoBuffer Status
    refine ⟨rfl, rfl, rfl, rfl, rfl, ?_⟩
    intro Other hOther
    simp [ProtocolRun, ProtocolStep, hOther]

/-- C20, at concrete inputs: on the freshly attached `urandom` device, whose
lock is free, a read of 5000 bytes whose copy at offset 4096 fails, and the
three entry points. -/
theorem SpecialPseudoRandom_protocol_witness :
    SampleRandomSystem.Device.Lock = false ∧
    (SpecialDispatchIo (SampleRead 5000) SampleCopyFailure SampleRandomSystem).2.Device =
      SampleRandomSystem.Device ∧
    (SpecialDispatchIo (SampleRead 5000) SampleCopyFailure SampleRandomSystem).2.RunLevel =
      SampleRandomSystem.RunLevel ∧
    (SpecialPseudoRandomAddEntropy [1, 2, 3] 2 SampleRandomSystem).RunLevel =
      SampleRandomSystem.RunLevel ∧
    (SpecialPseudoRandomAddTimePointEntropy 258 SampleRandomSystem).RunLevel =
      SampleRandomSystem.RunLevel ∧
    (SpecialPseudoRandomGetBytes 4 (fun i => i) SampleRandomSystem).2.RunLevel =
      SampleRandomSystem.RunLevel :=
  ⟨by decide,
    ((SpecialPseudoRandom_protocol SampleRandomSystem).1 (SampleRead 5000)
      SampleCopyFailure).2.2.1 (by decide),
    ((SpecialPseudoRandom_protocol SampleRandomSystem).1 (SampleRead 5000)
      SampleCopyFailure).1,
    ((SpecialPseudoRandom_protocol SampleRandomSystem).2.1 [1, 2, 3] 2).1,
    ((SpecialPseudoRandom_protocol SampleRandomSystem).2.2.1 258).1,
    ((SpecialPseudoRandom_protocol SampleRandomSystem).2.2.2.1 4 (fun i => i)).1⟩

/-! ## System control and user control -/

theorem SpecialDispatchSystemControl_lookup (Irp : IRP) (Lookup : SYSTEM_CONTROL_LOOKUP)
    (s : SYSTEM) (hMinor : Irp.MinorCode = IrpMinorSystemControlLookup) :
    SpecialDispatchSystemControl Irp Lookup s =
      if Lookup.Root = true then
        ({ Lookup with Properties :=
            { FileId := 0,
              Type_ := IO_OBJECT_TYPE.IoObjectCharacterDevice,
              HardLinkCount := 1,
              BlockSize := 1,
              BlockCount := 0,
              StatusChangeTime := s.Device.CreationTime,
              ModifiedTime := s.Device.CreationTime,
              AccessTime := s.Device.CreationTime,
              Permissions := FILE_PERMISSION_ALL,
              FileSize := 0 } },
          emit (EVENT.IoCompleteIrp Irp STATUS_SUCCESS) s)
      else (Lookup, emit (EVENT.IoCompleteIrp Irp STATUS_PATH_NOT_FOUND) s) := by
  unfold SpecialDispatchSystemControl
  rw [hMinor]
  cases hRoot : Lookup.Root <;> simp

/-- C21: whatever the device type, a lookup of the root is completed with
success, and the properties it hands back say: file size 0, block count 0,
hard link count 1, all permission bits, and the creation time of the device as
status change, modified and access time (next to file id 0, the type of a
character device and block size 1); a lookup of anything else is completed with
`STATUS_PATH_NOT_FOUND` and hands the lookup request back as it came.  Either
way the request is completed once and the system is as it was but for that
completion. -/
theorem SpecialDispatchSystemControl_lookup_spec (Irp : IRP) (Lookup : SYSTEM_CONTROL_LOOKUP)
    (s : SYSTEM) (hMinor : Irp.MinorCode = IrpMinorSystemControlLookup) :
    (Lookup.Root = true →
      (SpecialDispatchSystemControl Irp Lookup s).2 =
          emit (EVENT.IoCompleteIrp Irp STATUS_SUCCESS) s ∧
        (SpecialDispatchSystemControl Irp Lookup s).1.Root = true ∧
        (SpecialDispatchSystemControl Irp Lookup s).1.Properties.FileSize = 0 ∧
        (SpecialDispatchSystemControl Irp Lookup s).1.Properties.BlockCount = 0 ∧
        (SpecialDispatchSystemControl Irp Lookup s).1.Properties.HardLinkCount = 1 ∧
        (SpecialDispatchSystemControl Irp Lookup s).1.Properties.Permissions =
          FILE_PERMISSION_ALL ∧
        (SpecialDispatchSystemControl Irp Lookup s).1.Properties.StatusChangeTime =
          s.Device.CreationTime ∧
        (SpecialDispatchSystemControl Irp Lookup s).1.Properties.ModifiedTime =
          s.Device.CreationTime ∧
        (SpecialDispatchSystemControl Irp Lookup s).1.Properties.AccessTime =
          s.Device.CreationTime ∧
        (SpecialDispatchSystemControl Irp Lookup s).1.Properties.FileId = 0 ∧
        (SpecialDispatchSystemControl Irp Lookup s).1.Properties.Type_ =
          IO_OBJECT_TYPE.IoObjectCharacterDevice ∧
        (SpecialDispatchSystemControl Irp Lookup s).1.Properties.BlockSize = 1) ∧
    (Lookup.Root = false →
      SpecialDispatchSystemControl Irp Lookup s =
        (Lookup, emit (EVENT.IoCompleteIrp Irp STATUS_PATH_NOT_FOUND) s)) ∧
    (SpecialDispatchSystemControl Irp Lookup s).2.Device = s.Device ∧
    Completions (SpecialDispatchSystemControl Irp Lookup s).2.Trace =
      Completions s.Trace ++
        [if Lookup.Root = true then STATUS_SUCCESS else STATUS_PATH_NOT_FOUND] := by
  rw [SpecialDispatchSystemControl_lookup Irp Lookup s hMinor]
  refine ⟨?_, ?_, ?_, ?_⟩
  · intro hRoot
    rw [if_pos hRoot]
    exact ⟨rfl, hRoot, rfl, rfl, rfl, rfl, rfl, rfl, rfl, rfl, rfl, rfl⟩
  · intro hRoot
    simp [hRoot]
  · split_ifs <;> rfl
  · split_ifs <;> simp [Completions_append, Completions]

/-- C21, at concrete inputs: a lookup of the root and a lookup of something
else on the freshly attached `null` device, whose creation time is the system
time of the attach. -/
theorem SpecialDispatchSystemControl_lookup_spec_witness :
    ((SampleIrp IrpMajorSystemControl IrpMinorSystemControlLookup IrpDown).MinorCode =
        IrpMinorSystemControlLookup ∧
      (SampleLookup true).Root = true ∧ (SampleLookup false).Root = false ∧
      SampleNullSystem.Device.CreationTime = ⟨1380000000, 500⟩) ∧
    ((SpecialDispatchSystemControl
          (SampleIrp IrpMajorSystemControl IrpMinorSystemControlLookup IrpDown)
          (SampleLookup true) SampleNullSystem).1.Properties.FileSize = 0 ∧
      (SpecialDispatchSystemControl
          (SampleIrp IrpMajorSystemControl IrpMinorSystemControlLookup IrpDown)
          (SampleLookup true) SampleNullSystem).1.Properties.AccessTime =
        SampleNullSystem.Device.CreationTime) ∧
    SpecialDispatchSystemControl
        (SampleIrp IrpMajorSystemControl IrpMinorSystemControlLookup IrpDown)
        (SampleLookup false) SampleNullSystem =
      (SampleLookup false,
        emit (EVENT.IoCompleteIrp
          (SampleIrp IrpMajorSystemControl IrpMinorSystemControlLookup IrpDown)
          STATUS_PATH_NOT_FOUND) SampleNullSystem) :=
  ⟨⟨rfl, rfl, rfl, by decide⟩,
    ⟨((SpecialDispatchSystemControl_lookup_spec
        (SampleIrp IrpMajorSystemControl IrpMinorSystemControlLookup IrpDown)
        (SampleLookup true) SampleNullSystem rfl).1 rfl).2.2.1,
      ((SpecialDispatchSystemControl_lookup_spec
        (SampleIrp IrpMajorSystemControl IrpMinorSystemControlLookup IrpDown)
        (SampleLookup true) SampleNullSystem rfl).1 rfl).2.2.2.2.2.2.2.2.1⟩,
    (SpecialDispatchSystemControl_lookup_spec
      (SampleIrp IrpMajorSystemControl IrpMinorSystemControlLookup IrpDown)
      (SampleLookup false) SampleNullSystem rfl).2.1 rfl⟩

/-- A state change request that is neither one of the four the driver handles
nor, for three of them, travelling up, is left alone. -/
theorem SpecialDispatchStateChange_ignored (Irp : IRP) (Env : STATE_CHANGE_ENVIRONMENT)
    (s : SYSTEM)
    (hMinor : Irp.MinorCode ≠ IrpMinorQueryChildren)
    (hUp : Irp.Direction = IrpUp → Irp.MinorCode ≠ IrpMinorQueryResources ∧
      Irp.MinorCode ≠ IrpMinorStartDevice ∧ Irp.MinorCode ≠ IrpMinorRemoveDevice) :
    SpecialDispatchStateChange Irp Env s =
      ASSERT (Irp.MajorCode == IrpMajorStateChange) 451 s := by
  unfold SpecialDispatchStateChange
  rcases Irp with ⟨Major, Minor, Direction, Token, IoState, IoBuffer, Size, Completed⟩
  cases Minor <;> cases Direction <;> simp_all

/-- How many requests a state change request completes. -/
theorem SpecialDispatchStateChange_completions (Irp : IRP) (Env : STATE_CHANGE_ENVIRONMENT)
    (s : SYSTEM) :
    (Completions (SpecialDispatchStateChange Irp Env s).Trace).length =
      (Completions s.Trace).length +
        (if Irp.MinorCode = IrpMinorQueryChildren ∨
            (Irp.Direction = IrpUp ∧ (Irp.MinorCode = IrpMinorQueryResources ∨
              Irp.MinorCode = IrpMinorStartDevice ∨ Irp.MinorCode = IrpMinorRemoveDevice))
          then 1 else 0) := by
  unfold SpecialDispatchStateChange
  have hD := ASSERT_Device (Irp.MajorCode == IrpMajorStateChange) 451 s
  have hC := Completions_ASSERT (Irp.MajorCode == IrpMajorStateChange) 451 s
  generalize ASSERT (Irp.MajorCode == IrpMajorStateChange) 451 s = s₁ at hD hC ⊢
  rw [← hC]
  rcases Irp with ⟨Major, Minor, Direction, Token, IoState, IoBuffer, Size, Completed⟩
  by_cases hT : s₁.Device.Type_ = SpecialDevicePseudoRandom
  · cases Minor <;> cases Direction
    case pos.IrpMinorStartDevice.IrpUp =>
      simp only [hT, beq_self_eq_true, if_true]
      rw [SpecialPseudoRandomStartDevice_eq _ Env s₁ hT]
      by_cases hr : s₁.Device.InterfaceRegistered = true
      · simp [hr, Completions_append, Completions]
      · simp [hr, Completions_append, Completions]
    case pos.IrpMinorRemoveDevice.IrpUp =>
      simp only [hT, beq_self_eq_true, if_true]
      rw [SpecialPseudoRandomRemoveDevice_eq _ Env s₁ hT]
      by_cases hr : s₁.Device.InterfaceRegistered = false
      · simp only [hr, KSUCCESS, if_true, beq_self_eq_true, emit_Trace, Completions_append,
          SpecialDeviceReleaseReference_Completions]
        simp [Completions]
      · by_cases hk : KSUCCESS Env.DestroyInterfaceStatus = true
        · rw [if_neg hr]
          simp only [hk, ↓reduceIte, emit_Trace, Completions_append,
            SpecialDeviceReleaseReference_Completions]
          simp [Completions]
        · rw [if_neg hr]
          simp only [hk, ↓reduceIte]
          simp [Completions_append, Completions]
    all_goals simp [Completions_append, Completions]
  · have hT' : (s₁.Device.Type_ == SpecialDevicePseudoRandom) = false := by simpa using hT
    cases Minor <;> cases Direction <;>
      simp only [hT', KSUCCESS, beq_self_eq_true, if_true, Bool.false_eq_true, if_false,
        ↓reduceIte, emit_Trace, Completions_append,
        SpecialDeviceReleaseReference_Completions] <;>
      simp [Completions]

theorem SpecialDispatchSystemControl_other (Irp : IRP) (Lookup : SYSTEM_CONTROL_LOOKUP)
    (s : SYSTEM) (hLookup : Irp.MinorCode ≠ IrpMinorSystemControlLookup) :
    SpecialDispatchSystemControl Irp Lookup s =
      (Lookup,
        if Irp.MinorCode = IrpMinorSystemControlWriteFileProperties ∨
            Irp.MinorCode = IrpMinorSystemControlTruncate then
          emit (EVENT.IoCompleteIrp Irp STATUS_SUCCESS) s
        else emit (EVENT.RtlRaiseAssertion 799) s) := by
  unfold SpecialDispatchSystemControl ASSERT
  rcases Irp with ⟨Major, Minor, Direction, Token, IoState, IoBuffer, Size, Completed⟩
  cases Minor <;> simp_all

theorem SpecialDeviceAddReference_Completions (s : SYSTEM) :
    Completions (SpecialDeviceAddReference s).Trace = Completions s.Trace := by
  rw [SpecialDeviceAddReference_eq]
  show Completions (s.Trace ++ _) = _
  rw [Completions_append]
  split_ifs <;> simp [Completions]

/-- C22: an open, a close and a read or write on any device complete one
request each; a system control request completes one if it is a lookup, a write
of file properties or a truncate, the last two with success, and none
otherwise; a state change request completes one if it is a query for children,
or travels up and is a query for resources, a start or a remove, and none
otherwise; a user control request leaves the system as it was.  So no dispatch
routine completes more than one request.  A query for resources, a start or a
remove travelling down completes nothing, leaves the device as it was, and
leaves the whole system as it was when the request is a state change
request. -/
theorem SpecialDispatch_completions (Irp : IRP) (s : SYSTEM) :
    (Completions (SpecialDispatchOpen Irp s).2.Trace).length =
      (Completions s.Trace).length + 1 ∧
    (Completions (SpecialDispatchClose Irp s).Trace).length =
      (Completions s.Trace).length + 1 ∧
    (∀ Env : IO_ENVIRONMENT,
      (Completions (SpecialDispatchIo Irp Env s).2.Trace).length =
        (Completions s.Trace).length + 1) ∧
    (∀ Lookup : SYSTEM_CONTROL_LOOKUP,
      (Completions (SpecialDispatchSystemControl Irp Lookup s).2.Trace).length =
          (Completions s.Trace).length +
            (if Irp.MinorCode = IrpMinorSystemControlLookup ∨
                Irp.MinorCode = IrpMinorSystemControlWriteFileProperties ∨
                Irp.MinorCode = IrpMinorSystemControlTruncate then 1 else 0) ∧
        ((Irp.MinorCode = IrpMinorSystemControlWriteFileProperties ∨
            Irp.MinorCode = IrpMinorSystemControlTruncate) →
          Completions (SpecialDispatchSystemControl Irp Lookup s).2.Trace =
            Completions s.Trace ++ [STATUS_SUCCESS])) ∧
    (∀ Env : STATE_CHANGE_ENVIRONMENT,
      (Completions (SpecialDispatchStateChange Irp Env s).Trace).length =
          (Completions s.Trace).length +
            (if Irp.MinorCode = IrpMinorQueryChildren ∨
                (Irp.Direction = IrpUp ∧ (Irp.MinorCode = IrpMinorQueryResources ∨
                  Irp.MinorCode = IrpMinorStartDevice ∨
                  Irp.MinorCode = IrpMinorRemoveDevice))
              then 1 else 0) ∧
        (Irp.Direction = IrpDown →
          (Irp.MinorCode = IrpMinorQueryResources ∨ Irp.MinorCode = IrpMinorStartDevice ∨
            Irp.MinorCode = IrpMinorRemoveDevice) →
          (SpecialDispatchStateChange Irp Env s).Device = s.Device ∧
            Completions (SpecialDispatchStateChange Irp Env s).Trace = Completions s.Trace ∧
            (Irp.MajorCode = IrpMajorStateChange →
              SpecialDispatchStateChange Irp Env s = s))) ∧
    SpecialDispatchUserControl Irp s = s := by
  refine ⟨?_, ?_, ?_, ?_, ?_, rfl⟩
  · unfold SpecialDispatchOpen
    simp only [emit_Trace, Completions_append, Completions_ASSERT,
      SpecialDeviceAddReference_Completions]
    simp [Completions]
  · unfold SpecialDispatchClose
    simp only [emit_Trace, Completions_append, SpecialDeviceReleaseReference_Completions]
    simp [Completions]
  · intro Env
    obtain ⟨_, _, _, New, h5, _, _, h8⟩ := SpecialDispatchIo_frame Irp Env s
    rw [h5, Completions_append, List.length_append, h8]
  · intro Lookup
    by_cases hL : Irp.MinorCode = IrpMinorSystemControlLookup
    · rw [SpecialDispatchSystemControl_lookup Irp Lookup s hL]
      constructor
      · split_ifs <;> simp_all [Completions_append, Completions]
      · intro h
        rw [hL] at h
        rcases h with h | h <;> cases h
    · rw [SpecialDispatchSystemControl_other Irp Lookup s hL]
      constructor
      · split_ifs <;> simp_all [Completions_append, Completions]
      · intro h
        rw [if_pos h]
        simp [Completions_append, Completions]
  · intro Env
    refine ⟨SpecialDispatchStateChange_completions Irp Env s, ?_⟩
    intro hDown hMinor
    have hEq := SpecialDispatchStateChange_ignored Irp Env s
      (by rcases hMinor with h | h | h <;> rw [h] <;> decide)
      (by intro hUp; rw [hDown] at hUp; cases hUp)
    rw [hEq]
    refine ⟨ASSERT_Device _ _ _, Completions_ASSERT _ _ _, ?_⟩
    intro hMajor
    simp [ASSERT, hMajor]

/-- C22, at concrete inputs: a start travelling up and one travelling down, a
truncate and a read, on the freshly attached `urandom` device, which has
completed nothing yet. -/
theorem SpecialDispatch_completions_witness :
    (Completions SampleRandomSystem.Trace = [] ∧
      (SampleIrp IrpMajorStateChange IrpMinorStartDevice IrpDown).MajorCode =
        IrpMajorStateChange) ∧
    (Completions (SpecialDispatchStateChange
        (SampleIrp IrpMajorStateChange IrpMinorStartDevice IrpUp) SampleStateChangeEnvironment
        SampleRandomSystem).Trace).length = 1 ∧
    SpecialDispatchStateChange (SampleIrp IrpMajorStateChange IrpMinorStartDevice IrpDown)
        SampleStateChangeEnvironment SampleRandomSystem = SampleRandomSystem ∧
    Completions (SpecialDispatchSystemControl
        (SampleIrp IrpMajorSystemControl IrpMinorSystemControlTruncate IrpDown)
        (SampleLookup true) SampleRandomSystem).2.Trace = [STATUS_SUCCESS] ∧
    (Completions (SpecialDispatchIo (SampleRead 5000) SampleCopyFailure
        SampleRandomSystem).2.Trace).length = 1 :=
  ⟨⟨by decide, rfl⟩,
    ((SpecialDispatch_completions (SampleIrp IrpMajorStateChange IrpMinorStartDevice IrpUp)
      SampleRandomSystem).2.2.2.2.1 SampleStateChangeEnvironment).1.trans (by decide),
    ((((SpecialDispatch_completions (SampleIrp IrpMajorStateChange IrpMinorStartDevice IrpDown)
      SampleRandomSystem).2.2.2.2.1 SampleStateChangeEnvironment).2 rfl
        (Or.inr (Or.inl rfl))).2.2) rfl,
    ((((SpecialDispatch_completions
      (SampleIrp IrpMajorSystemControl IrpMinorSystemControlTruncate IrpDown)
      SampleRandomSystem).2.2.2.1 (SampleLookup true)).2) (Or.inr rfl)).trans (by decide),
    ((SpecialDispatch_completions (SampleRead 5000) SampleRandomSystem).2.2.1
      SampleCopyFailure).trans (by decide)⟩

/-- C23, against the claim as stated: a system control request with a minor code
the driver does not handle reaches `ASSERT(FALSE)`, so it raises the assertion
of line 799. -/
theorem SpecialDispatchSystemControl_unhandled_faults :
    AssertionFaults SampleNullSystem.Trace = [] ∧
    AssertionFaults (SpecialDispatchSystemControl
        (SampleIrp IrpMajorSystemControl (IrpMinorOther 0) IrpDown) (SampleLookup true)
        SampleNullSystem).2.Trace = [799] := by
  decide

/-- C23, amended: a state change request whose minor code is none of query
resources, start device, query children and remove device makes no call at all
and leaves the system as it was, so it completes nothing and raises nothing.  A
system control request whose minor code is none of lookup, write file
properties and truncate completes nothing and leaves the device and the memory
its system context points to as they were, but it raises the assertion of line
799, which is the one call it makes. -/
theorem SpecialDispatch_unhandled (Irp : IRP) (s : SYSTEM) :
    (∀ Env : STATE_CHANGE_ENVIRONMENT, Irp.MajorCode = IrpMajorStateChange →
      Irp.MinorCode ≠ IrpMinorQueryResources → Irp.MinorCode ≠ IrpMinorStartDevice →
      Irp.MinorCode ≠ IrpMinorQueryChildren → Irp.MinorCode ≠ IrpMinorRemoveDevice →
      SpecialDispatchStateChange Irp Env s = s) ∧
    (∀ Lookup : SYSTEM_CONTROL_LOOKUP, Irp.MinorCode ≠ IrpMinorSystemControlLookup →
      Irp.MinorCode ≠ IrpMinorSystemControlWriteFileProperties →
      Irp.MinorCode ≠ IrpMinorSystemControlTruncate →
      SpecialDispatchSystemControl Irp Lookup s =
          (Lookup, emit (EVENT.RtlRaiseAssertion 799) s) ∧
        (SpecialDispatchSystemControl Irp Lookup s).2.Device = s.Device ∧
        Completions (SpecialDispatchSystemControl Irp Lookup s).2.Trace = Completions s.Trace ∧
        AssertionFaults (SpecialDispatchSystemControl Irp Lookup s).2.Trace =
          AssertionFaults s.Trace ++ [799]) := by
  constructor
  · intro Env hMajor h1 h2 h3 h4
    rw [SpecialDispatchStateChange_ignored Irp Env s h3 (fun _ => ⟨h1, h2, h4⟩)]
    simp [ASSERT, hMajor]
  · intro Lookup h1 h2 h3
    rw [SpecialDispatchSystemControl_other Irp Lookup s h1]
    have hNot : ¬ (Irp.MinorCode = IrpMinorSystemControlWriteFileProperties ∨
        Irp.MinorCode = IrpMinorSystemControlTruncate) := by
      rintro (h | h)
      · exact h2 h
      · exact h3 h
    rw [if_neg hNot]
    refine ⟨rfl, rfl, ?_, ?_⟩
    · simp [Completions_append, Completions]
    · simp [AssertionFaults_append, AssertionFaults]

/-- C23, amended, at concrete inputs: a state change request and a system
control request with a minor code of their own on the freshly attached `null`
device. -/
theorem SpecialDispatch_unhandled_witness :
    (SampleIrp IrpMajorStateChange (IrpMinorOther 9) IrpUp).MajorCode = IrpMajorStateChange ∧
    SpecialDispatchStateChange (SampleIrp IrpMajorStateChange (IrpMinorOther 9) IrpUp)
        SampleStateChangeEnvironment SampleNullSystem = SampleNullSystem ∧
    SpecialDispatchSystemControl (SampleIrp IrpMajorSystemControl (IrpMinorOther 0) IrpDown)
        (SampleLookup true) SampleNullSystem =
      (SampleLookup true, emit (EVENT.RtlRaiseAssertion 799) SampleNullSystem) :=
  ⟨rfl,
    (SpecialDispatch_unhandled (SampleIrp IrpMajorStateChange (IrpMinorOther 9) IrpUp)
      SampleNullSystem).1 SampleStateChangeEnvironment rfl (by decide) (by decide) (by decide)
        (by decide),
    ((SpecialDispatch_unhandled (SampleIrp IrpMajorSystemControl (IrpMinorOther 0) IrpDown)
      SampleNullSystem).2 (SampleLookup true) (by decide) (by decide) (by decide)).1⟩

/-- C26: when `MmZeroIoBuffer` fails, a read on the `zero` or the `full` device
completes the request with the status of that call and hands the request back
as it came, the bytes completed included: they are what they were on entry. -/
theorem SpecialDispatchIo_zero_failure (Irp : IRP) (Env : IO_ENVIRONMENT) (s : SYSTEM)
    (hType : s.Device.Type_ = SpecialDeviceZero ∨ s.Device.Type_ = SpecialDeviceFull)
    (hRead : Irp.MinorCode = IrpMinorIoRead)
    (hFail : KSUCCESS Env.ZeroIoBufferStatus = false) :
    (SpecialDispatchIo Irp Env s).1 = Irp ∧
      (SpecialDispatchIo Irp Env s).1.IoBytesCompleted = Irp.IoBytesCompleted ∧
      Completions (SpecialDispatchIo Irp Env s).2.Trace =
        Completions s.Trace ++ [Env.ZeroIoBufferStatus] ∧
      (SpecialDispatchIo Irp Env s).2.Device = s.Device := by
  rw [SpecialDispatchIo_read_zeroes Irp Env s hType hRead]
  have hIrp : ({ Irp with
      IoBuffer := Irp.IoBuffer.map (fun IoBuffer =>
        MmZeroIoBuffer IoBuffer 0 Irp.IoSizeInBytes Env.ZeroIoBufferStatus),
      IoBytesCompleted :=
        if KSUCCESS Env.ZeroIoBufferStatus = true then Irp.IoSizeInBytes
        else Irp.IoBytesCompleted } : IRP) = Irp := by
    rcases Irp with ⟨Major, Minor, Direction, Token, IoState, IoBuffer, Size, Completed⟩
    cases IoBuffer <;> simp [MmZeroIoBuffer, hFail]
  refine ⟨hIrp, by rw [hIrp], ?_, rfl⟩
  show Completions (s.Trace ++ _) = _
  rw [Completions_append]
  split_ifs <;> simp [Completions]

/-- C26, at concrete inputs: two reads of 4 bytes on the freshly attached `zero`
device whose zero fill fails, one entering with 99 bytes completed and one with
0, are completed with 99 and with 0 bytes completed. -/
theorem SpecialDispatchIo_zero_failure_witness :
    (SampleZeroSystem.Device.Type_ = SpecialDeviceZero ∧
      (SampleRead 4).MinorCode = IrpMinorIoRead ∧
      KSUCCESS SampleIoFailure.ZeroIoBufferStatus = false ∧
      (SampleRead 4).IoBytesCompleted = 99) ∧
    (SpecialDispatchIo (SampleRead 4) SampleIoFailure SampleZeroSystem).1.IoBytesCompleted =
      99 ∧
    (SpecialDispatchIo { SampleRead 4 with IoBytesCompleted := 0 } SampleIoFailure
      SampleZeroSystem).1.IoBytesCompleted = 0 ∧
    Completions (SpecialDispatchIo (SampleRead 4) SampleIoFailure SampleZeroSystem).2.Trace =
      Completions SampleZeroSystem.Trace ++ [STATUS_OTHER 2] :=
  ⟨⟨by decide, rfl, by decide, rfl⟩,
    (SpecialDispatchIo_zero_failure (SampleRead 4) SampleIoFailure SampleZeroSystem
      (Or.inl (by decide)) rfl (by decide)).2.1,
    (SpecialDispatchIo_zero_failure { SampleRead 4 with IoBytesCompleted := 0 } SampleIoFailure
      SampleZeroSystem (Or.inl (by decide)) rfl (by decide)).2.1,
    (SpecialDispatchIo_zero_failure (SampleRead 4) SampleIoFailure SampleZeroSystem
      (Or.inl (by decide)) rfl (by decide)).2.2.1⟩

/-! ## Order and content of the bytes of the pseudo-random device -/

theorem ChunkSlices_zero (Data : List Nat) : ChunkSlices Data 0 = [] := by
  simp [ChunkSlices]

theorem ChunkSlices_step (Data : List Nat) (N : Nat) (hN : N ≠ 0) :
    ChunkSlices Data N =
      Data.take (min 2048 N) :: ChunkSlices (Data.drop (min 2048 N)) (N - min 2048 N) := by
  unfold ChunkSlices
  have h1 : (N + 2047) / 2048 = (N - min 2048 N + 2047) / 2048 + 1 := by omega
  rw [h1, List.range_succ_eq_map, List.map_cons, List.map_map, List.cons.injEq]
  constructor
  · have h0 : min (2048 * (0 + 1)) N - 2048 * 0 = min 2048 N := by omega
    simp only [ChunkSlice, h0, Nat.mul_zero, List.drop_zero]
  · apply List.map_congr_left
    intro i hi
    have hi' : i < (N - min 2048 N + 2047) / 2048 := by simpa using hi
    have h2048 : 2048 ≤ N := by omega
    have hm : min 2048 N = 2048 := by omega
    have e1 : 2048 * Nat.succ i = 2048 + 2048 * i := by omega
    have e2 : min (2048 * (Nat.succ i + 1)) N - (2048 + 2048 * i) =
        min (2048 * (i + 1)) (N - 2048) - 2048 * i := by omega
    simp only [Function.comp, ChunkSlice, hm, List.drop_drop, e1, e2]

theorem ChunkSlices_flatten (N : Nat) :
    ∀ Data : List Nat, (ChunkSlices Data N).flatten = Data.take N := by
  induction N using Nat.strong_induction_on with
  | _ N ih =>
    intro Data
    by_cases hN : N = 0
    · subst hN
      simp [ChunkSlices_zero]
    · rw [ChunkSlices_step Data N hN, List.flatten_cons, ih (N - min 2048 N) (by omega),
        ← List.take_add]
      congr 1
      omega

theorem range_map_getD (Data : List Nat) (Offset Size : Nat) (h : Offset + Size ≤ Data.length) :
    (List.range Size).map (fun i => Data.getD (Offset + i) 0) = (Data.drop Offset).take Size := by
  apply List.ext_getElem
  · simp
    omega
  · intro i h1 h2
    simp at h1
    simp [List.getD_eq_getElem?_getD,
      List.getElem?_eq_getElem (show Offset + i < Data.length by omega)]

theorem FortunaGetRandomBytesCalls_append (a b : List EVENT) :
    FortunaGetRandomBytesCalls (a ++ b) =
      FortunaGetRandomBytesCalls a ++ FortunaGetRandomBytesCalls b := by
  unfold FortunaGetRandomBytesCalls
  exact List.filterMap_append _ _ _

theorem range_map_add (f : Nat → Nat) (Offset Size N : Nat) (h : Offset + Size ≤ N) :
    (List.range Size).map (fun i => f (Offset + i)) =
      (((List.range N).map f).drop Offset).take Size := by
  apply List.ext_getElem
  · simp
    omega
  · intro i h1 h2
    simp

theorem MmCopyIoBufferData_out_take (IoBuffer Buffer : List Nat) (Offset Size : Nat)
    (Status : KSTATUS) (hS : KSUCCESS Status = true) (h : Offset + Size ≤ IoBuffer.length) :
    (MmCopyIoBufferData IoBuffer Buffer Offset Size false Status).2.take Size =
      (IoBuffer.drop Offset).take Size := by
  unfold MmCopyIoBufferData
  simp only [hS, if_true, Bool.false_eq_true, if_false]
  rw [List.take_left' (by simp), range_map_getD IoBuffer Offset Size h]

theorem MmCopyIoBufferData_in (IoBuffer Output Rest : List Nat) (Offset : Nat)
    (Status : KSTATUS) (hS : KSUCCESS Status = true) :
    (MmCopyIoBufferData IoBuffer (Output ++ Rest) Offset Output.length true Status).1 =
      IoBuffer.take Offset ++ Output ++ IoBuffer.drop (Offset + Output.length) := by
  unfold MmCopyIoBufferData
  simp only [hS, if_true]
  have h := range_map_getD (Output ++ Rest) 0 Output.length (by simp)
  simp only [Nat.zero_add, List.drop_zero] at h
  rw [h, List.take_left' rfl]

/-- The loop keeps the sum of the offset and the bytes remaining, on every
path. -/
theorem SpecialPerformPseudoRandomIoLoop_offset (Env : IO_ENVIRONMENT) :
    ∀ (Fuel : Nat) (Io : PSEUDO_RANDOM_IO),
      (SpecialPerformPseudoRandomIoLoop Env Fuel Io).2.IoBufferOffset +
          (SpecialPerformPseudoRandomIoLoop Env Fuel Io).2.BytesRemaining =
        Io.IoBufferOffset + Io.BytesRemaining := by
  intro Fuel
  induction Fuel with
  | zero => intro Io; rfl
  | succ Fuel ih =>
    intro Io
    by_cases hR : Io.BytesRemaining = 0
    · rw [SpecialPerformPseudoRandomIoLoop_done Env _ Io hR]
    · by_cases hW : Io.Irp.MinorCode = IrpMinorIoWrite
      · by_cases hS : KSUCCESS (Env.CopyStatus Io.IoBufferOffset) = true
        · rw [SpecialPerformPseudoRandomIoLoop_write_ok Env Fuel Io hR hW hS, ih]
          show Io.IoBufferOffset + min 2048 Io.BytesRemaining +
            (Io.BytesRemaining - min 2048 Io.BytesRemaining) = _
          omega
        · have hF : KSUCCESS (Env.CopyStatus Io.IoBufferOffset) = false := by simpa using hS
          rw [SpecialPerformPseudoRandomIoLoop_write_fail Env Fuel Io hR hW hF]
      · by_cases hS : KSUCCESS (Env.CopyStatus Io.IoBufferOffset) = true
        · rw [SpecialPerformPseudoRandomIoLoop_read_ok Env Fuel Io hR hW hS, ih]
          show Io.IoBufferOffset + min 2048 Io.BytesRemaining +
            (Io.BytesRemaining - min 2048 Io.BytesRemaining) = _
          omega
        · have hF : KSUCCESS (Env.CopyStatus Io.IoBufferOffset) = false := by simpa using hS
          rw [SpecialPerformPseudoRandomIoLoop_read_fail Env Fuel Io hR hW hF]

/-- One round of the loop whose copy succeeds: the loop goes on from a state
with the same sum of offset and bytes remaining, the offset moved on by the
size of the chunk. -/
theorem SpecialPerformPseudoRandomIoLoop_round (Env : IO_ENVIRONMENT) (Fuel : Nat)
    (Io : PSEUDO_RANDOM_IO) (hR : Io.BytesRemaining ≠ 0)
    (hS : KSUCCESS (Env.CopyStatus Io.IoBufferOffset) = true) :
    ∃ Next : PSEUDO_RANDOM_IO,
      SpecialPerformPseudoRandomIoLoop Env (Fuel + 1) Io =
        SpecialPerformPseudoRandomIoLoop Env Fuel Next ∧
      Next.IoBufferOffset = Io.IoBufferOffset + min 2048 Io.BytesRemaining ∧
      Next.BytesRemaining = Io.BytesRemaining - min 2048 Io.BytesRemaining ∧
      Next.IoBufferOffset + Next.BytesRemaining = Io.IoBufferOffset + Io.BytesRemaining := by
  by_cases hW : Io.Irp.MinorCode = IrpMinorIoWrite
  · exact ⟨_, SpecialPerformPseudoRandomIoLoop_write_ok Env Fuel Io hR hW hS, rfl, rfl, by
      show Io.IoBufferOffset + min 2048 Io.BytesRemaining +
        (Io.BytesRemaining - min 2048 Io.BytesRemaining) = _
      omega⟩
  · exact ⟨_, SpecialPerformPseudoRandomIoLoop_read_ok Env Fuel Io hR hW hS, rfl, rfl, by
      show Io.IoBufferOffset + min 2048 Io.BytesRemaining +
        (Io.BytesRemaining - min 2048 Io.BytesRemaining) = _
      omega⟩

/-- The loop of a write whose copies all succeed mixes in the slices of the
data, in order, produces nothing and leaves the request as it was. -/
theorem SpecialPerformPseudoRandomIoLoop_write_content (Env : IO_ENVIRONMENT)
    (Data : List Nat) :
    ∀ (Fuel : Nat) (Io : PSEUDO_RANDOM_IO), Io.BytesRemaining ≤ Fuel →
      Io.Irp.MinorCode = IrpMinorIoWrite → Io.Irp.IoBuffer = some Data →
      Io.IoBufferOffset + Io.BytesRemaining ≤ Data.length →
      (∀ j, 2048 * j < Io.BytesRemaining →
        KSUCCESS (Env.CopyStatus (Io.IoBufferOffset + 2048 * j)) = true) →
      FortunaAddEntropyCalls (SpecialPerformPseudoRandomIoLoop Env Fuel Io).2.System.Trace =
          FortunaAddEntropyCalls Io.System.Trace ++
            ChunkSlices (Data.drop Io.IoBufferOffset) Io.BytesRemaining ∧
        FortunaGetRandomBytesCalls
            (SpecialPerformPseudoRandomIoLoop Env Fuel Io).2.System.Trace =
          FortunaGetRandomBytesCalls Io.System.Trace ∧
        (SpecialPerformPseudoRandomIoLoop Env Fuel Io).2.Irp = Io.Irp := by
  intro Fuel
  induction Fuel with
  | zero =>
    intro Io h _ _ _ _
    have hR : Io.BytesRemaining = 0 := by omega
    rw [SpecialPerformPseudoRandomIoLoop_done Env _ Io hR, hR, ChunkSlices_zero]
    exact ⟨by simp, rfl, rfl⟩
  | succ Fuel ih =>
    intro Io h hW hB hLen hCopy
    by_cases hR : Io.BytesRemaining = 0
    · rw [SpecialPerformPseudoRandomIoLoop_done Env _ Io hR, hR, ChunkSlices_zero]
      exact ⟨by simp, rfl, rfl⟩
    · have hS : KSUCCESS (Env.CopyStatus Io.IoBufferOffset) = true := by
        have := hCopy 0 (by omega)
        simpa using this
      have hNext : ∀ j, 2048 * j < Io.BytesRemaining - min 2048 Io.BytesRemaining →
          KSUCCESS (Env.CopyStatus (Io.IoBufferOffset + min 2048 Io.BytesRemaining + 2048 * j)) =
            true := by
        intro j hj
        have := hCopy (j + 1) (by omega)
        have e : Io.IoBufferOffset + 2048 * (j + 1) =
            Io.IoBufferOffset + min 2048 Io.BytesRemaining + 2048 * j := by omega
        rw [e] at this
        exact this
      have key : ∀ Next : PSEUDO_RANDOM_IO,
          Next.BytesRemaining = Io.BytesRemaining - min 2048 Io.BytesRemaining →
          Next.IoBufferOffset = Io.IoBufferOffset + min 2048 Io.BytesRemaining →
          Next.Irp = Io.Irp →
          FortunaAddEntropyCalls Next.System.Trace =
            FortunaAddEntropyCalls Io.System.Trace ++
              [(Data.drop Io.IoBufferOffset).take (min 2048 Io.BytesRemaining)] →
          FortunaGetRandomBytesCalls Next.System.Trace =
            FortunaGetRandomBytesCalls Io.System.Trace →
          FortunaAddEntropyCalls
              (SpecialPerformPseudoRandomIoLoop Env Fuel Next).2.System.Trace =
            FortunaAddEntropyCalls Io.System.Trace ++
              ChunkSlices (Data.drop Io.IoBufferOffset) Io.BytesRemaining ∧
          FortunaGetRandomBytesCalls
              (SpecialPerformPseudoRandomIoLoop Env Fuel Next).2.System.Trace =
            FortunaGetRandomBytesCalls Io.System.Trace ∧
          (SpecialPerformPseudoRandomIoLoop Env Fuel Next).2.Irp = Io.Irp := by
        intro Next hNB hNO hNI hNA hNG
        obtain ⟨h1, h2, h3⟩ := ih Next (by rw [hNB]; omega) (by rw [hNI]; exact hW)
          (by rw [hNI]; exact hB) (by rw [hNB, hNO]; omega)
          (by rw [hNB, hNO]; exact hNext)
        refine ⟨?_, by rw [h2, hNG], by rw [h3, hNI]⟩
        rw [h1, hNA, hNB, hNO,
          ChunkSlices_step (Data.drop Io.IoBufferOffset) Io.BytesRemaining hR, List.drop_drop]
        simp
      rw [SpecialPerformPseudoRandomIoLoop_write_ok Env Fuel Io hR hW hS]
      refine key _ rfl rfl rfl ?_ ?_
      · show FortunaAddEntropyCalls (Io.System.Trace ++ _) = _
        rw [FortunaAddEntropyCalls_append, hB]
        simp only [FortunaAddEntropyCalls, List.filterMap_cons, List.filterMap_nil,
          Option.getD_some,
          MmCopyIoBufferData_out_take Data Io.Buffer Io.IoBufferOffset
            (min 2048 Io.BytesRemaining) _ hS (by omega)]
      · show FortunaGetRandomBytesCalls (Io.System.Trace ++ _) = _
        rw [FortunaGetRandomBytesCalls_append]
        simp [FortunaGetRandomBytesCalls]

theorem splice_chunk (Buffer Output : List Nat) (Offset Size N : Nat)
    (h1 : Offset + Size ≤ N) (h2 : N ≤ Buffer.length) (h3 : Output.length = N) :
    (Buffer.take Offset ++ (Output.drop Offset).take Size ++
          Buffer.drop (Offset + Size)).take (Offset + Size) ++
        Output.drop (Offset + Size) ++
        (Buffer.take Offset ++ (Output.drop Offset).take Size ++
          Buffer.drop (Offset + Size)).drop N =
      Buffer.take Offset ++ Output.drop Offset ++ Buffer.drop N := by
  have hl : (Buffer.take Offset ++ (Output.drop Offset).take Size).length = Offset + Size := by
    simp
    omega
  have hd : (Buffer.take Offset ++ (Output.drop Offset).take Size ++
      Buffer.drop (Offset + Size)).drop N = Buffer.drop N := by
    rw [List.drop_append_eq_append_drop, hl, List.drop_drop,
      List.drop_eq_nil_of_le (by rw [hl]; omega)]
    simp
    congr 1
    omega
  rw [List.take_left' hl, hd, List.append_assoc (Buffer.take Offset),
    ← List.drop_drop, List.take_append_drop]

/-- The loop of a read whose copies all succeed has the generator produce the
bytes of each chunk in turn, mixes nothing in, and leaves in the transfer
buffer, from its offset on, what the generator produced. -/
theorem SpecialPerformPseudoRandomIoLoop_read_content (Env : IO_ENVIRONMENT) (N : Nat) :
    ∀ (Fuel : Nat) (Io : PSEUDO_RANDOM_IO) (Buffer : List Nat), Io.BytesRemaining ≤ Fuel →
      Io.Irp.MinorCode ≠ IrpMinorIoWrite → Io.Irp.IoBuffer = some Buffer →
      Io.IoBufferOffset + Io.BytesRemaining = N → N ≤ Buffer.length →
      (∀ j, 2048 * j < Io.BytesRemaining →
        KSUCCESS (Env.CopyStatus (Io.IoBufferOffset + 2048 * j)) = true) →
      FortunaGetRandomBytesCalls
            (SpecialPerformPseudoRandomIoLoop Env Fuel Io).2.System.Trace =
          FortunaGetRandomBytesCalls Io.System.Trace ++
            ChunkSlices (((List.range N).map Env.RandomByte).drop Io.IoBufferOffset)
              Io.BytesRemaining ∧
        FortunaAddEntropyCalls (SpecialPerformPseudoRandomIoLoop Env Fuel Io).2.System.Trace =
          FortunaAddEntropyCalls Io.System.Trace ∧
        (SpecialPerformPseudoRandomIoLoop Env Fuel Io).2.Irp.IoBuffer =
          some (Buffer.take Io.IoBufferOffset ++
            ((List.range N).map Env.RandomByte).drop Io.IoBufferOffset ++ Buffer.drop N) := by
  intro Fuel
  induction Fuel with
  | zero =>
    intro Io Buffer h _ hB hN _ _
    have hR : Io.BytesRemaining = 0 := by omega
    have hO : Io.IoBufferOffset = N := by omega
    rw [SpecialPerformPseudoRandomIoLoop_done Env _ Io hR, hR, ChunkSlices_zero, hB, hO]
    refine ⟨by simp, rfl, ?_⟩
    rw [List.drop_eq_nil_of_le (by simp)]
    simp
  | succ Fuel ih =>
    intro Io Buffer h hW hB hN hLen hCopy
    by_cases hR : Io.BytesRemaining = 0
    · have hO : Io.IoBufferOffset = N := by omega
      rw [SpecialPerformPseudoRandomIoLoop_done Env _ Io hR, hR, ChunkSlices_zero, hB, hO]
      refine ⟨by simp, rfl, ?_⟩
      rw [List.drop_eq_nil_of_le (by simp)]
      simp
    · have hS : KSUCCESS (Env.CopyStatus Io.IoBufferOffset) = true := by
        have := hCopy 0 (by omega)
        simpa using this
      have hNext : ∀ j, 2048 * j < Io.BytesRemaining - min 2048 Io.BytesRemaining →
          KSUCCESS (Env.CopyStatus (Io.IoBufferOffset + min 2048 Io.BytesRemaining + 2048 * j)) =
            true := by
        intro j hj
        have := hCopy (j + 1) (by omega)
        have e : Io.IoBufferOffset + 2048 * (j + 1) =
            Io.IoBufferOffset + min 2048 Io.BytesRemaining + 2048 * j := by omega
        rw [e] at this
        exact this
      have hOut : (List.range (min 2048 Io.BytesRemaining)).map
            (fun i => Env.RandomByte (Io.IoBufferOffset + i)) =
          (((List.range N).map Env.RandomByte).drop Io.IoBufferOffset).take
            (min 2048 Io.BytesRemaining) :=
        range_map_add Env.RandomByte Io.IoBufferOffset (min 2048 Io.BytesRemaining) N
          (by omega)
      have hOutLen : ((List.range (min 2048 Io.BytesRemaining)).map
          (fun i => Env.RandomByte (Io.IoBufferOffset + i))).length =
            min 2048 Io.BytesRemaining := by simp
      have key : ∀ Next : PSEUDO_RANDOM_IO,
          Next.BytesRemaining = Io.BytesRemaining - min 2048 Io.BytesRemaining →
          Next.IoBufferOffset = Io.IoBufferOffset + min 2048 Io.BytesRemaining →
          Next.Irp.MinorCode = Io.Irp.MinorCode →
          Next.Irp.IoBuffer = some (Buffer.take Io.IoBufferOffset ++
            (((List.range N).map Env.RandomByte).drop Io.IoBufferOffset).take
              (min 2048 Io.BytesRemaining) ++
            Buffer.drop (Io.IoBufferOffset + min 2048 Io.BytesRemaining)) →
          FortunaGetRandomBytesCalls Next.System.Trace =
            FortunaGetRandomBytesCalls Io.System.Trace ++
              [(((List.range N).map Env.RandomByte).drop Io.IoBufferOffset).take
                (min 2048 Io.BytesRemaining)] →
          FortunaAddEntropyCalls Next.System.Trace =
            FortunaAddEntropyCalls Io.System.Trace →
          FortunaGetRandomBytesCalls
              (SpecialPerformPseudoRandomIoLoop Env Fuel Next).2.System.Trace =
            FortunaGetRandomBytesCalls Io.System.Trace ++
              ChunkSlices (((List.range N).map Env.RandomByte).drop Io.IoBufferOffset)
                Io.BytesRemaining ∧
          FortunaAddEntropyCalls
              (SpecialPerformPseudoRandomIoLoop Env Fuel Next).2.System.Trace =
            FortunaAddEntropyCalls Io.System.Trace ∧
          (SpecialPerformPseudoRandomIoLoop Env Fuel Next).2.Irp.IoBuffer =
            some (Buffer.take Io.IoBufferOffset ++
              ((List.range N).map Env.RandomByte).drop Io.IoBufferOffset ++
              Buffer.drop N) := by
        intro Next hNB hNO hNM hNI hNG hNA
        obtain ⟨h1, h2, h3⟩ := ih Next _ (by rw [hNB]; omega) (by rw [hNM]; exact hW) hNI
          (by rw [hNB, hNO]; omega)
          (by simp only [List.length_append, List.length_take, List.length_drop,
                List.length_map, List.length_range]
              omega)
          (by rw [hNB, hNO]; exact hNext)
        refine ⟨?_, by rw [h2, hNA], ?_⟩
        · rw [h1, hNG, hNB, hNO,
            ChunkSlices_step (((List.range N).map Env.RandomByte).drop Io.IoBufferOffset)
              Io.BytesRemaining hR, List.drop_drop]
          simp
        · rw [h3, hNO, splice_chunk Buffer ((List.range N).map Env.RandomByte)
            Io.IoBufferOffset (min 2048 Io.BytesRemaining) N (by omega) hLen (by simp)]
      rw [SpecialPerformPseudoRandomIoLoop_read_ok Env Fuel Io hR hW hS]
      refine key _ rfl rfl rfl ?_ ?_ ?_
      · show Option.map _ Io.Irp.IoBuffer = _
        rw [hB, Option.map_some', hOut]
        have hlen : ((((List.range N).map Env.RandomByte).drop Io.IoBufferOffset).take
            (min 2048 Io.BytesRemaining)).length = min 2048 Io.BytesRemaining := by
          rw [← hOut]
          exact hOutLen
        have hin := MmCopyIoBufferData_in Buffer
          ((((List.range N).map Env.RandomByte).drop Io.IoBufferOffset).take
            (min 2048 Io.BytesRemaining))
          (Io.Buffer.drop (min 2048 Io.BytesRemaining)) Io.IoBufferOffset
          (Env.CopyStatus Io.IoBufferOffset) hS
        rw [hlen] at hin
        rw [hin]
      · show FortunaGetRandomBytesCalls (Io.System.Trace ++ _) = _
        rw [FortunaGetRandomBytesCalls_append, hOut]
        simp [FortunaGetRandomBytesCalls]
      · show FortunaAddEntropyCalls (Io.System.Trace ++ _) = _
        rw [FortunaAddEntropyCalls_append]
        simp [FortunaAddEntropyCalls]

theorem ChunkSlices_append_left (N : Nat) :
    ∀ Data Rest : List Nat, N ≤ Data.length →
      ChunkSlices (Data ++ Rest) N = ChunkSlices Data N := by
  induction N using Nat.strong_induction_on with
  | _ N ih =>
    intro Data Rest hLen
    by_cases hN : N = 0
    · subst hN
      rw [ChunkSlices_zero, ChunkSlices_zero]
    · rw [ChunkSlices_step (Data ++ Rest) N hN, ChunkSlices_step Data N hN,
        List.take_append_of_le_length (by omega), List.drop_append_of_le_length (by omega),
        ih (N - min 2048 N) (by omega) _ _ (by rw [List.length_drop]; omega)]

theorem FortunaAddEntropyCalls_ASSERT (Condition : Bool) (Line : Nat) (s : SYSTEM) :
    FortunaAddEntropyCalls (ASSERT Condition Line s).Trace = FortunaAddEntropyCalls s.Trace := by
  rw [ASSERT_eq]
  show FortunaAddEntropyCalls (s.Trace ++ _) = _
  rw [FortunaAddEntropyCalls_append]
  split_ifs <;> simp [FortunaAddEntropyCalls]

theorem FortunaGetRandomBytesCalls_ASSERT (Condition : Bool) (Line : Nat) (s : SYSTEM) :
    FortunaGetRandomBytesCalls (ASSERT Condition Line s).Trace =
      FortunaGetRandomBytesCalls s.Trace := by
  rw [ASSERT_eq]
  show FortunaGetRandomBytesCalls (s.Trace ++ _) = _
  rw [FortunaGetRandomBytesCalls_append]
  split_ifs <;> simp [FortunaGetRandomBytesCalls]

/-- A read or write on the pseudo-random device whose scratch allocation
succeeds, in terms of the loop of `SpecialPerformPseudoRandomIo`: the state in
which the loop is entered, and what is made of the state in which it ends. -/
theorem SpecialDispatchIo_random_loop (Irp : IRP) (Env : IO_ENVIRONMENT) (s : SYSTEM)
    (Address : Nat) (hType : s.Device.Type_ = SpecialDevicePseudoRandom)
    (hAlloc : Env.ScratchAllocation = some Address) :
    ∃ (Io : PSEUDO_RANDOM_IO) (r : KSTATUS × PSEUDO_RANDOM_IO),
      r = SpecialPerformPseudoRandomIoLoop Env Irp.IoSizeInBytes Io ∧
      Io.Irp = Irp ∧ Io.BytesRemaining = Irp.IoSizeInBytes ∧ Io.IoBufferOffset = 0 ∧
      Io.System = emit (EVENT.MmAllocateNonPagedPool (some Address))
        (ASSERT (Irp.IoBuffer != none) 1013
          (ASSERT (Irp.Direction == IrpDown) 636
            (ASSERT (Irp.MajorCode == IrpMajorIo) 635 s))) ∧
      (SpecialDispatchIo Irp Env s).1 =
        { r.2.Irp with IoBytesCompleted := Irp.IoSizeInBytes - r.2.BytesRemaining } ∧
      (SpecialDispatchIo Irp Env s).2 =
        emit (EVENT.IoCompleteIrp (SpecialDispatchIo Irp Env s).1 r.1)
          (emit (EVENT.MmFreeNonPagedPool Address) r.2.System) := by
  rw [SpecialDispatchIo_random Irp Env s hType, SpecialPerformPseudoRandomIo_some Irp Env _
    Address hAlloc]
  exact ⟨_, _, rfl, rfl, rfl, rfl, rfl, rfl, rfl⟩

/-- C25: the generator is what the environment says it is, `Env.RandomByte`
giving the byte it produces for each offset of a read, and the driver's routines
are functions of the request, the environment and the system.  Every round of
the loop whose copy succeeds goes on with the offset moved on by the size of the
chunk and the same sum of offset and bytes remaining, and the loop ends with
that sum, which is the requested size as the loop is entered at offset 0.  On
the pseudo-random device, when the scratch allocation and the buffer copies of
all chunks succeed, a write of data at least as long as the requested size
mixes in the slices of the data, chunk by chunk in rising order, whose
concatenation is the data up to the requested size; it produces nothing and
leaves the transfer buffer as it was.  A read into a buffer at least as long
as the requested size hands back the buffer with the bytes of the generator in
its first part and the rest as it was; the output of each generator call is
the slice of that buffer the chunk covers, so the bytes delivered are the
outputs one after the other; it mixes nothing in. -/
theorem SpecialDispatchIo_random_content (Irp : IRP) (Env : IO_ENVIRONMENT) (s : SYSTEM)
    (Address : Nat) (hType : s.Device.Type_ = SpecialDevicePseudoRandom)
    (hAlloc : Env.ScratchAllocation = some Address)
    (hCopy : ∀ j, 2048 * j < Irp.IoSizeInBytes → KSUCCESS (Env.CopyStatus (2048 * j)) = true) :
    (∀ (Fuel : Nat) (Io : PSEUDO_RANDOM_IO),
      (SpecialPerformPseudoRandomIoLoop Env Fuel Io).2.IoBufferOffset +
          (SpecialPerformPseudoRandomIoLoop Env Fuel Io).2.BytesRemaining =
        Io.IoBufferOffset + Io.BytesRemaining ∧
      (Io.BytesRemaining ≠ 0 → KSUCCESS (Env.CopyStatus Io.IoBufferOffset) = true →
        ∃ Next : PSEUDO_RANDOM_IO,
          SpecialPerformPseudoRandomIoLoop Env (Fuel + 1) Io =
            SpecialPerformPseudoRandomIoLoop Env Fuel Next ∧
          Next.IoBufferOffset = Io.IoBufferOffset + min 2048 Io.BytesRemaining ∧
          Next.BytesRemaining = Io.BytesRemaining - min 2048 Io.BytesRemaining ∧
          Next.IoBufferOffset + Next.BytesRemaining =
            Io.IoBufferOffset + Io.BytesRemaining)) ∧
    (∀ Data : List Nat, Irp.MinorCode = IrpMinorIoWrite → Irp.IoBuffer = some Data →
      Irp.IoSizeInBytes ≤ Data.length →
      FortunaAddEntropyCalls (SpecialDispatchIo Irp Env s).2.Trace =
          FortunaAddEntropyCalls s.Trace ++ ChunkSlices Data Irp.IoSizeInBytes ∧
        (ChunkSlices Data Irp.IoSizeInBytes).flatten = Data.take Irp.IoSizeInBytes ∧
        (Data.length = Irp.IoSizeInBytes →
          (ChunkSlices Data Irp.IoSizeInBytes).flatten = Data) ∧
        FortunaGetRandomBytesCalls (SpecialDispatchIo Irp Env s).2.Trace =
          FortunaGetRandomBytesCalls s.Trace ∧
        (SpecialDispatchIo Irp Env s).1 = { Irp with IoBytesCompleted := Irp.IoSizeInBytes }) ∧
    (∀ Buffer : List Nat, Irp.MinorCode ≠ IrpMinorIoWrite → Irp.IoBuffer = some Buffer →
      Irp.IoSizeInBytes ≤ Buffer.length →
      (SpecialDispatchIo Irp Env s).1.IoBuffer =
          some ((List.range Irp.IoSizeInBytes).map Env.RandomByte ++
            Buffer.drop Irp.IoSizeInBytes) ∧
        FortunaGetRandomBytesCalls (SpecialDispatchIo Irp Env s).2.Trace =
          FortunaGetRandomBytesCalls s.Trace ++
            ChunkSlices ((List.range Irp.IoSizeInBytes).map Env.RandomByte ++
              Buffer.drop Irp.IoSizeInBytes) Irp.IoSizeInBytes ∧
        (ChunkSlices ((List.range Irp.IoSizeInBytes).map Env.RandomByte ++
            Buffer.drop Irp.IoSizeInBytes) Irp.IoSizeInBytes).flatten =
          ((List.range Irp.IoSizeInBytes).map Env.RandomByte ++
            Buffer.drop Irp.IoSizeInBytes).take Irp.IoSizeInBytes ∧
        ((List.range Irp.IoSizeInBytes).map Env.RandomByte ++
            Buffer.drop Irp.IoSizeInBytes).take Irp.IoSizeInBytes =
          (List.range Irp.IoSizeInBytes).map Env.RandomByte ∧
        FortunaAddEntropyCalls (SpecialDispatchIo Irp Env s).2.Trace =
          FortunaAddEntropyCalls s.Trace) := by
  obtain ⟨Io, r, hr, hI, hB, hO, hSys, hIrp, hEnd⟩ :=
    SpecialDispatchIo_random_loop Irp Env s Address hType hAlloc
  have hCopy' : ∀ j, 2048 * j < Io.BytesRemaining →
      KSUCCESS (Env.CopyStatus (Io.IoBufferOffset + 2048 * j)) = true := by
    rw [hB, hO]
    simpa using hCopy
  have hAdd : FortunaAddEntropyCalls Io.System.Trace = FortunaAddEntropyCalls s.Trace := by
    rw [hSys]
    simp only [emit_Trace, FortunaAddEntropyCalls_append, FortunaAddEntropyCalls_ASSERT]
    simp [FortunaAddEntropyCalls]
  have hGet : FortunaGetRandomBytesCalls Io.System.Trace =
      FortunaGetRandomBytesCalls s.Trace := by
    rw [hSys]
    simp only [emit_Trace, FortunaGetRandomBytesCalls_append, FortunaGetRandomBytesCalls_ASSERT]
    simp [FortunaGetRandomBytesCalls]
  obtain ⟨_, hDone, _⟩ := SpecialPerformPseudoRandomIoLoop_success Env Irp.IoSizeInBytes Io
    (by rw [hB]) hCopy'
  rw [← hr] at hDone
  refine ⟨fun Fuel Io' => ⟨SpecialPerformPseudoRandomIoLoop_offset Env Fuel Io',
    SpecialPerformPseudoRandomIoLoop_round Env Fuel Io'⟩, ?_, ?_⟩
  · intro Data hWrite hBuf hLen
    obtain ⟨h1, h2, h3⟩ := SpecialPerformPseudoRandomIoLoop_write_content Env Data
      Irp.IoSizeInBytes Io (by rw [hB]) (by rw [hI]; exact hWrite) (by rw [hI]; exact hBuf)
      (by rw [hB, hO]; omega) hCopy'
    rw [← hr, hB, hO, List.drop_zero] at h1
    rw [← hr] at h2 h3
    refine ⟨?_, ChunkSlices_flatten _ _, ?_, ?_, ?_⟩
    · rw [hEnd]
      simp only [emit_Trace, FortunaAddEntropyCalls_append, h1, hAdd]
      simp [FortunaAddEntropyCalls]
    · intro hEq
      rw [ChunkSlices_flatten, ← hEq, List.take_length]
    · rw [hEnd]
      simp only [emit_Trace, FortunaGetRandomBytesCalls_append, h2, hGet]
      simp [FortunaGetRandomBytesCalls]
    · rw [hIrp, h3, hI, hDone]
      rfl
  · intro Buffer hRead hBuf hLen
    obtain ⟨h1, h2, h3⟩ := SpecialPerformPseudoRandomIoLoop_read_content Env Irp.IoSizeInBytes
      Irp.IoSizeInBytes Io Buffer (by rw [hB]) (by rw [hI]; exact hRead)
      (by rw [hI]; exact hBuf) (by rw [hB, hO]; omega) hLen hCopy'
    rw [← hr, hB, hO, List.drop_zero] at h1
    rw [← hr] at h2
    rw [← hr, hO, List.take_zero, List.nil_append, List.drop_zero] at h3
    refine ⟨?_, ?_, ChunkSlices_flatten _ _, ?_, ?_⟩
    · rw [hIrp]
      exact h3
    · rw [hEnd, ChunkSlices_append_left _ _ _ (by simp)]
      simp only [emit_Trace, FortunaGetRandomBytesCalls_append, h1, hGet]
      simp [FortunaGetRandomBytesCalls]
    · rw [List.take_left' (by simp)]
    · rw [hEnd]
      simp only [emit_Trace, FortunaAddEntropyCalls_append, h2, hAdd]
      simp [FortunaAddEntropyCalls]

/-- C25, at concrete inputs: a write of 4096 bytes and a read of 10 bytes on the
freshly attached `urandom` device. -/
theorem SpecialDispatchIo_random_content_witness :
    (SampleRandomSystem.Device.Type_ = SpecialDevicePseudoRandom ∧
      SampleIoEnvironment.ScratchAllocation = some 8192 ∧
      (SampleWrite 4096).IoBuffer = some (List.replicate 4096 5) ∧
      (SampleRead 10).IoBuffer = some (List.replicate 10 5)) ∧
    FortunaAddEntropyCalls (SpecialDispatchIo (SampleWrite 4096) SampleIoEnvironment
        SampleRandomSystem).2.Trace =
      FortunaAddEntropyCalls SampleRandomSystem.Trace ++
        ChunkSlices (List.replicate 4096 5) 4096 ∧
    (SpecialDispatchIo (SampleRead 10) SampleIoEnvironment SampleRandomSystem).1.IoBuffer =
      some ((List.range 10).map SampleIoEnvironment.RandomByte ++
        (List.replicate 10 5).drop 10) :=
  ⟨⟨by decide, rfl, rfl, rfl⟩,
    ((SpecialDispatchIo_random_content (SampleWrite 4096) SampleIoEnvironment
      SampleRandomSystem 8192 (by decide) rfl (fun _ _ => rfl)).2.1
        (List.replicate 4096 5) rfl rfl
        (by rw [List.length_replicate]; exact Nat.le_refl 4096)).1,
    ((SpecialDispatchIo_random_content (SampleRead 10) SampleIoEnvironment
      SampleRandomSystem 8192 (by decide) rfl (fun _ _ => rfl)).2.2
        (List.replicate 10 5) (by decide) rfl
        (by rw [List.length_replicate]; exact Nat.le_refl 10)).1⟩

/-! ## The life of one `urandom` device -/

theorem DestroyCount_ASSERT (Condition : Bool) (Line : Nat) (s : SYSTEM) :
    DestroyCount (ASSERT Condition Line s).Trace = DestroyCount s.Trace := by
  rw [ASSERT_eq]
  show DestroyCount (s.Trace ++ _) = _
  rw [DestroyCount_append]
  split_ifs <;> simp [DestroyCount]

theorem SpecialDispatchOpen_DestroyCount (Irp : IRP) (s : SYSTEM) :
    DestroyCount (SpecialDispatchOpen Irp s).2.Trace = DestroyCount s.Trace := by
  unfold SpecialDispatchOpen
  simp only [emit_Trace, DestroyCount_append, DestroyCount_ASSERT]
  rw [SpecialDeviceAddReference_eq]
  show DestroyCount (s.Trace ++ _) + _ + _ = _
  rw [DestroyCount_append]
  split_ifs <;> simp [DestroyCount]

theorem SpecialDispatchClose_DestroyCount (Irp : IRP) (s : SYSTEM) :
    DestroyCount (SpecialDispatchClose Irp s).Trace =
      DestroyCount s.Trace + (if s.Device.ReferenceCount = 1 then 1 else 0) := by
  rw [SpecialDispatchClose_eq]
  show DestroyCount (s.Trace ++ _) = _
  rw [DestroyCount_append, DestroyCount_append, DestroyCount_append]
  split_ifs <;> simp [DestroyCount]

theorem SpecialPerformPseudoRandomIoLoop_DestroyCount (Env : IO_ENVIRONMENT) :
    ∀ (Fuel : Nat) (Io : PSEUDO_RANDOM_IO),
      DestroyCount (SpecialPerformPseudoRandomIoLoop Env Fuel Io).2.System.Trace =
        DestroyCount Io.System.Trace := by
  intro Fuel
  induction Fuel with
  | zero => intro Io; rfl
  | succ Fuel ih =>
    intro Io
    by_cases hR : Io.BytesRemaining = 0
    · rw [SpecialPerformPseudoRandomIoLoop_done Env _ Io hR]
    · by_cases hW : Io.Irp.MinorCode = IrpMinorIoWrite
      · by_cases hS : KSUCCESS (Env.CopyStatus Io.IoBufferOffset) = true
        · rw [SpecialPerformPseudoRandomIoLoop_write_ok Env Fuel Io hR hW hS, ih]
          show DestroyCount (Io.System.Trace ++ _) = _
          rw [DestroyCount_append]
          simp [DestroyCount]
        · have hF : KSUCCESS (Env.CopyStatus Io.IoBufferOffset) = false := by simpa using hS
          rw [SpecialPerformPseudoRandomIoLoop_write_fail Env Fuel Io hR hW hF]
          show DestroyCount (Io.System.Trace ++ _) = _
          rw [DestroyCount_append]
          simp [DestroyCount]
      · by_cases hS : KSUCCESS (Env.CopyStatus Io.IoBufferOffset) = true
        · rw [SpecialPerformPseudoRandomIoLoop_read_ok Env Fuel Io hR hW hS, ih]
          show DestroyCount (Io.System.Trace ++ _) = _
          rw [DestroyCount_append]
          simp [DestroyCount]
        · have hF : KSUCCESS (Env.CopyStatus Io.IoBufferOffset) = false := by simpa using hS
          rw [SpecialPerformPseudoRandomIoLoop_read_fail Env Fuel Io hR hW hF]
          show DestroyCount (Io.System.Trace ++ _) = _
          rw [DestroyCount_append]
          simp [DestroyCount]

/-- A read or write on the pseudo-random device whose lock is free leaves the
device as it was. -/
theorem SpecialDispatchIo_Device_unlocked (Irp : IRP) (Env : IO_ENVIRONMENT) (s : SYSTEM)
    (hLock : s.Device.Lock = false) :
    (SpecialDispatchIo Irp Env s).2.Device = s.Device := by
  obtain ⟨_, _, h3, _⟩ := SpecialDispatchIo_frame Irp Env s
  rcases h3 with h3 | h3
  · exact h3
  · rw [h3]
    rcases s with ⟨c, ⟨t, ct, rc, fc, l, i, ir⟩, rl, tr⟩
    simp only at hLock
    subst hLock
    rfl

/-- A read or write on the pseudo-random device whose scratch allocation and
buffer copies all succeed: what it reports, and what it has the generator
do. -/
theorem SpecialDispatchIo_random_calls (Irp : IRP) (Env : IO_ENVIRONMENT) (s : SYSTEM)
    (Address : Nat) (hType : s.Device.Type_ = SpecialDevicePseudoRandom)
    (hAlloc : Env.ScratchAllocation = some Address)
    (hCopy : ∀ j, 2048 * j < Irp.IoSizeInBytes → KSUCCESS (Env.CopyStatus (2048 * j)) = true) :
    (SpecialDispatchIo Irp Env s).1.IoBytesCompleted = Irp.IoSizeInBytes ∧
    Completions (SpecialDispatchIo Irp Env s).2.Trace = Completions s.Trace ++ [STATUS_SUCCESS] ∧
    CsprngCallSizes (SpecialDispatchIo Irp Env s).2.Trace =
      CsprngCallSizes s.Trace ++ ChunkSizes Irp.IoSizeInBytes ∧
    DestroyCount (SpecialDispatchIo Irp Env s).2.Trace = DestroyCount s.Trace ∧
    (∀ Data : List Nat, Irp.MinorCode = IrpMinorIoWrite → Irp.IoBuffer = some Data →
      Irp.IoSizeInBytes ≤ Data.length →
      FortunaAddEntropyCalls (SpecialDispatchIo Irp Env s).2.Trace =
          FortunaAddEntropyCalls s.Trace ++ ChunkSlices Data Irp.IoSizeInBytes ∧
        FortunaGetRandomBytesCalls (SpecialDispatchIo Irp Env s).2.Trace =
          FortunaGetRandomBytesCalls s.Trace) ∧
    (∀ Buffer : List Nat, Irp.MinorCode ≠ IrpMinorIoWrite → Irp.IoBuffer = some Buffer →
      Irp.IoSizeInBytes ≤ Buffer.length →
      FortunaGetRandomBytesCalls (SpecialDispatchIo Irp Env s).2.Trace =
          FortunaGetRandomBytesCalls s.Trace ++
            ChunkSlices ((List.range Irp.IoSizeInBytes).map Env.RandomByte) Irp.IoSizeInBytes ∧
        FortunaAddEntropyCalls (SpecialDispatchIo Irp Env s).2.Trace =
          FortunaAddEntropyCalls s.Trace) := by
  obtain ⟨Io, r, hr, hI, hB, hO, hSys, hIrp, hEnd⟩ :=
    SpecialDispatchIo_random_loop Irp Env s Address hType hAlloc
  have hCopy' : ∀ j, 2048 * j < Io.BytesRemaining →
      KSUCCESS (Env.CopyStatus (Io.IoBufferOffset + 2048 * j)) = true := by
    rw [hB, hO]
    simpa using hCopy
  have hAdd : FortunaAddEntropyCalls Io.System.Trace = FortunaAddEntropyCalls s.Trace := by
    rw [hSys]
    simp only [emit_Trace, FortunaAddEntropyCalls_append, FortunaAddEntropyCalls_ASSERT]
    simp [FortunaAddEntropyCalls]
  have hGet : FortunaGetRandomBytesCalls Io.System.Trace =
      FortunaGetRandomBytesCalls s.Trace := by
    rw [hSys]
    simp only [emit_Trace, FortunaGetRandomBytesCalls_append, FortunaGetRandomBytesCalls_ASSERT]
    simp [FortunaGetRandomBytesCalls]
  have hSizes : CsprngCallSizes Io.System.Trace = CsprngCallSizes s.Trace := by
    rw [hSys]
    simp only [emit_Trace, CsprngCallSizes_append, CsprngCallSizes_ASSERT]
    simp [CsprngCallSizes]
  have hComp : Completions Io.System.Trace = Completions s.Trace := by
    rw [hSys]
    simp only [emit_Trace, Completions_append, Completions_ASSERT]
    simp [Completions]
  have hDes : DestroyCount Io.System.Trace = DestroyCount s.Trace := by
    rw [hSys]
    simp only [emit_Trace, DestroyCount_append, DestroyCount_ASSERT]
    simp [DestroyCount]
  obtain ⟨hStatus, hDone, hCalls⟩ := SpecialPerformPseudoRandomIoLoop_success Env
    Irp.IoSizeInBytes Io (by rw [hB]) hCopy'
  obtain ⟨_, _, _, _, New, hNew, _, _, hNewComp, _⟩ :=
    SpecialPerformPseudoRandomIoLoop_frame Env Irp.IoSizeInBytes Io
  have hLoopDes := SpecialPerformPseudoRandomIoLoop_DestroyCount Env Irp.IoSizeInBytes Io
  rw [← hr] at hStatus hDone hCalls hNew hLoopDes
  refine ⟨?_, ?_, ?_, ?_, ?_, ?_⟩
  · rw [hIrp]
    show Irp.IoSizeInBytes - r.2.BytesRemaining = _
    rw [hDone]
    rfl
  · rw [hEnd]
    simp only [emit_Trace, Completions_append, hNew, hNewComp, hComp, hStatus]
    simp [Completions]
  · rw [hEnd]
    simp only [emit_Trace, CsprngCallSizes_append, hCalls, hSizes, hB]
    simp [CsprngCallSizes]
  · rw [hEnd]
    simp only [emit_Trace, DestroyCount_append, hLoopDes, hDes]
    simp [DestroyCount]
  · intro Data hWrite hBuf hLen
    obtain ⟨h1, h2, _⟩ := SpecialPerformPseudoRandomIoLoop_write_content Env Data
      Irp.IoSizeInBytes Io (by rw [hB]) (by rw [hI]; exact hWrite) (by rw [hI]; exact hBuf)
      (by rw [hB, hO]; omega) hCopy'
    rw [← hr, hB, hO, List.drop_zero] at h1
    rw [← hr] at h2
    constructor
    · rw [hEnd]
      simp only [emit_Trace, FortunaAddEntropyCalls_append, h1, hAdd]
      simp [FortunaAddEntropyCalls]
    · rw [hEnd]
      simp only [emit_Trace, FortunaGetRandomBytesCalls_append, h2, hGet]
      simp [FortunaGetRandomBytesCalls]
  · intro Buffer hRead hBuf hLen
    obtain ⟨h1, h2, _⟩ := SpecialPerformPseudoRandomIoLoop_read_content Env Irp.IoSizeInBytes
      Irp.IoSizeInBytes Io Buffer (by rw [hB]) (by rw [hI]; exact hRead)
      (by rw [hI]; exact hBuf) (by rw [hB, hO]; omega) hLen hCopy'
    rw [← hr, hB, hO, List.drop_zero] at h1
    rw [← hr] at h2
    constructor
    · rw [hEnd]
      simp only [emit_Trace, FortunaGetRandomBytesCalls_append, h1, hGet]
      simp [FortunaGetRandomBytesCalls]
    · rw [hEnd]
      simp only [emit_Trace, FortunaAddEntropyCalls_append, h2, hAdd]
      simp [FortunaAddEntropyCalls]

theorem ChunkSlices_two (Data : List Nat) (hData : Data.length = 4096) :
    ChunkSlices Data 4096 = [Data.take 2048, Data.drop 2048] := by
  have h : (Data.drop 2048).take 2048 = Data.drop 2048 :=
    List.take_of_length_le (by rw [List.length_drop, hData])
  rw [ChunkSlices_step Data 4096 (by decide),
    show min 2048 4096 = 2048 from by decide, show 4096 - 2048 = 2048 from by decide,
    ChunkSlices_step (Data.drop 2048) 2048 (by decide),
    show min 2048 2048 = 2048 from by decide, show 2048 - 2048 = 0 from by decide,
    ChunkSlices_zero, h]

theorem ChunkSlices_one (Data : List Nat) (hData : Data.length = 10) :
    ChunkSlices Data 10 = [Data] := by
  rw [ChunkSlices_step Data 10 (by decide),
    show min 2048 10 = 10 from by decide, show 10 - 10 = 0 from by decide,
    ChunkSlices_zero, List.take_of_length_le (by rw [hData])]

/-- C24: `urandom` is attached, opened, started, written 4096 bytes, read 10
bytes, closed and removed, and every call into the kernel succeeds.  Then the
reference count is 1, 2, 2, 2, 2, 1 and 0 after the seven steps.  The start
finds the interface unregistered, is completed with success and leaves it
registered, and it stays registered until the removal.  The write is
completed with success and 4096 bytes completed; the generator is called
twice for it, with 2048 bytes each, both times to mix in, first the first half
of the data and then the second.  The read is completed with success and 10
bytes completed; the generator is called once for it, to produce 10 bytes.
Nothing is destroyed up to and including the close.  The removal withdraws the
interface, clears the registration, destroys the device once, without
assertion fault, frees it and is completed with success. -/
theorem Scenario_spec (x : SPECIAL_SCENARIO) (Context AddressWrite AddressRead : Nat)
    (Data Buffer : List Nat)
    (hAllocation : x.AddDevice.Allocation = some Context)
    (hAttach : x.AddDevice.AttachStatus = STATUS_SUCCESS)
    (hStartMajor : x.Start.MajorCode = IrpMajorStateChange)
    (hStartMinor : x.Start.MinorCode = IrpMinorStartDevice)
    (hStartUp : x.Start.Direction = IrpUp)
    (hCreate : x.StartEnvironment.CreateInterfaceStatus = STATUS_SUCCESS)
    (hWrite : x.Write.MinorCode = IrpMinorIoWrite)
    (hWriteSize : x.Write.IoSizeInBytes = 4096)
    (hWriteData : x.Write.IoBuffer = some Data) (hData : Data.length = 4096)
    (hWriteAlloc : x.WriteEnvironment.ScratchAllocation = some AddressWrite)
    (hWriteCopy : ∀ Offset, KSUCCESS (x.WriteEnvironment.CopyStatus Offset) = true)
    (hRead : x.Read.MinorCode = IrpMinorIoRead)
    (hReadSize : x.Read.IoSizeInBytes = 10)
    (hReadBuffer : x.Read.IoBuffer = some Buffer) (hBuffer : 10 ≤ Buffer.length)
    (hReadAlloc : x.ReadEnvironment.ScratchAllocation = some AddressRead)
    (hReadCopy : ∀ Offset, KSUCCESS (x.ReadEnvironment.CopyStatus Offset) = true)
    (hRemoveMajor : x.Remove.MajorCode = IrpMajorStateChange)
    (hRemoveMinor : x.Remove.MinorCode = IrpMinorRemoveDevice)
    (hRemoveUp : x.Remove.Direction = IrpUp)
    (hDestroy : x.RemoveEnvironment.DestroyInterfaceStatus = STATUS_SUCCESS) :
    ((ScenarioAttached x).Device.ReferenceCount = 1 ∧
      (ScenarioOpened x).Device.ReferenceCount = 2 ∧
      (ScenarioStarted x).Device.ReferenceCount = 2 ∧
      (ScenarioWritten x).2.Device.ReferenceCount = 2 ∧
      (ScenarioRead x).2.Device.ReferenceCount = 2 ∧
      (ScenarioClosed x).Device.ReferenceCount = 1 ∧
      (ScenarioRemoved x).Device.ReferenceCount = 0) ∧
    ((ScenarioOpened x).Device.InterfaceRegistered = false ∧
      (ScenarioStarted x).Device.InterfaceRegistered = true ∧
      Completions (ScenarioStarted x).Trace =
        Completions (ScenarioOpened x).Trace ++ [STATUS_SUCCESS] ∧
      (ScenarioWritten x).2.Device.InterfaceRegistered = true ∧
      (ScenarioRead x).2.Device.InterfaceRegistered = true ∧
      (ScenarioClosed x).Device.InterfaceRegistered = true) ∧
    ((ScenarioWritten x).1.IoBytesCompleted = 4096 ∧
      Completions (ScenarioWritten x).2.Trace =
        Completions (ScenarioStarted x).Trace ++ [STATUS_SUCCESS] ∧
      CsprngCallSizes (ScenarioWritten x).2.Trace =
        CsprngCallSizes (ScenarioStarted x).Trace ++ [2048, 2048] ∧
      FortunaAddEntropyCalls (ScenarioWritten x).2.Trace =
        FortunaAddEntropyCalls (ScenarioStarted x).Trace ++ [Data.take 2048, Data.drop 2048] ∧
      FortunaGetRandomBytesCalls (ScenarioWritten x).2.Trace =
        FortunaGetRandomBytesCalls (ScenarioStarted x).Trace) ∧
    ((ScenarioRead x).1.IoBytesCompleted = 10 ∧
      Completions (ScenarioRead x).2.Trace =
        Completions (ScenarioWritten x).2.Trace ++ [STATUS_SUCCESS] ∧
      CsprngCallSizes (ScenarioRead x).2.Trace =
        CsprngCallSizes (ScenarioWritten x).2.Trace ++ [10] ∧
      FortunaGetRandomBytesCalls (ScenarioRead x).2.Trace =
        FortunaGetRandomBytesCalls (ScenarioWritten x).2.Trace ++
          [(List.range 10).map x.ReadEnvironment.RandomByte] ∧
      FortunaAddEntropyCalls (ScenarioRead x).2.Trace =
        FortunaAddEntropyCalls (ScenarioWritten x).2.Trace) ∧
    (DestroyCount (ScenarioClosed x).Trace = 0 ∧
      (ScenarioRemoved x).Trace = (ScenarioClosed x).Trace ++
        [EVENT.IoDestroyInterface x.Remove.Device STATUS_SUCCESS,
          EVENT.SpecialDestroyDevice,
          EVENT.MmFreeNonPagedPool (ScenarioClosed x).Context,
          EVENT.IoCompleteIrp x.Remove STATUS_SUCCESS] ∧
      DestroyCount (ScenarioRemoved x).Trace = 1 ∧
      (ScenarioRemoved x).Device.InterfaceRegistered = false) := by
  -- attach
  have h0 : ScenarioAttached x =
      SpecialAddDeviceCreated SpecialDevicePseudoRandom Context x.DeviceToken x.AddDevice := by
    unfold ScenarioAttached
    rw [SpecialAddDevice_eq "urandom" x.DeviceToken x.AddDevice SpecialDevicePseudoRandom
      Context (by decide) hAllocation, SpecialAddDeviceEnd_some, hAttach]
    simp [KSUCCESS]
  have type0 : (ScenarioAttached x).Device.Type_ = SpecialDevicePseudoRandom := by
    rw [h0]; rfl
  have count0 : (ScenarioAttached x).Device.ReferenceCount = 1 := by rw [h0]; rfl
  have reg0 : (ScenarioAttached x).Device.InterfaceRegistered = false := by rw [h0]; rfl
  have des0 : DestroyCount (ScenarioAttached x).Trace = 0 := by
    rw [h0]
    simp [SpecialAddDeviceCreated, DestroyCount]
  -- open
  have dev1 : (ScenarioOpened x).Device =
      { (ScenarioAttached x).Device with
        ReferenceCount := ((ScenarioAttached x).Device.ReferenceCount + 1) % 4294967296 } :=
    SpecialDispatchOpen_Device x.Open (ScenarioAttached x)
  have type1 : (ScenarioOpened x).Device.Type_ = SpecialDevicePseudoRandom := by
    rw [dev1]; exact type0
  have count1 : (ScenarioOpened x).Device.ReferenceCount = 2 := by
    rw [dev1]
    show ((ScenarioAttached x).Device.ReferenceCount + 1) % 4294967296 = 2
    rw [count0]
  have reg1 : (ScenarioOpened x).Device.InterfaceRegistered = false := by
    rw [dev1]; exact reg0
  have des1 : DestroyCount (ScenarioOpened x).Trace = 0 := by
    unfold ScenarioOpened
    rw [SpecialDispatchOpen_DestroyCount, des0]
  -- start
  have h2 : ScenarioStarted x = _ :=
    SpecialDispatchStateChange_start_unregistered x.Start x.StartEnvironment (ScenarioOpened x)
      type1 reg1 hStartMajor hStartMinor hStartUp
  have type2 : (ScenarioStarted x).Device.Type_ = SpecialDevicePseudoRandom := by
    rw [h2]; exact type1
  have count2 : (ScenarioStarted x).Device.ReferenceCount = 2 := by
    rw [h2]; exact count1
  have reg2 : (ScenarioStarted x).Device.InterfaceRegistered = true := by
    rw [h2]
    show KSUCCESS x.StartEnvironment.CreateInterfaceStatus = true
    rw [hCreate]
    rfl
  have lock2 : (ScenarioStarted x).Device.Lock = false := by rw [h2]
  have des2 : DestroyCount (ScenarioStarted x).Trace = 0 := by
    rw [h2]
    show DestroyCount ((ScenarioOpened x).Trace ++ _) = 0
    rw [DestroyCount_append, des1]
    simp [DestroyCount]
  have comp2 : Completions (ScenarioStarted x).Trace =
      Completions (ScenarioOpened x).Trace ++ [STATUS_SUCCESS] := by
    rw [h2]
    show Completions ((ScenarioOpened x).Trace ++ _) = _
    rw [Completions_append, hCreate]
    simp [Completions]
  -- write
  have dev3 : (ScenarioWritten x).2.Device = (ScenarioStarted x).Device :=
    SpecialDispatchIo_Device_unlocked x.Write x.WriteEnvironment (ScenarioStarted x) lock2
  obtain ⟨w1, w2, w3, w4, w5, _⟩ := SpecialDispatchIo_random_calls x.Write x.WriteEnvironment
    (ScenarioStarted x) AddressWrite type2 hWriteAlloc (fun j _ => hWriteCopy (2048 * j))
  obtain ⟨w6, w7⟩ := w5 Data hWrite hWriteData (by rw [hWriteSize, hData])
  rw [hWriteSize] at w1 w3 w6
  rw [show ChunkSizes 4096 = [2048, 2048] from by decide] at w3
  rw [ChunkSlices_two Data hData] at w6
  have type3 : (ScenarioWritten x).2.Device.Type_ = SpecialDevicePseudoRandom := by
    rw [dev3]; exact type2
  have lock3 : (ScenarioWritten x).2.Device.Lock = false := by rw [dev3]; exact lock2
  have des3 : DestroyCount (ScenarioWritten x).2.Trace = 0 := w4.trans des2
  -- read
  have hReadWrite : x.Read.MinorCode ≠ IrpMinorIoWrite := by rw [hRead]; decide
  have dev4 : (ScenarioRead x).2.Device = (ScenarioWritten x).2.Device :=
    SpecialDispatchIo_Device_unlocked x.Read x.ReadEnvironment (ScenarioWritten x).2 lock3
  obtain ⟨r1, r2, r3, r4, _, r5⟩ := SpecialDispatchIo_random_calls x.Read x.ReadEnvironment
    (ScenarioWritten x).2 AddressRead type3 hReadAlloc (fun j _ => hReadCopy (2048 * j))
  obtain ⟨r6, r7⟩ := r5 Buffer hReadWrite hReadBuffer (by rw [hReadSize]; exact hBuffer)
  rw [hReadSize] at r1 r3 r6
  rw [show ChunkSizes 10 = [10] from by decide] at r3
  rw [ChunkSlices_one _ (by simp)] at r6
  have count4 : (ScenarioRead x).2.Device.ReferenceCount = 2 := by
    rw [dev4, dev3]; exact count2
  have reg4 : (ScenarioRead x).2.Device.InterfaceRegistered = true := by
    rw [dev4, dev3]; exact reg2
  have type4 : (ScenarioRead x).2.Device.Type_ = SpecialDevicePseudoRandom := by
    rw [dev4]; exact type3
  have des4 : DestroyCount (ScenarioRead x).2.Trace = 0 := r4.trans des3
  -- close
  have dev5 : (ScenarioClosed x).Device =
      { (ScenarioRead x).2.Device with
        ReferenceCount :=
          ((ScenarioRead x).2.Device.ReferenceCount + 0xFFFFFFFF) % 4294967296 } :=
    SpecialDispatchClose_Device x.Close (ScenarioRead x).2
  have count5 : (ScenarioClosed x).Device.ReferenceCount = 1 := by
    rw [dev5]
    show ((ScenarioRead x).2.Device.ReferenceCount + 0xFFFFFFFF) % 4294967296 = 1
    rw [count4]
  have reg5 : (ScenarioClosed x).Device.InterfaceRegistered = true := by
    rw [dev5]; exact reg4
  have type5 : (ScenarioClosed x).Device.Type_ = SpecialDevicePseudoRandom := by
    rw [dev5]; exact type4
  have des5 : DestroyCount (ScenarioClosed x).Trace = 0 := by
    unfold ScenarioClosed
    rw [SpecialDispatchClose_DestroyCount, des4, count4]
    rfl
  -- remove
  have h6 : ScenarioRemoved x = _ :=
    SpecialDispatchStateChange_remove_ok x.Remove x.RemoveEnvironment (ScenarioClosed x)
      type5 hRemoveMajor hRemoveMinor hRemoveUp (fun _ => by rw [hDestroy]; rfl)
  obtain ⟨l1, l2⟩ := SpecialDeviceReleaseReference_last
    { ScenarioClosed x with
      Device := { (ScenarioClosed x).Device with InterfaceRegistered := false },
      Trace := (ScenarioClosed x).Trace ++
        (if (ScenarioClosed x).Device.InterfaceRegistered = true then
          [EVENT.IoDestroyInterface x.Remove.Device x.RemoveEnvironment.DestroyInterfaceStatus]
        else []) } count5 rfl
  have trace6 : (ScenarioRemoved x).Trace = (ScenarioClosed x).Trace ++
      [EVENT.IoDestroyInterface x.Remove.Device STATUS_SUCCESS,
        EVENT.SpecialDestroyDevice,
        EVENT.MmFreeNonPagedPool (ScenarioClosed x).Context,
        EVENT.IoCompleteIrp x.Remove STATUS_SUCCESS] := by
    rw [h6, emit_Trace, l2]
    simp [reg5, type5, hDestroy]
  have count6 : (ScenarioRemoved x).Device.ReferenceCount = 0 := by
    rw [h6, emit_Device]
    exact l1
  have reg6 : (ScenarioRemoved x).Device.InterfaceRegistered = false := by
    rw [h6, emit_Device, SpecialDeviceReleaseReference_Device]
  have des6 : DestroyCount (ScenarioRemoved x).Trace = 1 := by
    rw [trace6, DestroyCount_append, des5]
    simp [DestroyCount]
  exact ⟨⟨count0, count1, count2, by rw [dev3]; exact count2, count4, count5, count6⟩,
    ⟨reg1, reg2, comp2, by rw [dev3]; exact reg2, reg4, reg5⟩,
    ⟨w1, w2, w3, w6, w7⟩, ⟨r1, r2, r3, r6, r7⟩, ⟨des5, trace6, des6, reg6⟩⟩

/-- C24, at concrete inputs: the scenario on device token 7, with a write of
4096 bytes that are all 5 and a read of 10 bytes. -/
theorem Scenario_spec_witness :
    (SampleScenario.AddDevice.Allocation = some 4096 ∧
      SampleScenario.Write.IoSizeInBytes = 4096 ∧
      SampleScenario.Write.IoBuffer = some (List.replicate 4096 5) ∧
      SampleScenario.Read.IoSizeInBytes = 10) ∧
    ((ScenarioAttached SampleScenario).Device.ReferenceCount = 1 ∧
      (ScenarioOpened SampleScenario).Device.ReferenceCount = 2 ∧
      (ScenarioStarted SampleScenario).Device.ReferenceCount = 2 ∧
      (ScenarioWritten SampleScenario).2.Device.ReferenceCount = 2 ∧
      (ScenarioRead SampleScenario).2.Device.ReferenceCount = 2 ∧
      (ScenarioClosed SampleScenario).Device.ReferenceCount = 1 ∧
      (ScenarioRemoved SampleScenario).Device.ReferenceCount = 0) ∧
    (ScenarioWritten SampleScenario).1.IoBytesCompleted = 4096 ∧
    (ScenarioRead SampleScenario).1.IoBytesCompleted = 10 ∧
    DestroyCount (ScenarioRemoved SampleScenario).Trace = 1 :=
  ⟨⟨rfl, rfl, rfl, rfl⟩,
    (Scenario_spec SampleScenario 4096 8192 8192 (List.replicate 4096 5)
      (List.replicate 10 5) rfl rfl rfl rfl rfl rfl rfl rfl rfl (List.length_replicate _ _)
      rfl (fun _ => rfl) rfl rfl rfl (by rw [List.length_replicate]) rfl (fun _ => rfl)
      rfl rfl rfl rfl).1,
    (Scenario_spec SampleScenario 4096 8192 8192 (List.replicate 4096 5)
      (List.replicate 10 5) rfl rfl rfl rfl rfl rfl rfl rfl rfl (List.length_replicate _ _)
      rfl (fun _ => rfl) rfl rfl rfl (by rw [List.length_replicate]) rfl (fun _ => rfl)
      rfl rfl rfl rfl).2.2.1.1,
    (Scenario_spec SampleScenario 4096 8192 8192 (List.replicate 4096 5)
      (List.replicate 10 5) rfl rfl rfl rfl rfl rfl rfl rfl rfl (List.length_replicate _ _)
      rfl (fun _ => rfl) rfl rfl rfl (by rw [List.length_replicate]) rfl (fun _ => rfl)
      rfl rfl rfl rfl).2.2.2.1.1,
    (Scenario_spec SampleScenario 4096 8192 8192 (List.replicate 4096 5)
      (List.replicate 10 5) rfl rfl rfl rfl rfl rfl rfl rfl rfl (List.length_replicate _ _)
      rfl (fun _ => rfl) rfl rfl rfl (by rw [List.length_replicate]) rfl (fun _ => rfl)
      rfl rfl rfl rfl).2.2.2.2.2.2.1⟩

end Special
